import Mathlib

/-!
# Array.h and hpgvd.hpp of the C++ simulation runtime

Shallow embedding of `SimulationRuntime/cpp/Include/Core/Math/Array.h`, the array classes,
and of `Core/Utils/numeric/bindings/lapack/driver/hpgvd.hpp`, the binding of the LAPACK
drivers xSPGVD and xHPGVD.

* `size_t` values are natural numbers below `SIZE_MOD = 2 ^ 64`; every `size_t`
  operation of the source is taken modulo `SIZE_MOD` (`szAdd`, `szSub`, `szMul`).
* Storage is one flat memory `Mem T`, a map from addresses to values.  A pointer
  `T*` is an address, `NULL` is address `0`, and `p[k]` is the cell `p + k`.
* A reference `T&` returned by an index operator is the address of the cell; reading
  through it is `m p`, writing through it is `Mem.write m p v`.
* A class template becomes a structure whose parameters are the template arguments;
  a derived class extends the structure of its base class.
* A failed `assert`, a thrown exception and a read past the end of an index vector
  are values of `Fault`.  A method that can throw returns an `Outcome`: what it returns or
  throws, together with the state it leaves.
* `boost::multi_array`, which `DynArray` wraps, is not part of the source tree; it is
  modelled by `MultiArray` after its documented behaviour.
* The LAPACK routine and the bindings library that `hpgvd.hpp` calls are not part of the
  source tree either; they are an environment (`SpgvdEnv`, `HpgvdEnv`), and a run records
  the calls of the routine (`LapackRun`).  `std::ptrdiff_t` values are integers, wrapped to
  64 bits by `wrapPtrdiff` where the source computes with them.
-/

/-! ## size_t arithmetic -/

/-- Number of values of `size_t` (64 bit): `2 ^ 64`. -/
def SIZE_MOD : Nat := 18446744073709551616

/-- Addition of two `size_t` values. -/
def szAdd (a b : Nat) : Nat := (a + b) % SIZE_MOD

/-- Subtraction of two `size_t` values; wraps around below zero. -/
def szSub (a b : Nat) : Nat := (a + (SIZE_MOD - b % SIZE_MOD)) % SIZE_MOD

/-- Multiplication of two `size_t` values. -/
def szMul (a b : Nat) : Nat := (a * b) % SIZE_MOD

/-- Product of a list of `size_t` values, computed in `size_t`. -/
def szProd (l : List Nat) : Nat := l.foldl szMul (1 % SIZE_MOD)

/-! ## Memory, pointers, faults -/

/-- Flat memory: the value stored at every address. -/
abbrev Mem (T : Type) := Nat → T

/-- The null pointer. -/
def NULL : Nat := 0

/-- Store `v` in the cell at address `p`. -/
def Mem.write {T : Type} (m : Mem T) (p : Nat) (v : T) : Mem T :=
  fun q => if q = p then v else m q

/-- The ways an operation of the array classes can fail. -/
inductive Fault where
  /-- An `assert` of the source does not hold. -/
  | assertion
  /-- A `std::runtime_error` is thrown. -/
  | runtime_error
  /-- A `ModelicaSimulationError(MODEL_ARRAY_FUNCTION, ..)` is thrown. -/
  | model_array_function
  /-- An index vector is read past its end. -/
  | vector_range
  deriving DecidableEq

deriving instance DecidableEq for Except

/-- Result of a method call: what the call returns or throws, and the state it leaves
behind (a C++ exception does not undo what was done before it was thrown). -/
abbrev Outcome (α σ : Type) := Except Fault α × σ

/-- The element `idx[k]` of an index vector `const vector<size_t>& idx`. -/
def vecAt (idx : List Nat) (k : Nat) : Except Fault Nat :=
  match idx.get? k with
  | some i => .ok i
  | none => .error Fault.vector_range

/-- Read through the reference returned by an index operator. -/
def readAt {T : Type} (m : Mem T) (r : Except Fault Nat) : Except Fault T :=
  r.map m

/-- Write `v` through the reference returned by an index operator. -/
def writeAt {T : Type} (m : Mem T) (r : Except Fault Nat) (v : T) : Except Fault (Mem T) :=
  r.map (fun p => Mem.write m p v)

/-- Algorithm `std::copy(src, src + n, dst)` on cells of the memory, front to back. -/
def std_copy {T : Type} (m : Mem T) (src n dst : Nat) : Mem T :=
  (List.range n).foldl (fun acc k => Mem.write acc (dst + k) (acc (src + k))) m

/-- Column-major offset of the 1-based index pair `(i, j)` in an array whose first
dimension has size `d1`, as a natural number. -/
def colMajor2 (d1 i j : Nat) : Nat := (i - 1) + d1 * (j - 1)

/-- Column-major offset of the 1-based index triple `(i, j, k)` in an array whose
first two dimensions have sizes `d1` and `d2`, as a natural number. -/
def colMajor3 (d1 d2 i j k : Nat) : Nat := (i - 1) + d1 * ((j - 1) + d2 * (k - 1))

/-- Row-major offset of the 1-based index pair `(i, j)` in an array whose second
dimension has size `d2`, as a natural number. -/
def rowMajor2 (d2 i j : Nat) : Nat := (i - 1) * d2 + (j - 1)

/-! ## RefArray: array of references to externally stored elements -/

/-- Class `RefArray<T, nelems>`: `_ref_array` is the table
`T* _ref_array[nelems == 0 ? 1 : nelems]` (slot to address), `_tmp_data` is the
address of the buffer `mutable T _tmp_data[..]`.  A slot that was never written
holds `NULL`. -/
structure RefArray (nelems : Nat) where
  _ref_array : Nat → Nat
  _tmp_data : Nat

/-- Constructor `RefArray(T* data)`: slot `k` receives `&data[k]` for `k < nelems`.
The argument `tmp` is the address of the `_tmp_data` buffer of the new object. -/
def RefArray.ofData {nelems : Nat} (tmp data : Nat) : RefArray nelems :=
  { _ref_array := fun k => if k < nelems then data + k else NULL, _tmp_data := tmp }

/-- Constructor `RefArray(T* const* ref_data)`: copies `nelems` addresses of the table
`ref_data` when `nelems > 0`. -/
def RefArray.ofRefs {nelems : Nat} (tmp : Nat) (ref_data : Nat → Nat) : RefArray nelems :=
  { _ref_array := fun k => if k < nelems then ref_data k else NULL, _tmp_data := tmp }

/-- Default constructor `RefArray()`. -/
def RefArray.empty {nelems : Nat} (tmp : Nat) : RefArray nelems :=
  { _ref_array := fun _ => NULL, _tmp_data := tmp }

/-- Method `RefArray::getDataRefs`. -/
def RefArray.getDataRefs {nelems : Nat} (a : RefArray nelems) : Nat → Nat :=
  a._ref_array

/-- Method `RefArray::getNumElems`. -/
def RefArray.getNumElems {nelems : Nat} (_a : RefArray nelems) : Nat :=
  nelems

/-- Method `RefArray::setDims`: empty body. -/
def RefArray.setDims {T : Type} {nelems : Nat} (a : RefArray nelems) (m : Mem T)
    (_v : List Nat) : RefArray nelems × Mem T :=
  (a, m)

/-- Method `RefArray::resize`: throws `std::runtime_error` whatever `dims` is. -/
def RefArray.resize {T : Type} {nelems : Nat} (a : RefArray nelems) (m : Mem T)
    (_dims : List Nat) : Outcome Unit (RefArray nelems × Mem T) :=
  (.error Fault.runtime_error, (a, m))

/-- Method `RefArray::getDataCopy`: `assert(n <= nelems)`, then `data[k] = *_ref_array[k]`
for `k < n`, front to back. -/
def RefArray.getDataCopy {T : Type} {nelems : Nat} (a : RefArray nelems) (m : Mem T)
    (data n : Nat) : Outcome Unit (Mem T) :=
  if n ≤ nelems then
    (.ok (), (List.range n).foldl (fun acc k => Mem.write acc (data + k) (acc (a._ref_array k))) m)
  else (.error Fault.assertion, m)

/-- Class `RefArrayDim1<T, size>`, derived from `RefArray<T, size>`. -/
structure RefArrayDim1 (size : Nat) extends RefArray size

/-- Operator `RefArrayDim1::operator()(size_t index)`:
`assert(size > (index - 1))`, then `*_ref_array[index-1]`. -/
def RefArrayDim1.opCall {size : Nat} (a : RefArrayDim1 size) (index : Nat) : Except Fault Nat :=
  if size > szSub index 1 then .ok (a._ref_array (szSub index 1)) else .error Fault.assertion

/-- Operators `RefArrayDim1::operator()(const vector<size_t>& idx)`, const and
non-const. -/
def RefArrayDim1.opCallIdx {size : Nat} (a : RefArrayDim1 size) (idx : List Nat) :
    Except Fault Nat := do
  let i ← vecAt idx 0
  if size > szSub i 1 then .ok (a._ref_array (szSub i 1)) else .error Fault.assertion

/-- Method `RefArrayDim1::getDims`. -/
def RefArrayDim1.getDims {size : Nat} (_a : RefArrayDim1 size) : List Nat :=
  [size]

/-- Class `RefArrayDim2<T, size1, size2>`, derived from `RefArray<T, size1*size2>`. -/
structure RefArrayDim2 (size1 size2 : Nat) extends RefArray (szMul size1 size2)

/-- Operator `RefArrayDim2::operator()(size_t i, size_t j)`:
`assert((size1*size2) > ((i-1)*size2 + (j-1)))`, then
`*_ref_array[(i-1)*size2 + (j-1)]`. -/
def RefArrayDim2.opCall {size1 size2 : Nat} (a : RefArrayDim2 size1 size2) (i j : Nat) :
    Except Fault Nat :=
  if szMul size1 size2 > szAdd (szMul (szSub i 1) size2) (szSub j 1) then
    .ok (a._ref_array (szAdd (szMul (szSub i 1) size2) (szSub j 1)))
  else .error Fault.assertion

/-- Operators `RefArrayDim2::operator()(const vector<size_t>& idx)`, const and
non-const. -/
def RefArrayDim2.opCallIdx {size1 size2 : Nat} (a : RefArrayDim2 size1 size2)
    (idx : List Nat) : Except Fault Nat := do
  let i ← vecAt idx 0
  let j ← vecAt idx 1
  if szMul size1 size2 > szAdd (szMul (szSub i 1) size2) (szSub j 1) then
    .ok (a._ref_array (szAdd (szMul (szSub i 1) size2) (szSub j 1)))
  else .error Fault.assertion

/-- Method `RefArrayDim2::getDims`. -/
def RefArrayDim2.getDims {size1 size2 : Nat} (_a : RefArrayDim2 size1 size2) : List Nat :=
  [size1, size2]

/-- Class `RefArrayDim3<T, size1, size2, size3>`, derived from
`RefArray<T, size1*size2*size3>`. -/
structure RefArrayDim3 (size1 size2 size3 : Nat)
    extends RefArray (szMul (szMul size1 size2) size3)

/-- Operator `RefArrayDim3::operator()(size_t i, size_t j, size_t k)`:
`assert((size1*size2*size3) > (size3*(i-1 + size2*(j-1)) + (k-1)))`, then
`*_ref_array[size3*(i-1 + size2*(j-1)) + (k-1)]`. -/
def RefArrayDim3.opCall {size1 size2 size3 : Nat} (a : RefArrayDim3 size1 size2 size3)
    (i j k : Nat) : Except Fault Nat :=
  if szMul (szMul size1 size2) size3 >
      szAdd (szMul size3 (szAdd (szSub i 1) (szMul size2 (szSub j 1)))) (szSub k 1) then
    .ok (a._ref_array
      (szAdd (szMul size3 (szAdd (szSub i 1) (szMul size2 (szSub j 1)))) (szSub k 1)))
  else .error Fault.assertion

/-- Operators `RefArrayDim3::operator()(const vector<size_t>& idx)`, const and
non-const: `assert((size1*size2*size3) > (size3*(idx[0]-1 + size2*(idx[1]-1)) + idx[2]-1))`,
then `*_ref_array[size3*(idx[0]-1 + size2*(idx[1]-1)) + idx[2]-1]`. -/
def RefArrayDim3.opCallIdx {size1 size2 size3 : Nat} (a : RefArrayDim3 size1 size2 size3)
    (idx : List Nat) : Except Fault Nat := do
  let i ← vecAt idx 0
  let j ← vecAt idx 1
  let k ← vecAt idx 2
  if szMul (szMul size1 size2) size3 >
      szSub (szAdd (szMul size3 (szAdd (szSub i 1) (szMul size2 (szSub j 1)))) k) 1 then
    .ok (a._ref_array
      (szSub (szAdd (szMul size3 (szAdd (szSub i 1) (szMul size2 (szSub j 1)))) k) 1))
  else .error Fault.assertion

/-- Method `RefArrayDim3::getDims`. -/
def RefArrayDim3.getDims {size1 size2 size3 : Nat} (_a : RefArrayDim3 size1 size2 size3) :
    List Nat :=
  [size1, size2, size3]

/-- Constructor `RefArrayDim1(T* data)`. -/
def RefArrayDim1.ofData {size : Nat} (tmp data : Nat) : RefArrayDim1 size :=
  { toRefArray := RefArray.ofData tmp data }

/-- Constructor `RefArrayDim2(T* data)`. -/
def RefArrayDim2.ofData {size1 size2 : Nat} (tmp data : Nat) : RefArrayDim2 size1 size2 :=
  { toRefArray := RefArray.ofData tmp data }

/-- Constructor `RefArrayDim3(T* data)`. -/
def RefArrayDim3.ofData {size1 size2 size3 : Nat} (tmp data : Nat) :
    RefArrayDim3 size1 size2 size3 :=
  { toRefArray := RefArray.ofData tmp data }

/-! ## StatArray: static array with owned or external storage -/

/-- Class `StatArray<T, nelems, external>`: `_array` is the address of the embedded
buffer `T _array[external || nelems == 0 ? 1 : nelems]`, `_data` is the pointer
`T *_data`. -/
structure StatArray (nelems : Nat) (external : Bool) where
  _array : Nat
  _data : Nat
  deriving DecidableEq

/-- Constructor `StatArray(T* data)`: with external storage it stores the pointer,
otherwise it copies `nelems` values into `_array`.  The argument `self` is the address
of the `_array` buffer of the new object. -/
def StatArray.ofData {T : Type} (nelems : Nat) (external : Bool) (self : Nat) (m : Mem T)
    (data : Nat) : StatArray nelems external × Mem T :=
  if external then ({ _array := self, _data := data }, m)
  else ({ _array := self, _data := self }, if nelems > 0 then std_copy m data nelems self else m)

/-- Default constructor `StatArray()`. -/
def StatArray.empty {nelems : Nat} {external : Bool} (self : Nat) : StatArray nelems external :=
  if external then { _array := self, _data := NULL } else { _array := self, _data := self }

/-- Method `StatArray::getData` (both overloads return `_data`). -/
def StatArray.getData {nelems : Nat} {external : Bool} (a : StatArray nelems external) : Nat :=
  a._data

/-- Method `StatArray::getNumElems`. -/
def StatArray.getNumElems {nelems : Nat} {external : Bool} (_a : StatArray nelems external) :
    Nat :=
  nelems

/-- Method `StatArray::getDataCopy`: `if (n > 0) std::copy(_data, _data + n, data)`. -/
def StatArray.getDataCopy {T : Type} {nelems : Nat} {external : Bool}
    (a : StatArray nelems external) (m : Mem T) (data n : Nat) : Outcome Unit (Mem T) :=
  (.ok (), if n > 0 then std_copy m a._data n data else m)

/-- Method `StatArray::resize`: throws `std::runtime_error` when `dims != this->getDims()`
and does nothing otherwise.  The argument `getDims` is the result of the virtual call
`this->getDims()`. -/
def StatArray.resize {T : Type} {nelems : Nat} {external : Bool} (getDims : List Nat)
    (a : StatArray nelems external) (m : Mem T) (dims : List Nat) :
    Outcome Unit (StatArray nelems external × Mem T) :=
  if dims ≠ getDims then (.error Fault.runtime_error, (a, m)) else (.ok (), (a, m))

/-- Class `StatArrayDim1<T, size, external>`, derived from `StatArray<T, size, external>`. -/
structure StatArrayDim1 (size : Nat) (external : Bool) extends StatArray size external where
  deriving DecidableEq

/-- Constructor `StatArrayDim1(T* data)`. -/
def StatArrayDim1.ofData {T : Type} {size : Nat} {external : Bool} (self : Nat) (m : Mem T)
    (data : Nat) : StatArrayDim1 size external × Mem T :=
  ({ toStatArray := (StatArray.ofData _ external self m data).1 },
    (StatArray.ofData size external self m data).2)

/-- Operators `StatArrayDim1::operator()(size_t index)`, const and non-const:
the cell `_data[index - 1]`. -/
def StatArrayDim1.opCall {size : Nat} {external : Bool} (a : StatArrayDim1 size external)
    (index : Nat) : Nat :=
  a._data + szSub index 1

/-- Operators `StatArrayDim1::operator()(const vector<size_t>& idx)`, const and
non-const: the cell `_data[idx[0]-1]`. -/
def StatArrayDim1.opCallIdx {size : Nat} {external : Bool} (a : StatArrayDim1 size external)
    (idx : List Nat) : Except Fault Nat := do
  let i ← vecAt idx 0
  return a._data + szSub i 1

/-- Method `StatArrayDim1::getDims`. -/
def StatArrayDim1.getDims {size : Nat} {external : Bool} (_a : StatArrayDim1 size external) :
    List Nat :=
  [size]

/-- Method `resize` of a `StatArrayDim1`, inherited from `StatArray`. -/
def StatArrayDim1.resize {T : Type} {size : Nat} {external : Bool}
    (a : StatArrayDim1 size external) (m : Mem T) (dims : List Nat) :
    Outcome Unit (StatArrayDim1 size external × Mem T) :=
  ((StatArray.resize a.getDims a.toStatArray m dims).1,
    ({ toStatArray := (StatArray.resize a.getDims a.toStatArray m dims).2.1 },
      (StatArray.resize a.getDims a.toStatArray m dims).2.2))

/-- Class `StatArrayDim2<T, size1, size2, external>`, derived from
`StatArray<T, size1*size2, external>`. -/
structure StatArrayDim2 (size1 size2 : Nat) (external : Bool)
    extends StatArray (szMul size1 size2) external where
  deriving DecidableEq

/-- Constructor `StatArrayDim2(T* data)`. -/
def StatArrayDim2.ofData {T : Type} {size1 size2 : Nat} {external : Bool} (self : Nat)
    (m : Mem T) (data : Nat) : StatArrayDim2 size1 size2 external × Mem T :=
  ({ toStatArray := (StatArray.ofData _ external self m data).1 },
    (StatArray.ofData (szMul size1 size2) external self m data).2)

/-- Operators `StatArrayDim2::operator()(size_t i, size_t j)`, const and non-const:
the cell `_data[i-1 + size1*(j-1)]`. -/
def StatArrayDim2.opCall {size1 size2 : Nat} {external : Bool}
    (a : StatArrayDim2 size1 size2 external) (i j : Nat) : Nat :=
  a._data + szAdd (szSub i 1) (szMul size1 (szSub j 1))

/-- Operators `StatArrayDim2::operator()(const vector<size_t>& idx)`, const and
non-const: the cell `_data[idx[0]-1 + size1*(idx[1]-1)]`. -/
def StatArrayDim2.opCallIdx {size1 size2 : Nat} {external : Bool}
    (a : StatArrayDim2 size1 size2 external) (idx : List Nat) : Except Fault Nat := do
  let i ← vecAt idx 0
  let j ← vecAt idx 1
  return a._data + szAdd (szSub i 1) (szMul size1 (szSub j 1))

/-- Method `StatArrayDim2::getDims`. -/
def StatArrayDim2.getDims {size1 size2 : Nat} {external : Bool}
    (_a : StatArrayDim2 size1 size2 external) : List Nat :=
  [size1, size2]

/-- Method `resize` of a `StatArrayDim2`, inherited from `StatArray`. -/
def StatArrayDim2.resize {T : Type} {size1 size2 : Nat} {external : Bool}
    (a : StatArrayDim2 size1 size2 external) (m : Mem T) (dims : List Nat) :
    Outcome Unit (StatArrayDim2 size1 size2 external × Mem T) :=
  ((StatArray.resize a.getDims a.toStatArray m dims).1,
    ({ toStatArray := (StatArray.resize a.getDims a.toStatArray m dims).2.1 },
      (StatArray.resize a.getDims a.toStatArray m dims).2.2))

/-- Class `StatArrayDim3<T, size1, size2, size3, external>`, derived from
`StatArray<T, size1*size2*size3, external>`. -/
structure StatArrayDim3 (size1 size2 size3 : Nat) (external : Bool)
    extends StatArray (szMul (szMul size1 size2) size3) external where
  deriving DecidableEq

/-- Constructor `StatArrayDim3(T* data)`. -/
def StatArrayDim3.ofData {T : Type} {size1 size2 size3 : Nat} {external : Bool} (self : Nat)
    (m : Mem T) (data : Nat) : StatArrayDim3 size1 size2 size3 external × Mem T :=
  ({ toStatArray := (StatArray.ofData _ external self m data).1 },
    (StatArray.ofData (szMul (szMul size1 size2) size3) external self m data).2)

/-- Operator `StatArrayDim3::operator()(size_t i, size_t j, size_t k)`:
the cell `_data[i-1 + size1*(j-1 + size2*(k-1))]`. -/
def StatArrayDim3.opCall {size1 size2 size3 : Nat} {external : Bool}
    (a : StatArrayDim3 size1 size2 size3 external) (i j k : Nat) : Nat :=
  a._data + szAdd (szSub i 1) (szMul size1 (szAdd (szSub j 1) (szMul size2 (szSub k 1))))

/-- Operators `StatArrayDim3::operator()(const vector<size_t>& idx)`, const and
non-const: the cell `_data[idx[0]-1 + size1*(idx[1]-1 + size2*(idx[2]-1))]`. -/
def StatArrayDim3.opCallIdx {size1 size2 size3 : Nat} {external : Bool}
    (a : StatArrayDim3 size1 size2 size3 external) (idx : List Nat) : Except Fault Nat := do
  let i ← vecAt idx 0
  let j ← vecAt idx 1
  let k ← vecAt idx 2
  return a._data + szAdd (szSub i 1) (szMul size1 (szAdd (szSub j 1) (szMul size2 (szSub k 1))))

/-- Method `StatArrayDim3::getDims`. -/
def StatArrayDim3.getDims {size1 size2 size3 : Nat} {external : Bool}
    (_a : StatArrayDim3 size1 size2 size3 external) : List Nat :=
  [size1, size2, size3]

/-- Method `resize` of a `StatArrayDim3`, inherited from `StatArray`. -/
def StatArrayDim3.resize {T : Type} {size1 size2 size3 : Nat} {external : Bool}
    (a : StatArrayDim3 size1 size2 size3 external) (m : Mem T) (dims : List Nat) :
    Outcome Unit (StatArrayDim3 size1 size2 size3 external × Mem T) :=
  ((StatArray.resize a.getDims a.toStatArray m dims).1,
    ({ toStatArray := (StatArray.resize a.getDims a.toStatArray m dims).2.1 },
      (StatArray.resize a.getDims a.toStatArray m dims).2.2))

/-! ## DynArray: dynamically allocated array -/

/-- Modelled from the spec: the class `boost::multi_array<T, ndims>` of the Boost
library in `boost::fortran_storage_order()`, whose code is not part of the source tree.
It is a heap-owned, column-major buffer: `extent_list_` holds the `ndims` extents that
`shape()` returns, `num_elements_` is what `num_elements()` returns and `base_` is the
address that `data()` returns. -/
structure MultiArray (ndims : Nat) where
  extent_list_ : List Nat
  num_elements_ : Nat
  base_ : Nat
  deriving DecidableEq

/-- Entry `shape()[d]` of a `boost::multi_array`. -/
def MultiArray.shape {ndims : Nat} (a : MultiArray ndims) (d : Nat) : Nat :=
  a.extent_list_.getD d 0

/-- The `ndims` extents that a `boost::multi_array` reads from a collection of extents. -/
def MultiArray.extentsOf (ndims : Nat) (extents : List Nat) : List Nat :=
  (List.range ndims).map (fun d => extents.getD d 0)

/-- Column-major stride of dimension `d` for the extents `ext`. -/
def MultiArray.stride (ext : List Nat) (d : Nat) : Nat :=
  (ext.take d).prod

/-- Index along dimension `d` of the element at column-major offset `k`. -/
def MultiArray.indexOf (ext : List Nat) (k d : Nat) : Nat :=
  (k / MultiArray.stride ext d) % ext.getD d 0

/-- Modelled from the spec: constructor `multi_array(extents, fortran_storage_order())`
of Boost.  It allocates a buffer, here at the address `fresh` handed out by the
allocator, and value-initialises its `num_elements()` elements. -/
def MultiArray.ofExtents {T : Type} [Inhabited T] (ndims : Nat) (m : Mem T)
    (extents : List Nat) (fresh : Nat) : MultiArray ndims × Mem T :=
  ({ extent_list_ := MultiArray.extentsOf ndims extents,
     num_elements_ := szProd (MultiArray.extentsOf ndims extents),
     base_ := fresh },
   fun q =>
     if fresh ≤ q ∧ q < fresh + szProd (MultiArray.extentsOf ndims extents) then default
     else m q)

/-- Modelled from the spec: method `multi_array::resize(extents)` of Boost.  It
allocates a buffer of the new shape at `fresh`, keeps the elements whose index exists in
both shapes, value-initialises the others, and adopts the new buffer. -/
def MultiArray.resize {T : Type} [Inhabited T] {ndims : Nat} (a : MultiArray ndims)
    (m : Mem T) (extents : List Nat) (fresh : Nat) : MultiArray ndims × Mem T :=
  ({ extent_list_ := MultiArray.extentsOf ndims extents,
     num_elements_ := szProd (MultiArray.extentsOf ndims extents),
     base_ := fresh },
   fun q =>
     if fresh ≤ q ∧ q < fresh + szProd (MultiArray.extentsOf ndims extents) then
       if (List.range ndims).all (fun d =>
            decide (MultiArray.indexOf (MultiArray.extentsOf ndims extents) (q - fresh) d
              < a.shape d)) then
         m (a.base_ + ((List.range ndims).map (fun d =>
              MultiArray.indexOf (MultiArray.extentsOf ndims extents) (q - fresh) d
                * MultiArray.stride a.extent_list_ d)).sum)
       else default
     else m q)

/-- Modelled from the spec: method `multi_array::assign(first, last)` of Boost, which
copies `num_elements()` values into the buffer in storage order. -/
def MultiArray.assign {T : Type} {ndims : Nat} (a : MultiArray ndims) (m : Mem T)
    (first : Nat) : Mem T :=
  std_copy m first a.num_elements_ a.base_

/-- Modelled from the spec: assignment `operator=` between two `boost::multi_array`
objects, which asserts equal shapes and copies the elements. -/
def MultiArray.copyFrom {T : Type} {ndims : Nat} (a : MultiArray ndims) (m : Mem T)
    (b : MultiArray ndims) : Outcome Unit (Mem T) :=
  if a.extent_list_ = b.extent_list_ then (.ok (), std_copy m b.base_ b.num_elements_ a.base_)
  else (.error Fault.assertion, m)

/-- Class `DynArray<T, ndims>`. -/
structure DynArray (ndims : Nat) where
  _multi_array : MultiArray ndims
  deriving DecidableEq

/-- Constructor `DynArray()`: a `multi_array` with `ndims` extents `0`. -/
def DynArray.empty {T : Type} [Inhabited T] (ndims : Nat) (m : Mem T) (fresh : Nat) :
    DynArray ndims × Mem T :=
  ({ _multi_array := (MultiArray.ofExtents ndims m (List.replicate ndims 0) fresh).1 },
    (MultiArray.ofExtents ndims m (List.replicate ndims 0) fresh).2)

/-- Method `DynArray::getDims`: the `ndims` entries of `_multi_array.shape()`. -/
def DynArray.getDims {ndims : Nat} (a : DynArray ndims) : List Nat :=
  a._multi_array.extent_list_

/-- Method `DynArray::getNumElems`. -/
def DynArray.getNumElems {ndims : Nat} (a : DynArray ndims) : Nat :=
  a._multi_array.num_elements_

/-- Method `DynArray::getData` (both overloads return `_multi_array.data()`). -/
def DynArray.getData {ndims : Nat} (a : DynArray ndims) : Nat :=
  a._multi_array.base_

/-- Method `DynArray::getDataCopy`:
`if (n > 0) std::copy(array_data, array_data + n, data)`. -/
def DynArray.getDataCopy {T : Type} {ndims : Nat} (a : DynArray ndims) (m : Mem T)
    (data n : Nat) : Outcome Unit (Mem T) :=
  (.ok (), if n > 0 then std_copy m a._multi_array.base_ n data else m)

/-- Constructor `DynArray(const DynArray<T,ndims>& dynarray)`. -/
def DynArray.copy {T : Type} [Inhabited T] {ndims : Nat} (m : Mem T) (dynarray : DynArray ndims)
    (fresh : Nat) : Outcome Unit (DynArray ndims × Mem T) :=
  (((MultiArray.ofExtents ndims m dynarray.getDims fresh).1.copyFrom
      (MultiArray.ofExtents ndims m dynarray.getDims fresh).2 dynarray._multi_array).1,
    ({ _multi_array := (MultiArray.ofExtents ndims m dynarray.getDims fresh).1 },
      ((MultiArray.ofExtents ndims m dynarray.getDims fresh).1.copyFrom
        (MultiArray.ofExtents ndims m dynarray.getDims fresh).2 dynarray._multi_array).2))

/-- Method `DynArray::resize`: `if (dims != getDims()) _multi_array.resize(dims)`. -/
def DynArray.resize {T : Type} [Inhabited T] {ndims : Nat} (a : DynArray ndims) (m : Mem T)
    (dims : List Nat) (fresh : Nat) : DynArray ndims × Mem T :=
  if dims ≠ a.getDims then
    ({ _multi_array := (a._multi_array.resize m dims fresh).1 },
      (a._multi_array.resize m dims fresh).2)
  else (a, m)

/-- Method `DynArray::setDims`: `_multi_array.resize(dims)`. -/
def DynArray.setDims {T : Type} [Inhabited T] {ndims : Nat} (a : DynArray ndims) (m : Mem T)
    (dims : List Nat) (fresh : Nat) : DynArray ndims × Mem T :=
  ({ _multi_array := (a._multi_array.resize m dims fresh).1 },
    (a._multi_array.resize m dims fresh).2)

/-- Method `DynArray::assign(const T* data)`:
`_multi_array.assign(data, data + _multi_array.num_elements())`. -/
def DynArray.assignData {T : Type} {ndims : Nat} (a : DynArray ndims) (m : Mem T)
    (data : Nat) : DynArray ndims × Mem T :=
  (a, a._multi_array.assign m data)

/-- Class `DynArrayDim1<T>`, derived from `DynArray<T, 1>`. -/
structure DynArrayDim1 extends DynArray 1 where
  deriving DecidableEq

/-- Operators `DynArrayDim1::operator()(size_t index)`, const and non-const:
the cell `_multi_array.data()[index-1]`. -/
def DynArrayDim1.opCall (a : DynArrayDim1) (index : Nat) : Nat :=
  a._multi_array.base_ + szSub index 1

/-- Operators `DynArrayDim1::operator()(const vector<size_t>& idx)`, const and
non-const: the cell `_multi_array.data()[idx[0]-1]`. -/
def DynArrayDim1.opCallIdx (a : DynArrayDim1) (idx : List Nat) : Except Fault Nat := do
  let i ← vecAt idx 0
  return a._multi_array.base_ + szSub i 1

/-- Class `DynArrayDim2<T>`, derived from `DynArray<T, 2>`. -/
structure DynArrayDim2 extends DynArray 2 where
  deriving DecidableEq

/-- Operators `DynArrayDim2::operator()(size_t i, size_t j)`, const and non-const:
the cell `_multi_array.data()[i-1 + _multi_array.shape()[0]*(j-1)]`. -/
def DynArrayDim2.opCall (a : DynArrayDim2) (i j : Nat) : Nat :=
  a._multi_array.base_ + szAdd (szSub i 1) (szMul (a._multi_array.shape 0) (szSub j 1))

/-- Operators `DynArrayDim2::operator()(const vector<size_t>& idx)`, const and
non-const: the cell `_multi_array.data()[idx[0]-1 + _multi_array.shape()[0]*(idx[1]-1)]`. -/
def DynArrayDim2.opCallIdx (a : DynArrayDim2) (idx : List Nat) : Except Fault Nat := do
  let i ← vecAt idx 0
  let j ← vecAt idx 1
  return a._multi_array.base_ + szAdd (szSub i 1) (szMul (a._multi_array.shape 0) (szSub j 1))

/-- Class `DynArrayDim3<T>`, derived from `DynArray<T, 3>`. -/
structure DynArrayDim3 extends DynArray 3 where
  deriving DecidableEq

/-- Operator `DynArrayDim3::operator()(size_t i, size_t j, size_t k)`:
the cell `_multi_array.data()[i-1 + shape[0]*(j-1 + shape[1]*(k-1))]`. -/
def DynArrayDim3.opCall (a : DynArrayDim3) (i j k : Nat) : Nat :=
  a._multi_array.base_ + szAdd (szSub i 1)
    (szMul (a._multi_array.shape 0)
      (szAdd (szSub j 1) (szMul (a._multi_array.shape 1) (szSub k 1))))

/-- Operators `DynArrayDim3::operator()(const vector<size_t>& idx)`, const and
non-const: the cell
`_multi_array.data()[idx[0]-1 + shape[0]*(idx[1]-1 + shape[1]*(idx[2]-1))]`. -/
def DynArrayDim3.opCallIdx (a : DynArrayDim3) (idx : List Nat) : Except Fault Nat := do
  let i ← vecAt idx 0
  let j ← vecAt idx 1
  let k ← vecAt idx 2
  return a._multi_array.base_ + szAdd (szSub i 1)
    (szMul (a._multi_array.shape 0)
      (szAdd (szSub j 1) (szMul (a._multi_array.shape 1) (szSub k 1))))

/-! ## BaseArray: the common interface -/

/-- Interface `BaseArray<T>`: an object of one of the classes derived from it. -/
inductive BaseArray where
  | refDim1 (size : Nat) (a : RefArrayDim1 size)
  | refDim2 (size1 size2 : Nat) (a : RefArrayDim2 size1 size2)
  | refDim3 (size1 size2 size3 : Nat) (a : RefArrayDim3 size1 size2 size3)
  | statDim1 (size : Nat) (external : Bool) (a : StatArrayDim1 size external)
  | statDim2 (size1 size2 : Nat) (external : Bool) (a : StatArrayDim2 size1 size2 external)
  | statDim3 (size1 size2 size3 : Nat) (external : Bool)
      (a : StatArrayDim3 size1 size2 size3 external)
  | dynDim1 (a : DynArrayDim1)
  | dynDim2 (a : DynArrayDim2)
  | dynDim3 (a : DynArrayDim3)

/-- Method `BaseArray::isStatic`: the flag passed to the `BaseArray` constructor. -/
def BaseArray.isStatic : BaseArray → Bool
  | .dynDim1 _ => false
  | .dynDim2 _ => false
  | .dynDim3 _ => false
  | _ => true

/-- Method `BaseArray::isRefArray`: the flag passed to the `BaseArray` constructor. -/
def BaseArray.isRefArray : BaseArray → Bool
  | .refDim1 _ _ => true
  | .refDim2 _ _ _ => true
  | .refDim3 _ _ _ _ => true
  | _ => false

/-- Virtual method `getDims`. -/
def BaseArray.getDims : BaseArray → List Nat
  | .refDim1 _ a => a.getDims
  | .refDim2 _ _ a => a.getDims
  | .refDim3 _ _ _ a => a.getDims
  | .statDim1 _ _ a => a.getDims
  | .statDim2 _ _ _ a => a.getDims
  | .statDim3 _ _ _ _ a => a.getDims
  | .dynDim1 a => a.getDims
  | .dynDim2 a => a.getDims
  | .dynDim3 a => a.getDims

/-- Virtual method `getNumElems`. -/
def BaseArray.getNumElems : BaseArray → Nat
  | .refDim1 _ a => a.getNumElems
  | .refDim2 _ _ a => a.getNumElems
  | .refDim3 _ _ _ a => a.getNumElems
  | .statDim1 _ _ a => a.getNumElems
  | .statDim2 _ _ _ a => a.getNumElems
  | .statDim3 _ _ _ _ a => a.getNumElems
  | .dynDim1 a => a.getNumElems
  | .dynDim2 a => a.getNumElems
  | .dynDim3 a => a.getNumElems

/-- Virtual method `getDataCopy`. -/
def BaseArray.getDataCopy {T : Type} (b : BaseArray) (m : Mem T) (data n : Nat) :
    Outcome Unit (Mem T) :=
  match b with
  | .refDim1 _ a => a.getDataCopy m data n
  | .refDim2 _ _ a => a.getDataCopy m data n
  | .refDim3 _ _ _ a => a.getDataCopy m data n
  | .statDim1 _ _ a => a.getDataCopy m data n
  | .statDim2 _ _ _ a => a.getDataCopy m data n
  | .statDim3 _ _ _ _ a => a.getDataCopy m data n
  | .dynDim1 a => a.getDataCopy m data n
  | .dynDim2 a => a.getDataCopy m data n
  | .dynDim3 a => a.getDataCopy m data n

/-- Constructor `DynArray(const BaseArray<T>& b)`: a `multi_array` of shape
`b.getDims()`, filled by `b.getDataCopy(_multi_array.data(), _multi_array.num_elements())`. -/
def DynArray.ofBase {T : Type} [Inhabited T] (ndims : Nat) (m : Mem T) (b : BaseArray)
    (fresh : Nat) : Outcome Unit (DynArray ndims × Mem T) :=
  ((b.getDataCopy (MultiArray.ofExtents ndims m b.getDims fresh).2
      (MultiArray.ofExtents ndims m b.getDims fresh).1.base_
      (MultiArray.ofExtents ndims m b.getDims fresh).1.num_elements_).1,
    ({ _multi_array := (MultiArray.ofExtents ndims m b.getDims fresh).1 },
      (b.getDataCopy (MultiArray.ofExtents ndims m b.getDims fresh).2
        (MultiArray.ofExtents ndims m b.getDims fresh).1.base_
        (MultiArray.ofExtents ndims m b.getDims fresh).1.num_elements_).2))

/-- Method `DynArray::assign(const BaseArray<T>& b)`: `_multi_array.resize(b.getDims())`,
then `b.getDataCopy(_multi_array.data(), _multi_array.num_elements())`. -/
def DynArray.assign {T : Type} [Inhabited T] {ndims : Nat} (a : DynArray ndims) (m : Mem T)
    (b : BaseArray) (fresh : Nat) : Outcome Unit (DynArray ndims × Mem T) :=
  ((b.getDataCopy (a._multi_array.resize m b.getDims fresh).2
      (a._multi_array.resize m b.getDims fresh).1.base_
      (a._multi_array.resize m b.getDims fresh).1.num_elements_).1,
    ({ _multi_array := (a._multi_array.resize m b.getDims fresh).1 },
      (b.getDataCopy (a._multi_array.resize m b.getDims fresh).2
        (a._multi_array.resize m b.getDims fresh).1.base_
        (a._multi_array.resize m b.getDims fresh).1.num_elements_).2))

/-- The states of a `DynArray` object that its constructors and its shape-changing or
assigning methods produce, from any memory, argument and allocated address.  The
constructors of `DynArrayDim1/2/3` that take sizes, their `setDims(size1, ..)` and their
`operator=` call `_multi_array.resize` like `setDims` does and leave the object in the
state that `setDims` reaches; an indexed write changes the memory only. -/
inductive DynArray.Reachable (T : Type) [Inhabited T] {ndims : Nat} : DynArray ndims → Prop
  | empty (m : Mem T) (fresh : Nat) : DynArray.Reachable T (DynArray.empty ndims m fresh).1
  | copy (m : Mem T) (b : DynArray ndims) (fresh : Nat) :
      DynArray.Reachable T (DynArray.copy m b fresh).2.1
  | ofBase (m : Mem T) (b : BaseArray) (fresh : Nat) :
      DynArray.Reachable T (DynArray.ofBase ndims m b fresh).2.1
  | resize {a : DynArray ndims} (h : DynArray.Reachable T a) (m : Mem T) (dims : List Nat)
      (fresh : Nat) : DynArray.Reachable T (a.resize m dims fresh).1
  | setDims {a : DynArray ndims} (h : DynArray.Reachable T a) (m : Mem T) (dims : List Nat)
      (fresh : Nat) : DynArray.Reachable T (a.setDims m dims fresh).1
  | assign {a : DynArray ndims} (h : DynArray.Reachable T a) (m : Mem T) (b : BaseArray)
      (fresh : Nat) : DynArray.Reachable T (a.assign m b fresh).2.1
  | assignData {a : DynArray ndims} (h : DynArray.Reachable T a) (m : Mem T) (data : Nat) :
      DynArray.Reachable T (a.assignData m data).1

/-- The states of an array object that the program can reach: every object of a static or
reference class (its shape is fixed by the template arguments), and the reachable states
of a dynamic array. -/
def BaseArray.Reachable (T : Type) [Inhabited T] : BaseArray → Prop
  | .dynDim1 a => DynArray.Reachable T a.toDynArray
  | .dynDim2 a => DynArray.Reachable T a.toDynArray
  | .dynDim3 a => DynArray.Reachable T a.toDynArray
  | _ => True

/-! ## Assignment -/

/-- Method `RefArray::getData() const`: `_tmp_data[k] = *_ref_array[k]` for `k < nelems`,
front to back, then returns `_tmp_data`. -/
def RefArray.getDataConst {T : Type} {nelems : Nat} (a : RefArray nelems) (m : Mem T) :
    Nat × Mem T :=
  (a._tmp_data,
    (List.range nelems).foldl
      (fun acc k => Mem.write acc (a._tmp_data + k) (acc (a._ref_array k))) m)

/-- Virtual method `getDataRefs`: `BaseArray` throws a `ModelicaSimulationError`, only
`RefArray` overrides it. -/
def BaseArray.getDataRefs : BaseArray → Except Fault (Nat → Nat)
  | .refDim1 _ a => .ok a.getDataRefs
  | .refDim2 _ _ a => .ok a.getDataRefs
  | .refDim3 _ _ _ a => .ok a.getDataRefs
  | _ => .error Fault.model_array_function

/-- Virtual method `getData() const`: the address of the contiguous data and the memory
the call leaves (a reference array fills its `_tmp_data` buffer). -/
def BaseArray.getDataConst {T : Type} (b : BaseArray) (m : Mem T) : Nat × Mem T :=
  match b with
  | .refDim1 _ a => a.getDataConst m
  | .refDim2 _ _ a => a.getDataConst m
  | .refDim3 _ _ _ a => a.getDataConst m
  | .statDim1 _ _ a => (a.getData, m)
  | .statDim2 _ _ _ a => (a.getData, m)
  | .statDim3 _ _ _ _ a => (a.getData, m)
  | .dynDim1 a => (a.getData, m)
  | .dynDim2 a => (a.getData, m)
  | .dynDim3 a => (a.getData, m)

/-- The address of element `k` of an array in storage order: slot `k` of the address
table of a reference array, cell `k` of the `getData()` buffer of the other classes. -/
def BaseArray.storageAddr (b : BaseArray) (k : Nat) : Nat :=
  match b with
  | .refDim1 _ a => a.getDataRefs k
  | .refDim2 _ _ a => a.getDataRefs k
  | .refDim3 _ _ _ a => a.getDataRefs k
  | .statDim1 _ _ a => a.getData + k
  | .statDim2 _ _ _ a => a.getData + k
  | .statDim3 _ _ _ _ a => a.getData + k
  | .dynDim1 a => a.getData + k
  | .dynDim2 a => a.getData + k
  | .dynDim3 a => a.getData + k

/-- Method `RefArray::assign(const T* data)`: `std::transform` with `CopyCArray2RefArray`
runs `*_ref_array[k] = data[k]` for `k < nelems`, front to back, and stores the pointer
`_ref_array[k]` back into slot `k`, so the address table stays as it is. -/
def RefArray.assignData {T : Type} {nelems : Nat} (a : RefArray nelems) (m : Mem T)
    (data : Nat) : RefArray nelems × Mem T :=
  (a, (List.range nelems).foldl
        (fun acc k => Mem.write acc (a._ref_array k) (acc (data + k))) m)

/-- Method `RefArray::assign(const BaseArray<T>& b)`: when `b.isRefArray()`,
`*_ref_array[k] = *b.getDataRefs()[k]`, otherwise `*_ref_array[k] = b.getData()[k]`, for
`k < nelems`, front to back; the address table stays as it is. -/
def RefArray.assign {T : Type} {nelems : Nat} (a : RefArray nelems) (m : Mem T)
    (b : BaseArray) : Outcome Unit (RefArray nelems × Mem T) :=
  if b.isRefArray then
    match b.getDataRefs with
    | .ok refs =>
      (.ok (), (a, (List.range nelems).foldl
        (fun acc k => Mem.write acc (a._ref_array k) (acc (refs k))) m))
    | .error e => (.error e, (a, m))
  else
    (.ok (), (a, (List.range nelems).foldl
      (fun acc k => Mem.write acc (a._ref_array k) (acc ((b.getDataConst m).1 + k)))
      (b.getDataConst m).2))

/-- Method `StatArray::assign(const T* data)`: when `nelems > 0`, throws on a null
`_data`, otherwise `std::copy(data, data + nelems, _data)`. -/
def StatArray.assignData {T : Type} {nelems : Nat} {external : Bool}
    (a : StatArray nelems external) (m : Mem T) (data : Nat) :
    Outcome Unit (StatArray nelems external × Mem T) :=
  if nelems > 0 then
    if a._data = NULL then (.error Fault.runtime_error, (a, m))
    else (.ok (), (a, std_copy m data nelems a._data))
  else (.ok (), (a, m))

/-- Method `StatArray::assign(const BaseArray<T>& b)`: when `nelems > 0`, throws on a null
`_data`, then `assert(b.getNumElems() == nelems)`, then `b.getDataCopy(_data, nelems)`. -/
def StatArray.assign {T : Type} {nelems : Nat} {external : Bool}
    (a : StatArray nelems external) (m : Mem T) (b : BaseArray) :
    Outcome Unit (StatArray nelems external × Mem T) :=
  if nelems > 0 then
    if a._data = NULL then (.error Fault.runtime_error, (a, m))
    else if b.getNumElems = nelems then
      ((b.getDataCopy m a._data nelems).1, (a, (b.getDataCopy m a._data nelems).2))
    else (.error Fault.assertion, (a, m))
  else (.ok (), (a, m))

/-- Operator `StatArray::operator=(const StatArray<T, nelems, true>& b)` of a static array
with external storage: `_data = b._data`, the branch of `if (external)`.  The operator has
an instance for external storage only: for an owned array that branch, which is compiled
though never taken, names `b._data`, a protected member of the other class
`StatArray<T, nelems, true>`, and the operator cannot be instantiated. -/
def StatArray.opAssignExt {T : Type} {nelems : Nat}
    (a : StatArray nelems true) (m : Mem T) (b : StatArray nelems true) :
    Outcome Unit (StatArray nelems true × Mem T) :=
  (.ok (), ({ _array := a._array, _data := b._data }, m))

/-- Operator `StatArray::operator=(const StatArray<T, nelems, false>& b)`: when
`nelems > 0`, it throws on a null `_data` and then runs `b.getDataCopy(_data, nelems)`. -/
def StatArray.opAssignOwn {T : Type} {nelems : Nat} {external : Bool}
    (a : StatArray nelems external) (m : Mem T) (b : StatArray nelems false) :
    Outcome Unit (StatArray nelems external × Mem T) :=
  if nelems > 0 then
    if a._data = NULL then (.error Fault.runtime_error, (a, m))
    else ((b.getDataCopy m a._data nelems).1, (a, (b.getDataCopy m a._data nelems).2))
  else (.ok (), (a, m))

/-- Operator `StatArray::operator=(const BaseArray<T>& b)`: when `nelems > 0`, throws on a
null `_data`, then `assert(b.getNumElems() == nelems)`, then
`b.getDataCopy(_data, nelems)`. -/
def StatArray.opAssignBase {T : Type} {nelems : Nat} {external : Bool}
    (a : StatArray nelems external) (m : Mem T) (b : BaseArray) :
    Outcome Unit (StatArray nelems external × Mem T) :=
  if nelems > 0 then
    if a._data = NULL then (.error Fault.runtime_error, (a, m))
    else if b.getNumElems = nelems then
      ((b.getDataCopy m a._data nelems).1, (a, (b.getDataCopy m a._data nelems).2))
    else (.error Fault.assertion, (a, m))
  else (.ok (), (a, m))

/-- Operator `StatArrayDim1::operator=(const StatArrayDim1<T, size, true>& b)` of a static
array with external storage: calls `StatArray::operator=(b)`. -/
def StatArrayDim1.opAssignExt {T : Type} {size : Nat}
    (a : StatArrayDim1 size true) (m : Mem T) (b : StatArrayDim1 size true) :
    Outcome Unit (StatArrayDim1 size true × Mem T) :=
  ((a.toStatArray.opAssignExt m b.toStatArray).1,
    ({ toStatArray := (a.toStatArray.opAssignExt m b.toStatArray).2.1 },
      (a.toStatArray.opAssignExt m b.toStatArray).2.2))

/-- Operator `StatArrayDim2::operator=(const StatArrayDim2<T, size1, size2, true>& b)` of a
static array with external storage: calls `StatArray::operator=(b)`. -/
def StatArrayDim2.opAssignExt {T : Type} {size1 size2 : Nat}
    (a : StatArrayDim2 size1 size2 true) (m : Mem T) (b : StatArrayDim2 size1 size2 true) :
    Outcome Unit (StatArrayDim2 size1 size2 true × Mem T) :=
  ((a.toStatArray.opAssignExt m b.toStatArray).1,
    ({ toStatArray := (a.toStatArray.opAssignExt m b.toStatArray).2.1 },
      (a.toStatArray.opAssignExt m b.toStatArray).2.2))

/-- Operator
`StatArrayDim3::operator=(const StatArrayDim3<T, size1, size2, size3, true>& b)` of a
static array with external storage: calls `StatArray::operator=(b)`. -/
def StatArrayDim3.opAssignExt {T : Type} {size1 size2 size3 : Nat}
    (a : StatArrayDim3 size1 size2 size3 true) (m : Mem T)
    (b : StatArrayDim3 size1 size2 size3 true) :
    Outcome Unit (StatArrayDim3 size1 size2 size3 true × Mem T) :=
  ((a.toStatArray.opAssignExt m b.toStatArray).1,
    ({ toStatArray := (a.toStatArray.opAssignExt m b.toStatArray).2.1 },
      (a.toStatArray.opAssignExt m b.toStatArray).2.2))

/-! ## Copy construction, data access, shape queries, append -/

/-- Constructor `StatArray(const StatArray<T, nelems, true>& otherarray)` of a static array
with external storage: `_data = otherarray._data`, the branch of `if (external)`.  The
constructor has an instance for external storage only: for an owned array that branch,
which is compiled though never taken, names `otherarray._data`, a protected member of the
other class `StatArray<T, nelems, true>`, and the constructor cannot be instantiated.  The
argument `self` is the address of the `_array` buffer of the new object. -/
def StatArray.ofExternal {T : Type} (nelems : Nat) (self : Nat) (m : Mem T)
    (otherarray : StatArray nelems true) : StatArray nelems true × Mem T :=
  ({ _array := self, _data := otherarray._data }, m)

/-- Constructor `StatArrayDim1(const StatArrayDim1<T, size, true>& otherarray)` of a static
array with external storage. -/
def StatArrayDim1.ofExternal {T : Type} {size : Nat} (self : Nat) (m : Mem T)
    (otherarray : StatArrayDim1 size true) : StatArrayDim1 size true × Mem T :=
  ({ toStatArray := (StatArray.ofExternal size self m otherarray.toStatArray).1 },
    (StatArray.ofExternal size self m otherarray.toStatArray).2)

/-- Constructor `StatArrayDim2(const StatArrayDim2<T, size1, size2, true>& otherarray)` of
a static array with external storage. -/
def StatArrayDim2.ofExternal {T : Type} {size1 size2 : Nat} (self : Nat)
    (m : Mem T) (otherarray : StatArrayDim2 size1 size2 true) :
    StatArrayDim2 size1 size2 true × Mem T :=
  ({ toStatArray :=
      (StatArray.ofExternal (szMul size1 size2) self m otherarray.toStatArray).1 },
    (StatArray.ofExternal (szMul size1 size2) self m otherarray.toStatArray).2)

/-- Constructor
`StatArrayDim3(const StatArrayDim3<T, size1, size2, size3, true>& otherarray)` of a static
array with external storage. -/
def StatArrayDim3.ofExternal {T : Type} {size1 size2 size3 : Nat}
    (self : Nat) (m : Mem T) (otherarray : StatArrayDim3 size1 size2 size3 true) :
    StatArrayDim3 size1 size2 size3 true × Mem T :=
  ({ toStatArray :=
      (StatArray.ofExternal (szMul (szMul size1 size2) size3) self m
        otherarray.toStatArray).1 },
    (StatArray.ofExternal (szMul (szMul size1 size2) size3) self m
      otherarray.toStatArray).2)

/-- Method `RefArray::getData()` (non-const): throws `std::runtime_error`. -/
def RefArray.getData {T : Type} {nelems : Nat} (a : RefArray nelems) (m : Mem T) :
    Outcome Nat (RefArray nelems × Mem T) :=
  (.error Fault.runtime_error, (a, m))

/-- Conversion `(int)` of a `size_t` value, for the 32-bit two's complement `int`. -/
def toInt32 (n : Nat) : Int :=
  if n % 4294967296 < 2147483648 then ((n % 4294967296 : Nat) : Int)
  else ((n % 4294967296 : Nat) : Int) - 4294967296

/-- Method `RefArrayDim1::getDim`: `(int)size`, whatever `dim` is. -/
def RefArrayDim1.getDim {size : Nat} (_a : RefArrayDim1 size) (_dim : Nat) : Except Fault Int :=
  .ok (toInt32 size)

/-- Method `RefArrayDim1::getNumDims`. -/
def RefArrayDim1.getNumDims {size : Nat} (_a : RefArrayDim1 size) : Nat := 1

/-- Method `RefArrayDim2::getDim`: `(int)size1` for 1, `(int)size2` for 2, otherwise it
throws a `ModelicaSimulationError`. -/
def RefArrayDim2.getDim {size1 size2 : Nat} (_a : RefArrayDim2 size1 size2) (dim : Nat) :
    Except Fault Int :=
  match dim with
  | 1 => .ok (toInt32 size1)
  | 2 => .ok (toInt32 size2)
  | _ => .error Fault.model_array_function

/-- Method `RefArrayDim2::getNumDims`. -/
def RefArrayDim2.getNumDims {size1 size2 : Nat} (_a : RefArrayDim2 size1 size2) : Nat := 2

/-- Method `RefArrayDim3::getDim`: `(int)size1`, `(int)size2`, `(int)size3` for 1, 2, 3,
otherwise it throws a `ModelicaSimulationError`. -/
def RefArrayDim3.getDim {size1 size2 size3 : Nat} (_a : RefArrayDim3 size1 size2 size3)
    (dim : Nat) : Except Fault Int :=
  match dim with
  | 1 => .ok (toInt32 size1)
  | 2 => .ok (toInt32 size2)
  | 3 => .ok (toInt32 size3)
  | _ => .error Fault.model_array_function

/-- Method `RefArrayDim3::getNumDims`. -/
def RefArrayDim3.getNumDims {size1 size2 size3 : Nat} (_a : RefArrayDim3 size1 size2 size3) :
    Nat := 3

/-- Method `StatArrayDim1::getDim`: `(int)size`, whatever `dim` is. -/
def StatArrayDim1.getDim {size : Nat} {external : Bool} (_a : StatArrayDim1 size external)
    (_dim : Nat) : Except Fault Int :=
  .ok (toInt32 size)

/-- Method `StatArrayDim1::getNumDims`. -/
def StatArrayDim1.getNumDims {size : Nat} {external : Bool}
    (_a : StatArrayDim1 size external) : Nat := 1

/-- Method `StatArrayDim2::getDim`: `(int)size1` for 1, `(int)size2` for 2, otherwise it
throws a `ModelicaSimulationError`. -/
def StatArrayDim2.getDim {size1 size2 : Nat} {external : Bool}
    (_a : StatArrayDim2 size1 size2 external) (dim : Nat) : Except Fault Int :=
  match dim with
  | 1 => .ok (toInt32 size1)
  | 2 => .ok (toInt32 size2)
  | _ => .error Fault.model_array_function

/-- Method `StatArrayDim2::getNumDims`. -/
def StatArrayDim2.getNumDims {size1 size2 : Nat} {external : Bool}
    (_a : StatArrayDim2 size1 size2 external) : Nat := 2

/-- Method `StatArrayDim3::getDim`: `(int)size1`, `(int)size2`, `(int)size3` for 1, 2, 3,
otherwise it throws a `ModelicaSimulationError`. -/
def StatArrayDim3.getDim {size1 size2 size3 : Nat} {external : Bool}
    (_a : StatArrayDim3 size1 size2 size3 external) (dim : Nat) : Except Fault Int :=
  match dim with
  | 1 => .ok (toInt32 size1)
  | 2 => .ok (toInt32 size2)
  | 3 => .ok (toInt32 size3)
  | _ => .error Fault.model_array_function

/-- Method `StatArrayDim3::getNumDims`. -/
def StatArrayDim3.getNumDims {size1 size2 size3 : Nat} {external : Bool}
    (_a : StatArrayDim3 size1 size2 size3 external) : Nat := 3

/-- Method `DynArray::getDim`: `(int)_multi_array.shape()[dim - 1]`. -/
def DynArray.getDim {ndims : Nat} (a : DynArray ndims) (dim : Nat) : Except Fault Int :=
  .ok (toInt32 (a._multi_array.shape (szSub dim 1)))

/-- Method `DynArray::getNumDims`: the template argument `ndims`. -/
def DynArray.getNumDims {ndims : Nat} (_a : DynArray ndims) : Nat := ndims

/-- Virtual method `getDim`. -/
def BaseArray.getDim (b : BaseArray) (dim : Nat) : Except Fault Int :=
  match b with
  | .refDim1 _ a => a.getDim dim
  | .refDim2 _ _ a => a.getDim dim
  | .refDim3 _ _ _ a => a.getDim dim
  | .statDim1 _ _ a => a.getDim dim
  | .statDim2 _ _ _ a => a.getDim dim
  | .statDim3 _ _ _ _ a => a.getDim dim
  | .dynDim1 a => a.getDim dim
  | .dynDim2 a => a.getDim dim
  | .dynDim3 a => a.getDim dim

/-- Virtual method `getNumDims`. -/
def BaseArray.getNumDims : BaseArray → Nat
  | .refDim1 _ a => a.getNumDims
  | .refDim2 _ _ a => a.getNumDims
  | .refDim3 _ _ _ a => a.getNumDims
  | .statDim1 _ _ a => a.getNumDims
  | .statDim2 _ _ _ a => a.getNumDims
  | .statDim3 _ _ _ _ a => a.getNumDims
  | .dynDim1 a => a.getNumDims
  | .dynDim2 a => a.getNumDims
  | .dynDim3 a => a.getNumDims

/-- Modelled from the spec: the assignment `A[idx] = b` of a one-dimensional
`boost::multi_array` to a sub-array of a two-dimensional one in Fortran storage order, a
part of the Boost library and not of the source tree.  Boost asserts that `idx` lies below
the first extent and that the shapes agree, then copies front to back `A[idx][j] = b[j]`,
where `A[idx][j]` is the cell `data()[idx + shape()[0]*j]`. -/
def MultiArray.assignRow {T : Type} (a : MultiArray 2) (m : Mem T) (idx : Nat)
    (b : MultiArray 1) : Outcome Unit (Mem T) :=
  if idx < a.shape 0 then
    if b.shape 0 = a.shape 1 then
      (.ok (), (List.range (a.shape 1)).foldl
        (fun acc j => Mem.write acc (a.base_ + (idx + a.shape 0 * j)) (acc (b.base_ + j))) m)
    else (.error Fault.assertion, m)
  else (.error Fault.assertion, m)

/-- Method `DynArrayDim2::append(size_t i, const DynArrayDim1<T>& b)`:
`_multi_array[i-1] = b._multi_array`. -/
def DynArrayDim2.append {T : Type} (a : DynArrayDim2) (m : Mem T) (i : Nat)
    (b : DynArrayDim1) : Outcome Unit (DynArrayDim2 × Mem T) :=
  ((a._multi_array.assignRow m (szSub i 1) b._multi_array).1,
    (a, (a._multi_array.assignRow m (szSub i 1) b._multi_array).2))

/-! ## Construction from a generic array, append of the static arrays, operation sequences -/

/-- Method `StatArray::setDims`: empty body. -/
def StatArray.setDims {T : Type} {nelems : Nat} {external : Bool}
    (a : StatArray nelems external) (m : Mem T) (_v : List Nat) :
    StatArray nelems external × Mem T :=
  (a, m)

/-- Constructor `StatArray(const BaseArray<T>& otherarray)`: throws `std::runtime_error`
with external storage; otherwise `_data = _array` and
`otherarray.getDataCopy(_data, nelems)`.  The argument `self` is the address of the
`_array` buffer of the new object; a failure leaves no object. -/
def StatArray.ofBase {T : Type} (nelems : Nat) (external : Bool) (self : Nat) (m : Mem T)
    (otherarray : BaseArray) : Except Fault (StatArray nelems external) × Mem T :=
  if external then (.error Fault.runtime_error, m)
  else
    (match (otherarray.getDataCopy m self nelems).1 with
      | .ok _ => .ok { _array := self, _data := self }
      | .error e => .error e,
      (otherarray.getDataCopy m self nelems).2)

/-- Method `StatArrayDim2::append(size_t i, const StatArrayDim1<T, size2, external>& b)`:
`data = b.getData()`, `array_data = getData() + i-1`, then for `j = 1..size2` the
statements `*array_data = *data++; array_data += size1`.  The loop state is the memory
with the two running pointers `data` and `array_data`. -/
def StatArrayDim2.append {T : Type} {size1 size2 : Nat} {external : Bool}
    (a : StatArrayDim2 size1 size2 external) (m : Mem T) (i : Nat)
    (b : StatArrayDim1 size2 external) : StatArrayDim2 size1 size2 external × Mem T :=
  (a, ((List.range size2).foldl
    (fun (st : Mem T × Nat × Nat) _ =>
      (Mem.write st.1 st.2.2 (st.1 st.2.1), st.2.1 + 1, st.2.2 + size1))
    (m, b.getData, a.getData + i - 1)).1)

/-- Method `StatArrayDim3::append(size_t i, const StatArrayDim2<T, size2, size3>& b)`:
`data = b.getData()`, `array_data = getData() + i-1`, then for `k = 1..size3` and, inside,
for `j = 1..size2` the statements `*array_data = *data++; array_data += size1`. -/
def StatArrayDim3.append {T : Type} {size1 size2 size3 : Nat} {external : Bool}
    (a : StatArrayDim3 size1 size2 size3 external) (m : Mem T) (i : Nat)
    (b : StatArrayDim2 size2 size3 false) : StatArrayDim3 size1 size2 size3 external × Mem T :=
  (a, ((List.range size3).foldl
    (fun (st : Mem T × Nat × Nat) _ =>
      (List.range size2).foldl
        (fun (st : Mem T × Nat × Nat) _ =>
          (Mem.write st.1 st.2.2 (st.1 st.2.1), st.2.1 + 1, st.2.2 + size1))
        st)
    (m, b.getData, a.getData + i - 1)).1)

/-- The naive double loop that the claim compares `StatArrayDim3::append` with, and that
the source keeps as the comment `(*this)(i, j, k) = b(j, k)`: for `j = 1..size2` and,
inside, for `k = 1..size3`, the element `A(i, j, k)` is set to `b(j, k)` through the index
operators. -/
def StatArrayDim3.appendNaive {T : Type} {size1 size2 size3 : Nat} {external : Bool}
    (a : StatArrayDim3 size1 size2 size3 external) (m : Mem T) (i : Nat)
    (b : StatArrayDim2 size2 size3 false) : Mem T :=
  (List.range size2).foldl
    (fun acc j =>
      (List.range size3).foldl
        (fun acc k => Mem.write acc (a.opCall i (j + 1) (k + 1)) (acc (b.opCall (j + 1) (k + 1))))
        acc)
    m

/-- The operations on a reference array that the address-table invariant speaks about:
a store of `v` through the reference with address `p` that an index operator returned,
`assign(data)`, `assign(b)`, `getData() const` and `getDataCopy(data, n)`. -/
inductive RefOp (T : Type) where
  | store (p : Nat) (v : T)
  | assignData (data : Nat)
  | assign (b : BaseArray)
  | getDataConst
  | getDataCopy (data n : Nat)

/-- One operation on a reference array: the outcome, the array object and the memory it
leaves. -/
def RefArray.step {T : Type} {nelems : Nat} (op : RefOp T) (s : RefArray nelems × Mem T) :
    Outcome Unit (RefArray nelems × Mem T) :=
  match op with
  | .store p v => (.ok (), (s.1, Mem.write s.2 p v))
  | .assignData data => (.ok (), s.1.assignData s.2 data)
  | .assign b => s.1.assign s.2 b
  | .getDataConst => (.ok (), (s.1, (s.1.getDataConst s.2).2))
  | .getDataCopy data n => ((s.1.getDataCopy s.2 data n).1, (s.1, (s.1.getDataCopy s.2 data n).2))

/-- A sequence of operations on a reference array, run front to back; a failing operation
ends the run. -/
def RefArray.run {T : Type} {nelems : Nat} :
    List (RefOp T) → RefArray nelems × Mem T → RefArray nelems × Mem T
  | [], s => s
  | op :: ops, s =>
    match (RefArray.step op s).1 with
    | .ok _ => RefArray.run ops (RefArray.step op s).2
    | .error _ => (RefArray.step op s).2

/-- The answers of the three shape queries `getDims()`, `getNumDims()`, `getNumElems()`. -/
def StatArrayDim1.shapeOf {size : Nat} {external : Bool} (a : StatArrayDim1 size external) :
    List Nat × Nat × Nat :=
  (a.getDims, a.getNumDims, a.getNumElems)

/-- The answers of the three shape queries `getDims()`, `getNumDims()`, `getNumElems()`. -/
def StatArrayDim2.shapeOf {size1 size2 : Nat} {external : Bool}
    (a : StatArrayDim2 size1 size2 external) : List Nat × Nat × Nat :=
  (a.getDims, a.getNumDims, a.getNumElems)

/-- The answers of the three shape queries `getDims()`, `getNumDims()`, `getNumElems()`. -/
def StatArrayDim3.shapeOf {size1 size2 size3 : Nat} {external : Bool}
    (a : StatArrayDim3 size1 size2 size3 external) : List Nat × Nat × Nat :=
  (a.getDims, a.getNumDims, a.getNumElems)

/-- The answers of the three shape queries `getDims()`, `getNumDims()`, `getNumElems()`. -/
def RefArrayDim1.shapeOf {size : Nat} (a : RefArrayDim1 size) : List Nat × Nat × Nat :=
  (a.getDims, a.getNumDims, a.getNumElems)

/-- The answers of the three shape queries `getDims()`, `getNumDims()`, `getNumElems()`. -/
def RefArrayDim2.shapeOf {size1 size2 : Nat} (a : RefArrayDim2 size1 size2) :
    List Nat × Nat × Nat :=
  (a.getDims, a.getNumDims, a.getNumElems)

/-- The answers of the three shape queries `getDims()`, `getNumDims()`, `getNumElems()`. -/
def RefArrayDim3.shapeOf {size1 size2 size3 : Nat} (a : RefArrayDim3 size1 size2 size3) :
    List Nat × Nat × Nat :=
  (a.getDims, a.getNumDims, a.getNumElems)

/-! ## hpgvd: binding of the LAPACK drivers xSPGVD and xHPGVD -/

/-- Largest value of `std::ptrdiff_t` (64 bit). -/
def PTRDIFF_MAX : Int := 9223372036854775807

/-- Arithmetic of `std::ptrdiff_t`: the 64-bit two's complement value of an integer
expression (a signed overflow is undefined behaviour in C++; the usual machines wrap). -/
def wrapPtrdiff (x : Int) : Int :=
  (x + 9223372036854775808) % 18446744073709551616 - 9223372036854775808

/-- Function `hpgvd_impl<real>::min_size_work`. -/
def hpgvd_impl_real.min_size_work (jobz : Char) (n : Int) : Int :=
  if n < 2 then 1
  else if jobz = 'N' then wrapPtrdiff (2 * n)
  else wrapPtrdiff (1 + 6 * n + n * n)

/-- Function `hpgvd_impl<real>::min_size_iwork`. -/
def hpgvd_impl_real.min_size_iwork (jobz : Char) (n : Int) : Int :=
  if jobz = 'N' ∨ n < 2 then 1 else wrapPtrdiff (3 + 5 * n)

/-- Function `hpgvd_impl<complex>::min_size_work`. -/
def hpgvd_impl_complex.min_size_work (jobz : Char) (n : Int) : Int :=
  if n < 2 then 1
  else if jobz = 'N' then n
  else wrapPtrdiff (2 * n)

/-- Function `hpgvd_impl<complex>::min_size_rwork`. -/
def hpgvd_impl_complex.min_size_rwork (jobz : Char) (n : Int) : Int :=
  if n < 2 then 1
  else if jobz = 'N' then n
  else wrapPtrdiff (1 + 5 * n + 2 * n * n)

/-- Function `hpgvd_impl<complex>::min_size_iwork`. -/
def hpgvd_impl_complex.min_size_iwork (jobz : Char) (n : Int) : Int :=
  if jobz = 'N' ∨ n < 2 then 1 else wrapPtrdiff (3 + 5 * n)

/-- Arguments of one call of the routine `LAPACK_SSPGVD` / `LAPACK_DSPGVD`, in the order
of the source, without `info`. -/
structure SpgvdCall where
  itype : Int
  jobz : Char
  uplo : Char
  n : Int
  ap : Nat
  bp : Nat
  w : Nat
  z : Nat
  ldz : Int
  work : Nat
  lwork : Int
  iwork : Nat
  liwork : Int
  deriving DecidableEq

/-- Arguments of one call of the routine `LAPACK_CHPGVD` / `LAPACK_ZHPGVD`, in the order
of the source, without `info`. -/
structure HpgvdCall where
  itype : Int
  jobz : Char
  uplo : Char
  n : Int
  ap : Nat
  bp : Nat
  w : Nat
  z : Nat
  ldz : Int
  work : Nat
  lwork : Int
  rwork : Nat
  lrwork : Int
  iwork : Nat
  liwork : Int
  deriving DecidableEq

/-- Modelled from the spec: the external LAPACK routine for a real value type and the
parts of the bindings library that are not in the source tree.  `W` is the state of the
storage that the routine reads and writes, `routine` runs one call and gives the value it
stores in `info` with the state it leaves, `realAt` and `intAt` read a variable of type
`real_type` and `fortran_int_t`, and `to_int` is `traits::detail::to_int`. -/
structure SpgvdEnv (W R : Type) where
  routine : SpgvdCall → W → Int × W
  realAt : W → Nat → R
  intAt : W → Nat → Int
  to_int : R → Int

/-- Modelled from the spec: the external LAPACK routine for a complex value type and the
parts of the bindings library that are not in the source tree; `valueAt` reads a variable
of type `value_type`, `to_int_value` and `to_int_real` are the overloads of
`traits::detail::to_int`. -/
structure HpgvdEnv (W V R : Type) where
  routine : HpgvdCall → W → Int × W
  valueAt : W → Nat → V
  realAt : W → Nat → R
  intAt : W → Nat → Int
  to_int_value : V → Int
  to_int_real : R → Int

/-- State of a run of the binding: the storage, and the calls of the LAPACK routine made
so far, in their order. -/
structure LapackRun (W C : Type) where
  world : W
  calls : List C

/-- Modelled from the spec: what the bindings library deduces from the arguments `ap`,
`bp`, `w` and `z` (`uplo_tag`, `size_column`, `begin_value`, `stride_major`, `size_minor`,
`stride_minor`), whose code is not in the source tree. -/
structure HpgvdArgs where
  uplo : Char
  size_column_ap : Int
  begin_value_ap : Nat
  begin_value_bp : Nat
  begin_value_w : Nat
  begin_value_z : Nat
  stride_major_z : Int
  size_minor_z : Int
  stride_minor_z : Int
  deriving DecidableEq

/-- Modelled from the spec: a workspace array `bindings::detail::array<T>` of the bindings
library: `begin_value` is the address of its first element (handed out by the allocator),
`size` the length it was constructed with. -/
structure WorkArray where
  begin_value : Nat
  size : Int
  deriving DecidableEq

/-- Function `detail::hpgvd` for `float` and `double`: `info(0)`, one call of the LAPACK
routine with the arguments as given, `return info`. -/
def detail.hpgvd_real {W R : Type} (env : SpgvdEnv W R) (c : SpgvdCall)
    (s : LapackRun W SpgvdCall) : Int × LapackRun W SpgvdCall :=
  ((env.routine c s.world).1, { world := (env.routine c s.world).2, calls := s.calls ++ [c] })

/-- Function `detail::hpgvd` for `complex<float>` and `complex<double>`. -/
def detail.hpgvd_complex {W V R : Type} (env : HpgvdEnv W V R) (c : HpgvdCall)
    (s : LapackRun W HpgvdCall) : Int × LapackRun W HpgvdCall :=
  ((env.routine c s.world).1, { world := (env.routine c s.world).2, calls := s.calls ++ [c] })

/-- Function `hpgvd_impl<real>::invoke` for a user-defined workspace: the five
`BOOST_ASSERT`s in their order, then `detail::hpgvd` with the deduced arguments. -/
def hpgvd_impl_real.invoke {W R : Type} (env : SpgvdEnv W R) (itype : Int) (jobz : Char)
    (x : HpgvdArgs) (work iwork : WorkArray) (s : LapackRun W SpgvdCall) :
    Except Fault Int × LapackRun W SpgvdCall :=
  if iwork.size ≥ hpgvd_impl_real.min_size_iwork jobz x.size_column_ap then
    if work.size ≥ hpgvd_impl_real.min_size_work jobz x.size_column_ap then
      if x.size_column_ap ≥ 0 then
        if x.size_minor_z = 1 ∨ x.stride_minor_z = 1 then
          if jobz = 'N' ∨ jobz = 'V' then
            (.ok (detail.hpgvd_real env
                { itype := itype, jobz := jobz, uplo := x.uplo, n := x.size_column_ap,
                  ap := x.begin_value_ap, bp := x.begin_value_bp, w := x.begin_value_w,
                  z := x.begin_value_z, ldz := x.stride_major_z,
                  work := work.begin_value, lwork := work.size,
                  iwork := iwork.begin_value, liwork := iwork.size } s).1,
              (detail.hpgvd_real env
                { itype := itype, jobz := jobz, uplo := x.uplo, n := x.size_column_ap,
                  ap := x.begin_value_ap, bp := x.begin_value_bp, w := x.begin_value_w,
                  z := x.begin_value_z, ldz := x.stride_major_z,
                  work := work.begin_value, lwork := work.size,
                  iwork := iwork.begin_value, liwork := iwork.size } s).2)
          else (.error Fault.assertion, s)
        else (.error Fault.assertion, s)
      else (.error Fault.assertion, s)
    else (.error Fault.assertion, s)
  else (.error Fault.assertion, s)

/-- Function `hpgvd_impl<real>::invoke` for `minimal_workspace`: allocates `tmp_work` of
`min_size_work(jobz, n)` and `tmp_iwork` of `min_size_iwork(jobz, n)` elements and calls
the overload for a user-defined workspace.  The arguments `tmp_work` and `tmp_iwork` are
the addresses of the allocated arrays. -/
def hpgvd_impl_real.invoke_minimal {W R : Type} (env : SpgvdEnv W R) (itype : Int)
    (jobz : Char) (x : HpgvdArgs) (tmp_work tmp_iwork : Nat) (s : LapackRun W SpgvdCall) :
    Except Fault Int × LapackRun W SpgvdCall :=
  hpgvd_impl_real.invoke env itype jobz x
    { begin_value := tmp_work, size := hpgvd_impl_real.min_size_work jobz x.size_column_ap }
    { begin_value := tmp_iwork, size := hpgvd_impl_real.min_size_iwork jobz x.size_column_ap }
    s

/-- Function `hpgvd_impl<real>::invoke` for `optimal_workspace`: one call of
`detail::hpgvd` with `&opt_size_work, -1, &opt_size_iwork, -1`, whose result is dropped;
then `tmp_work` of `to_int(opt_size_work)` and `tmp_iwork` of `opt_size_iwork` elements are
allocated, and the overload for a user-defined workspace is called.  The arguments
`opt_size_work`, `opt_size_iwork` are the addresses of the two local variables,
`tmp_work`, `tmp_iwork` the addresses of the allocated arrays. -/
def hpgvd_impl_real.invoke_optimal {W R : Type} (env : SpgvdEnv W R) (itype : Int)
    (jobz : Char) (x : HpgvdArgs) (opt_size_work opt_size_iwork tmp_work tmp_iwork : Nat)
    (s : LapackRun W SpgvdCall) : Except Fault Int × LapackRun W SpgvdCall :=
  hpgvd_impl_real.invoke env itype jobz x
    { begin_value := tmp_work,
      size := env.to_int (env.realAt
        (detail.hpgvd_real env
          { itype := itype, jobz := jobz, uplo := x.uplo, n := x.size_column_ap,
            ap := x.begin_value_ap, bp := x.begin_value_bp, w := x.begin_value_w,
            z := x.begin_value_z, ldz := x.stride_major_z,
            work := opt_size_work, lwork := -1,
            iwork := opt_size_iwork, liwork := -1 } s).2.world opt_size_work) }
    { begin_value := tmp_iwork,
      size := env.intAt
        (detail.hpgvd_real env
          { itype := itype, jobz := jobz, uplo := x.uplo, n := x.size_column_ap,
            ap := x.begin_value_ap, bp := x.begin_value_bp, w := x.begin_value_w,
            z := x.begin_value_z, ldz := x.stride_major_z,
            work := opt_size_work, lwork := -1,
            iwork := opt_size_iwork, liwork := -1 } s).2.world opt_size_iwork }
    (detail.hpgvd_real env
      { itype := itype, jobz := jobz, uplo := x.uplo, n := x.size_column_ap,
        ap := x.begin_value_ap, bp := x.begin_value_bp, w := x.begin_value_w,
        z := x.begin_value_z, ldz := x.stride_major_z,
        work := opt_size_work, lwork := -1,
        iwork := opt_size_iwork, liwork := -1 } s).2

/-- Function `hpgvd_impl<complex>::invoke` for a user-defined workspace: the six
`BOOST_ASSERT`s in their order, then `detail::hpgvd` with the deduced arguments. -/
def hpgvd_impl_complex.invoke {W V R : Type} (env : HpgvdEnv W V R) (itype : Int)
    (jobz : Char) (x : HpgvdArgs) (work rwork iwork : WorkArray)
    (s : LapackRun W HpgvdCall) : Except Fault Int × LapackRun W HpgvdCall :=
  if iwork.size ≥ hpgvd_impl_complex.min_size_iwork jobz x.size_column_ap then
    if rwork.size ≥ hpgvd_impl_complex.min_size_rwork jobz x.size_column_ap then
      if work.size ≥ hpgvd_impl_complex.min_size_work jobz x.size_column_ap then
        if x.size_column_ap ≥ 0 then
          if x.size_minor_z = 1 ∨ x.stride_minor_z = 1 then
            if jobz = 'N' ∨ jobz = 'V' then
              (.ok (detail.hpgvd_complex env
                  { itype := itype, jobz := jobz, uplo := x.uplo, n := x.size_column_ap,
                    ap := x.begin_value_ap, bp := x.begin_value_bp, w := x.begin_value_w,
                    z := x.begin_value_z, ldz := x.stride_major_z,
                    work := work.begin_value, lwork := work.size,
                    rwork := rwork.begin_value, lrwork := rwork.size,
                    iwork := iwork.begin_value, liwork := iwork.size } s).1,
                (detail.hpgvd_complex env
                  { itype := itype, jobz := jobz, uplo := x.uplo, n := x.size_column_ap,
                    ap := x.begin_value_ap, bp := x.begin_value_bp, w := x.begin_value_w,
                    z := x.begin_value_z, ldz := x.stride_major_z,
                    work := work.begin_value, lwork := work.size,
                    rwork := rwork.begin_value, lrwork := rwork.size,
                    iwork := iwork.begin_value, liwork := iwork.size } s).2)
            else (.error Fault.assertion, s)
          else (.error Fault.assertion, s)
        else (.error Fault.assertion, s)
      else (.error Fault.assertion, s)
    else (.error Fault.assertion, s)
  else (.error Fault.assertion, s)

/-- Function `hpgvd_impl<complex>::invoke` for `minimal_workspace`. -/
def hpgvd_impl_complex.invoke_minimal {W V R : Type} (env : HpgvdEnv W V R) (itype : Int)
    (jobz : Char) (x : HpgvdArgs) (tmp_work tmp_rwork tmp_iwork : Nat)
    (s : LapackRun W HpgvdCall) : Except Fault Int × LapackRun W HpgvdCall :=
  hpgvd_impl_complex.invoke env itype jobz x
    { begin_value := tmp_work,
      size := hpgvd_impl_complex.min_size_work jobz x.size_column_ap }
    { begin_value := tmp_rwork,
      size := hpgvd_impl_complex.min_size_rwork jobz x.size_column_ap }
    { begin_value := tmp_iwork,
      size := hpgvd_impl_complex.min_size_iwork jobz x.size_column_ap }
    s

/-- Function `hpgvd_impl<complex>::invoke` for `optimal_workspace`: one call of
`detail::hpgvd` with `&opt_size_work, -1, &opt_size_rwork, -1, &opt_size_iwork, -1`, whose
result is dropped; then the three workspaces of `to_int(opt_size_work)`,
`to_int(opt_size_rwork)` and `opt_size_iwork` elements are allocated, and the overload for
a user-defined workspace is called. -/
def hpgvd_impl_complex.invoke_optimal {W V R : Type} (env : HpgvdEnv W V R) (itype : Int)
    (jobz : Char) (x : HpgvdArgs)
    (opt_size_work opt_size_rwork opt_size_iwork tmp_work tmp_rwork tmp_iwork : Nat)
    (s : LapackRun W HpgvdCall) : Except Fault Int × LapackRun W HpgvdCall :=
  hpgvd_impl_complex.invoke env itype jobz x
    { begin_value := tmp_work,
      size := env.to_int_value (env.valueAt
        (detail.hpgvd_complex env
          { itype := itype, jobz := jobz, uplo := x.uplo, n := x.size_column_ap,
            ap := x.begin_value_ap, bp := x.begin_value_bp, w := x.begin_value_w,
            z := x.begin_value_z, ldz := x.stride_major_z,
            work := opt_size_work, lwork := -1, rwork := opt_size_rwork, lrwork := -1,
            iwork := opt_size_iwork, liwork := -1 } s).2.world opt_size_work) }
    { begin_value := tmp_rwork,
      size := env.to_int_real (env.realAt
        (detail.hpgvd_complex env
          { itype := itype, jobz := jobz, uplo := x.uplo, n := x.size_column_ap,
            ap := x.begin_value_ap, bp := x.begin_value_bp, w := x.begin_value_w,
            z := x.begin_value_z, ldz := x.stride_major_z,
            work := opt_size_work, lwork := -1, rwork := opt_size_rwork, lrwork := -1,
            iwork := opt_size_iwork, liwork := -1 } s).2.world opt_size_rwork) }
    { begin_value := tmp_iwork,
      size := env.intAt
        (detail.hpgvd_complex env
          { itype := itype, jobz := jobz, uplo := x.uplo, n := x.size_column_ap,
            ap := x.begin_value_ap, bp := x.begin_value_bp, w := x.begin_value_w,
            z := x.begin_value_z, ldz := x.stride_major_z,
            work := opt_size_work, lwork := -1, rwork := opt_size_rwork, lrwork := -1,
            iwork := opt_size_iwork, liwork := -1 } s).2.world opt_size_iwork }
    (detail.hpgvd_complex env
      { itype := itype, jobz := jobz, uplo := x.uplo, n := x.size_column_ap,
        ap := x.begin_value_ap, bp := x.begin_value_bp, w := x.begin_value_w,
        z := x.begin_value_z, ldz := x.stride_major_z,
        work := opt_size_work, lwork := -1, rwork := opt_size_rwork, lrwork := -1,
        iwork := opt_size_iwork, liwork := -1 } s).2

/-- Following the claim's words, the first call of the two-phase protocol for a real value
type: the deduced `itype`, `jobz`, `n` and matrix arguments, every workspace length set to
the sentinel `-1`, and the two local size variables in the place of the workspaces. -/
def SpgvdCall.query (itype : Int) (jobz : Char) (x : HpgvdArgs)
    (opt_size_work opt_size_iwork : Nat) : SpgvdCall :=
  { itype := itype, jobz := jobz, uplo := x.uplo, n := x.size_column_ap,
    ap := x.begin_value_ap, bp := x.begin_value_bp, w := x.begin_value_w,
    z := x.begin_value_z, ldz := x.stride_major_z,
    work := opt_size_work, lwork := -1, iwork := opt_size_iwork, liwork := -1 }

/-- Following the claim's words, the second call of the two-phase protocol for a real
value type: the same `itype`, `jobz`, `n` and matrix arguments, with the workspaces `work`
and `iwork` and their lengths. -/
def SpgvdCall.compute (itype : Int) (jobz : Char) (x : HpgvdArgs) (work iwork : WorkArray) :
    SpgvdCall :=
  { itype := itype, jobz := jobz, uplo := x.uplo, n := x.size_column_ap,
    ap := x.begin_value_ap, bp := x.begin_value_bp, w := x.begin_value_w,
    z := x.begin_value_z, ldz := x.stride_major_z,
    work := work.begin_value, lwork := work.size,
    iwork := iwork.begin_value, liwork := iwork.size }

/-- Following the claim's words, the first call of the two-phase protocol for a complex
value type. -/
def HpgvdCall.query (itype : Int) (jobz : Char) (x : HpgvdArgs)
    (opt_size_work opt_size_rwork opt_size_iwork : Nat) : HpgvdCall :=
  { itype := itype, jobz := jobz, uplo := x.uplo, n := x.size_column_ap,
    ap := x.begin_value_ap, bp := x.begin_value_bp, w := x.begin_value_w,
    z := x.begin_value_z, ldz := x.stride_major_z,
    work := opt_size_work, lwork := -1, rwork := opt_size_rwork, lrwork := -1,
    iwork := opt_size_iwork, liwork := -1 }

/-- Following the claim's words, the second call of the two-phase protocol for a complex
value type. -/
def HpgvdCall.compute (itype : Int) (jobz : Char) (x : HpgvdArgs)
    (work rwork iwork : WorkArray) : HpgvdCall :=
  { itype := itype, jobz := jobz, uplo := x.uplo, n := x.size_column_ap,
    ap := x.begin_value_ap, bp := x.begin_value_bp, w := x.begin_value_w,
    z := x.begin_value_z, ldz := x.stride_major_z,
    work := work.begin_value, lwork := work.size,
    rwork := rwork.begin_value, lrwork := rwork.size,
    iwork := iwork.begin_value, liwork := iwork.size }

/-! ## Sample objects -/

/-- A memory that holds `0` in every cell. -/
def sampleMem : Mem Int := fun _ => 0

/-- A memory that holds the value `10 * p` at every address `p`. -/
def sampleMemTen : Mem Int := fun p => 10 * p

/-- A memory that holds the values 1, 2, 3, 4 at the addresses 500, 501, 502, 503 (the
value `p - 499` at every address `p`). -/
def sampleMemSeq : Mem Int := fun p => (p : Int) - 499

/-- A 2x3 static array with external storage, bound to the buffer at address 100. -/
def sampleStatDim2 : StatArrayDim2 2 3 true := (StatArrayDim2.ofData 50 sampleMem 100).1

/-- A 2x3x4 static array with owned storage at address 200, copied from address 100. -/
def sampleStatDim3 : StatArrayDim3 2 3 4 false := (StatArrayDim3.ofData 200 sampleMem 100).1

/-- A 2x3x4 static array with external storage, bound to the buffer at address 100. -/
def sampleStatDim3Ext : StatArrayDim3 2 3 4 true := (StatArrayDim3.ofData 50 sampleMem 100).1

/-- A static vector of 4 elements with external storage, bound to the buffer at address
100. -/
def sampleStatDim1 : StatArrayDim1 4 true := (StatArrayDim1.ofData 50 sampleMem 100).1

/-- A dynamic vector resized to 4 elements, with its buffer at address 1000. -/
def sampleDynDim1 : DynArrayDim1 :=
  { toDynArray := (DynArray.setDims (DynArray.empty 1 sampleMem 900).1 sampleMem [4] 1000).1 }

/-- A dynamic array resized to shape 2x3, with its buffer at address 1000. -/
def sampleDynDim2 : DynArrayDim2 :=
  { toDynArray := (DynArray.setDims (DynArray.empty 2 sampleMem 900).1 sampleMem [2, 3] 1000).1 }

/-- A dynamic array resized to shape 2x3x4, with its buffer at address 1000. -/
def sampleDynDim3 : DynArrayDim3 :=
  { toDynArray :=
      (DynArray.setDims (DynArray.empty 3 sampleMem 900).1 sampleMem [2, 3, 4] 1000).1 }

/-- A reference vector over the 3 scalars at the addresses 100, 101, 102. -/
def sampleRefDim1 : RefArrayDim1 3 := RefArrayDim1.ofData 50 100

/-- A 2x3 reference array over the 6 scalars at the addresses 100 to 105. -/
def sampleRefDim2 : RefArrayDim2 2 3 := RefArrayDim2.ofData 50 100

/-- A 3x2x1 reference array over the 6 scalars at the addresses 100 to 105. -/
def sampleRefDim3 : RefArrayDim3 3 2 1 := RefArrayDim3.ofData 50 100

/-- A 2x3x1 reference array over the 6 scalars at the addresses 100 to 105. -/
def sampleRefDim3b : RefArrayDim3 2 3 1 := RefArrayDim3.ofData 50 100

/-- A reference vector of 2 elements whose two slots refer to the same scalar at address
100, built from an address table. -/
def sampleRefAlias : RefArrayDim1 2 := { toRefArray := RefArray.ofRefs 50 (fun _ => 100) }

/-- A static vector of 2 elements with external storage, bound to the buffer at address
500. -/
def sampleStatSrc2 : StatArrayDim1 2 true := (StatArrayDim1.ofData 60 sampleMemSeq 500).1

/-- A static vector of 4 elements with external storage, bound to the buffer at address
500. -/
def sampleStatSrc4 : StatArrayDim1 4 true := (StatArrayDim1.ofData 60 sampleMemSeq 500).1

/-- A static vector of 3 elements with external storage, bound to the buffer at address
500. -/
def sampleStatSrc3 : StatArrayDim1 3 true := (StatArrayDim1.ofData 60 sampleMemSeq 500).1

/-- A static vector of capacity 0 with owned storage at address 70. -/
def sampleStatEmpty : StatArrayDim1 0 false := { toStatArray := StatArray.empty 70 }

/-- A static vector of 4 elements with owned storage at address 300. -/
def sampleStatOwn4 : StatArrayDim1 4 false := { toStatArray := StatArray.empty 300 }

/-- A second static vector of 4 elements with owned storage, at address 400. -/
def sampleStatOwn4b : StatArrayDim1 4 false := { toStatArray := StatArray.empty 400 }

/-- The default-constructed static vector of capacity 0 with external storage. -/
def sampleStatNull0 : StatArrayDim1 0 true := { toStatArray := StatArray.empty 70 }

/-- The default-constructed static vector of capacity 4 with external storage. -/
def sampleStatNull4 : StatArrayDim1 4 true := { toStatArray := StatArray.empty 70 }

/-- An owned static vector of capacity 0, source of an assignment. -/
def sampleStatEmptySrc : StatArrayDim1 0 false := { toStatArray := StatArray.empty 80 }

/-- A static vector of 2147483648 elements over an external buffer at address 100. -/
def sampleStatHuge : StatArrayDim1 2147483648 true :=
  (StatArrayDim1.ofData 50 sampleMem 100).1

/-- A dynamic vector resized to 3 elements, with its buffer at address 2000. -/
def sampleDynRow3 : DynArrayDim1 :=
  { toDynArray := (DynArray.setDims (DynArray.empty 1 sampleMem 900).1 sampleMem [3] 2000).1 }

/-- An owned static 2x3 array whose buffer is at address 300. -/
def sampleStatOwn23 : StatArrayDim2 2 3 false := { toStatArray := StatArray.empty 300 }

/-- An owned static vector of 3 elements whose buffer is at address 400. -/
def sampleStatRow3 : StatArrayDim1 3 false := { toStatArray := StatArray.empty 400 }

/-- An owned static 3x4 array whose buffer is at address 600. -/
def sampleStatSlab34 : StatArrayDim2 3 4 false := { toStatArray := StatArray.empty 600 }

/-- A static 2x3 array over an external buffer at address 500. -/
def sampleStatExt23 : StatArrayDim2 2 3 true := (StatArrayDim2.ofData 60 sampleMemSeq 500).1

/-- A 1x2x2 reference array over the 4 scalars at the addresses 100 to 103. -/
def sampleRefDim3c : RefArrayDim3 1 2 2 := RefArrayDim3.ofData 50 100

/-- A stand-in for the routine xSPGVD over a memory of integers: a workspace query stores
the sizes 56 and 28 in `work[0]` and `iwork[0]`; every call stores 0 in `info`. -/
def sampleSpgvdEnv : SpgvdEnv (Mem Int) Int :=
  { routine := fun c w =>
      if c.lwork = -1 ∨ c.liwork = -1 then (0, Mem.write (Mem.write w c.work 56) c.iwork 28)
      else (0, w),
    realAt := fun w p => w p,
    intAt := fun w p => w p,
    to_int := fun r => r }

/-- A stand-in for the routine xHPGVD over a memory of integers: a workspace query stores
the sizes 10, 76 and 28 in `work[0]`, `rwork[0]` and `iwork[0]`; every call stores 0 in
`info`. -/
def sampleHpgvdEnv : HpgvdEnv (Mem Int) Int Int :=
  { routine := fun c w =>
      if c.lwork = -1 ∨ c.lrwork = -1 ∨ c.liwork = -1 then
        (0, Mem.write (Mem.write (Mem.write w c.work 10) c.rwork 76) c.iwork 28)
      else (0, w),
    valueAt := fun w p => w p,
    realAt := fun w p => w p,
    intAt := fun w p => w p,
    to_int_value := fun v => v,
    to_int_real := fun r => r }

/-- Matrix arguments of order 5: `ap`, `bp`, `w`, `z` at the addresses 10, 20, 30, 40, a
column-major `z` with leading dimension 5. -/
def sampleHpgvdArgs : HpgvdArgs :=
  { uplo := 'U', size_column_ap := 5, begin_value_ap := 10, begin_value_bp := 20,
    begin_value_w := 30, begin_value_z := 40, stride_major_z := 5, size_minor_z := 5,
    stride_minor_z := 1 }

/-- The start of a run for a real value type: the memory of zeros, no call made. -/
def sampleSpgvdRun : LapackRun (Mem Int) SpgvdCall := { world := sampleMem, calls := [] }

/-- The start of a run for a complex value type: the memory of zeros, no call made. -/
def sampleHpgvdRun : LapackRun (Mem Int) HpgvdCall := { world := sampleMem, calls := [] }

/-! ## Arithmetic of valid indices -/

theorem szSub_one_of_pos {i : Nat} (h1 : 1 ≤ i) (h : i < SIZE_MOD) : szSub i 1 = i - 1 := by
  unfold szSub SIZE_MOD at *
  omega

theorem szAdd_of_lt {a b : Nat} (h : a + b < SIZE_MOD) : szAdd a b = a + b :=
  Nat.mod_eq_of_lt h

theorem szMul_of_lt {a b : Nat} (h : a * b < SIZE_MOD) : szMul a b = a * b :=
  Nat.mod_eq_of_lt h

theorem colMajor2_lt {d1 d2 i j : Nat} (hi1 : 1 ≤ i) (hi : i ≤ d1) (hj1 : 1 ≤ j)
    (hj : j ≤ d2) : colMajor2 d1 i j < d1 * d2 := by
  unfold colMajor2
  obtain ⟨i, rfl⟩ := Nat.exists_eq_add_of_le hi1
  obtain ⟨j, rfl⟩ := Nat.exists_eq_add_of_le hj1
  have h1 : d1 * (j + 1) ≤ d1 * d2 := Nat.mul_le_mul_left d1 (by omega)
  have h2 : d1 * (j + 1) = d1 * j + d1 := by ring
  have h3 : 1 + i - 1 = i := by omega
  have h4 : 1 + j - 1 = j := by omega
  rw [h3, h4]
  omega

theorem colMajor3_lt {d1 d2 d3 i j k : Nat} (hi1 : 1 ≤ i) (hi : i ≤ d1) (hj1 : 1 ≤ j)
    (hj : j ≤ d2) (hk1 : 1 ≤ k) (hk : k ≤ d3) : colMajor3 d1 d2 i j k < d1 * d2 * d3 := by
  have h := colMajor2_lt hj1 hj hk1 hk
  unfold colMajor2 at h
  have h' : colMajor2 d1 i ((j - 1) + d2 * (k - 1) + 1) < d1 * (d2 * d3) :=
    colMajor2_lt hi1 hi (by omega) (by omega)
  unfold colMajor2 at h'
  unfold colMajor3
  rw [Nat.mul_assoc]
  simpa using h'

/-- The `size_t` expression `i-1 + d1*(j-1)` has the value `colMajor2 d1 i j` for a valid
index pair of an array whose element count is a `size_t`. -/
theorem szIndex2 {d1 d2 i j : Nat} (hi1 : 1 ≤ i) (hi : i ≤ d1) (hj1 : 1 ≤ j) (hj : j ≤ d2)
    (hrep : d1 * d2 < SIZE_MOD) :
    szAdd (szSub i 1) (szMul d1 (szSub j 1)) = colMajor2 d1 i j := by
  have hlt := colMajor2_lt hi1 hi hj1 hj
  have hd1 : d1 ≤ d1 * d2 := Nat.le_mul_of_pos_right d1 (by omega)
  have hd2 : d2 ≤ d1 * d2 := Nat.le_mul_of_pos_left d2 (by omega)
  unfold colMajor2 at hlt ⊢
  rw [szSub_one_of_pos hi1 (by omega), szSub_one_of_pos hj1 (by omega),
    szMul_of_lt (by omega), szAdd_of_lt (by omega)]

/-- The `size_t` expression `i-1 + d1*(j-1 + d2*(k-1))` has the value
`colMajor3 d1 d2 i j k` for a valid index triple of an array whose element count is a
`size_t`. -/
theorem szIndex3 {d1 d2 d3 i j k : Nat} (hi1 : 1 ≤ i) (hi : i ≤ d1) (hj1 : 1 ≤ j)
    (hj : j ≤ d2) (hk1 : 1 ≤ k) (hk : k ≤ d3) (hrep : d1 * d2 * d3 < SIZE_MOD) :
    szAdd (szSub i 1) (szMul d1 (szAdd (szSub j 1) (szMul d2 (szSub k 1))))
      = colMajor3 d1 d2 i j k := by
  have hlt := colMajor3_lt hi1 hi hj1 hj hk1 hk
  have hlt2 := colMajor2_lt hj1 hj hk1 hk
  have hd23 : d2 * d3 ≤ d1 * (d2 * d3) := Nat.le_mul_of_pos_left _ (by omega)
  rw [Nat.mul_assoc] at hrep hlt
  have hin : szAdd (szSub j 1) (szMul d2 (szSub k 1)) = colMajor2 d2 j k :=
    szIndex2 hj1 hj hk1 hk (by omega)
  have hd1 : d1 ≤ d1 * (d2 * d3) :=
    Nat.le_mul_of_pos_right d1 (Nat.mul_pos (by omega) (by omega))
  unfold colMajor3 at hlt ⊢
  unfold colMajor2 at hin hlt2
  rw [hin, szSub_one_of_pos hi1 (by omega), szMul_of_lt (by omega), szAdd_of_lt (by omega)]

/-! ## Element count and shape -/

theorem foldl_szMul (l : List Nat) (acc : Nat) :
    l.foldl szMul (acc % SIZE_MOD) = (acc * l.prod) % SIZE_MOD := by
  induction l generalizing acc with
  | nil => simp
  | cons x l ih =>
    have hx : szMul (acc % SIZE_MOD) x = (acc * x) % SIZE_MOD := by
      unfold szMul
      rw [Nat.mod_mul_mod]
    rw [List.foldl_cons, hx, ih, List.prod_cons, Nat.mul_assoc]

theorem szProd_eq (l : List Nat) : szProd l = l.prod % SIZE_MOD := by
  unfold szProd
  rw [foldl_szMul, Nat.one_mul]

/-- Every reachable dynamic array stores as element count the `size_t` product of its
extents. -/
theorem DynArray_Reachable_num_elements {T : Type} [Inhabited T] {ndims : Nat}
    {a : DynArray ndims} (h : DynArray.Reachable T a) :
    a._multi_array.num_elements_ = szProd a._multi_array.extent_list_ := by
  induction h with
  | empty m fresh => rfl
  | copy m b fresh => rfl
  | ofBase m b fresh => rfl
  | resize h m dims fresh ih =>
    unfold DynArray.resize
    split
    · rfl
    · exact ih
  | setDims h m dims fresh ih => rfl
  | assign h m b fresh ih => rfl
  | assignData h m data ih => exact ih

/-! ## Indexed access -/

theorem StatArrayDim1_opCallIdx_eq {size : Nat} {external : Bool}
    (a : StatArrayDim1 size external) (i : Nat) : a.opCallIdx [i] = .ok (a.opCall i) :=
  rfl

theorem StatArrayDim2_opCallIdx_eq {size1 size2 : Nat} {external : Bool}
    (a : StatArrayDim2 size1 size2 external) (i j : Nat) :
    a.opCallIdx [i, j] = .ok (a.opCall i j) :=
  rfl

theorem StatArrayDim3_opCallIdx_eq {size1 size2 size3 : Nat} {external : Bool}
    (a : StatArrayDim3 size1 size2 size3 external) (i j k : Nat) :
    a.opCallIdx [i, j, k] = .ok (a.opCall i j k) :=
  rfl

theorem DynArrayDim1_opCallIdx_eq (a : DynArrayDim1) (i : Nat) :
    a.opCallIdx [i] = .ok (a.opCall i) :=
  rfl

theorem DynArrayDim2_opCallIdx_eq (a : DynArrayDim2) (i j : Nat) :
    a.opCallIdx [i, j] = .ok (a.opCall i j) :=
  rfl

theorem DynArrayDim3_opCallIdx_eq (a : DynArrayDim3) (i j k : Nat) :
    a.opCallIdx [i, j, k] = .ok (a.opCall i j k) :=
  rfl

theorem StatArrayDim2_opCall_eq {size1 size2 : Nat} {external : Bool}
    (a : StatArrayDim2 size1 size2 external) {i j : Nat} (hi1 : 1 ≤ i) (hi : i ≤ size1)
    (hj1 : 1 ≤ j) (hj : j ≤ size2) (hrep : size1 * size2 < SIZE_MOD) :
    a.opCall i j = a.getData + colMajor2 size1 i j := by
  unfold StatArrayDim2.opCall StatArray.getData
  rw [szIndex2 hi1 hi hj1 hj hrep]

theorem StatArrayDim3_opCall_eq {size1 size2 size3 : Nat} {external : Bool}
    (a : StatArrayDim3 size1 size2 size3 external) {i j k : Nat} (hi1 : 1 ≤ i)
    (hi : i ≤ size1) (hj1 : 1 ≤ j) (hj : j ≤ size2) (hk1 : 1 ≤ k) (hk : k ≤ size3)
    (hrep : size1 * size2 * size3 < SIZE_MOD) :
    a.opCall i j k = a.getData + colMajor3 size1 size2 i j k := by
  unfold StatArrayDim3.opCall StatArray.getData
  rw [szIndex3 hi1 hi hj1 hj hk1 hk hrep]

theorem MultiArray_shape_zero {ndims : Nat} (a : MultiArray ndims) {d : Nat} {l : List Nat}
    (h : a.extent_list_ = d :: l) : a.shape 0 = d := by
  unfold MultiArray.shape
  rw [h]
  rfl

theorem MultiArray_shape_one {ndims : Nat} (a : MultiArray ndims) {d e : Nat} {l : List Nat}
    (h : a.extent_list_ = d :: e :: l) : a.shape 1 = e := by
  unfold MultiArray.shape
  rw [h]
  rfl

theorem DynArrayDim2_opCall_eq (a : DynArrayDim2) {d1 d2 i j : Nat}
    (hd : a.getDims = [d1, d2]) (hi1 : 1 ≤ i) (hi : i ≤ d1) (hj1 : 1 ≤ j) (hj : j ≤ d2)
    (hrep : d1 * d2 < SIZE_MOD) : a.opCall i j = a.getData + colMajor2 d1 i j := by
  unfold DynArrayDim2.opCall DynArray.getData
  rw [MultiArray_shape_zero _ hd, szIndex2 hi1 hi hj1 hj hrep]

theorem DynArrayDim3_opCall_eq (a : DynArrayDim3) {d1 d2 d3 i j k : Nat}
    (hd : a.getDims = [d1, d2, d3]) (hi1 : 1 ≤ i) (hi : i ≤ d1) (hj1 : 1 ≤ j) (hj : j ≤ d2)
    (hk1 : 1 ≤ k) (hk : k ≤ d3) (hrep : d1 * d2 * d3 < SIZE_MOD) :
    a.opCall i j k = a.getData + colMajor3 d1 d2 i j k := by
  unfold DynArrayDim3.opCall DynArray.getData
  rw [MultiArray_shape_zero _ hd, MultiArray_shape_one _ hd, szIndex3 hi1 hi hj1 hj hk1 hk hrep]

theorem DynArray_Reachable_getNumElems {T : Type} [Inhabited T] {ndims : Nat}
    {a : DynArray ndims} (h : DynArray.Reachable T a) :
    a.getNumElems = a.getDims.prod % SIZE_MOD := by
  unfold DynArray.getNumElems DynArray.getDims
  rw [DynArray_Reachable_num_elements h, szProd_eq]

/-- C1: for a valid 1-based index tuple of a static array (owned or external) or of a
dynamic array of rank 2 or 3 whose element count is a `size_t`, the index operators
refer to the cell of the `getData()` buffer at the column-major offset
`(i-1) + d1*(j-1)`, respectively `(i-1) + d1*((j-1) + d2*(k-1))`, and that offset lies
below the element count. -/
theorem indexed_access_column_major :
    (∀ (size1 size2 : Nat) (external : Bool) (a : StatArrayDim2 size1 size2 external)
        (i j : Nat), 1 ≤ i → i ≤ size1 → 1 ≤ j → j ≤ size2 → size1 * size2 < SIZE_MOD →
        a.opCall i j = a.getData + colMajor2 size1 i j ∧
        a.opCallIdx [i, j] = .ok (a.getData + colMajor2 size1 i j) ∧
        colMajor2 size1 i j < a.getNumElems) ∧
    (∀ (size1 size2 size3 : Nat) (external : Bool)
        (a : StatArrayDim3 size1 size2 size3 external) (i j k : Nat),
        1 ≤ i → i ≤ size1 → 1 ≤ j → j ≤ size2 → 1 ≤ k → k ≤ size3 →
        size1 * size2 * size3 < SIZE_MOD →
        a.opCall i j k = a.getData + colMajor3 size1 size2 i j k ∧
        a.opCallIdx [i, j, k] = .ok (a.getData + colMajor3 size1 size2 i j k) ∧
        colMajor3 size1 size2 i j k < a.getNumElems) ∧
    (∀ (T : Type) [Inhabited T] (a : DynArrayDim2) (d1 d2 i j : Nat),
        a.getDims = [d1, d2] → 1 ≤ i → i ≤ d1 → 1 ≤ j → j ≤ d2 → d1 * d2 < SIZE_MOD →
        a.opCall i j = a.getData + colMajor2 d1 i j ∧
        a.opCallIdx [i, j] = .ok (a.getData + colMajor2 d1 i j) ∧
        (DynArray.Reachable T a.toDynArray → colMajor2 d1 i j < a.getNumElems)) ∧
    (∀ (T : Type) [Inhabited T] (a : DynArrayDim3) (d1 d2 d3 i j k : Nat),
        a.getDims = [d1, d2, d3] →
        1 ≤ i → i ≤ d1 → 1 ≤ j → j ≤ d2 → 1 ≤ k → k ≤ d3 → d1 * d2 * d3 < SIZE_MOD →
        a.opCall i j k = a.getData + colMajor3 d1 d2 i j k ∧
        a.opCallIdx [i, j, k] = .ok (a.getData + colMajor3 d1 d2 i j k) ∧
        (DynArray.Reachable T a.toDynArray → colMajor3 d1 d2 i j k < a.getNumElems)) := by
  refine ⟨?_, ?_, ?_, ?_⟩
  · intro size1 size2 external a i j hi1 hi hj1 hj hrep
    have hx := StatArrayDim2_opCall_eq a hi1 hi hj1 hj hrep
    refine ⟨hx, ?_, ?_⟩
    · rw [StatArrayDim2_opCallIdx_eq, hx]
    · unfold StatArray.getNumElems
      rw [szMul_of_lt hrep]
      exact colMajor2_lt hi1 hi hj1 hj
  · intro size1 size2 size3 external a i j k hi1 hi hj1 hj hk1 hk hrep
    have hx := StatArrayDim3_opCall_eq a hi1 hi hj1 hj hk1 hk hrep
    have h12 : size1 * size2 < SIZE_MOD :=
      lt_of_le_of_lt (Nat.le_mul_of_pos_right _ (by omega)) hrep
    refine ⟨hx, ?_, ?_⟩
    · rw [StatArrayDim3_opCallIdx_eq, hx]
    · unfold StatArray.getNumElems
      rw [szMul_of_lt h12, szMul_of_lt hrep]
      exact colMajor3_lt hi1 hi hj1 hj hk1 hk
  · intro T _ a d1 d2 i j hd hi1 hi hj1 hj hrep
    have hx := DynArrayDim2_opCall_eq a hd hi1 hi hj1 hj hrep
    refine ⟨hx, ?_, ?_⟩
    · rw [DynArrayDim2_opCallIdx_eq, hx]
    · intro hr
      have hp : [d1, d2].prod = d1 * d2 := by simp
      rw [DynArray_Reachable_getNumElems hr, hd, hp, Nat.mod_eq_of_lt hrep]
      exact colMajor2_lt hi1 hi hj1 hj
  · intro T _ a d1 d2 d3 i j k hd hi1 hi hj1 hj hk1 hk hrep
    have hx := DynArrayDim3_opCall_eq a hd hi1 hi hj1 hj hk1 hk hrep
    refine ⟨hx, ?_, ?_⟩
    · rw [DynArrayDim3_opCallIdx_eq, hx]
    · intro hr
      have hp : [d1, d2, d3].prod = d1 * d2 * d3 := by simp [Nat.mul_assoc]
      rw [DynArray_Reachable_getNumElems hr, hd, hp, Nat.mod_eq_of_lt hrep]
      exact colMajor3_lt hi1 hi hj1 hj hk1 hk

theorem sampleDynDim1_reachable : DynArray.Reachable Int sampleDynDim1.toDynArray :=
  DynArray.Reachable.setDims (DynArray.Reachable.empty sampleMem 900) sampleMem [4] 1000

theorem sampleDynDim2_reachable : DynArray.Reachable Int sampleDynDim2.toDynArray :=
  DynArray.Reachable.setDims (DynArray.Reachable.empty sampleMem 900) sampleMem [2, 3] 1000

theorem sampleDynDim3_reachable : DynArray.Reachable Int sampleDynDim3.toDynArray :=
  DynArray.Reachable.setDims (DynArray.Reachable.empty sampleMem 900) sampleMem [2, 3, 4] 1000

/-- Witness of C1: the 2x3 and 2x3x4 sample arrays at their last element. -/
theorem indexed_access_column_major_witness :
    (sampleStatDim2.opCall 2 3 = sampleStatDim2.getData + colMajor2 2 2 3 ∧
      sampleStatDim2.opCallIdx [2, 3] = .ok (sampleStatDim2.getData + colMajor2 2 2 3) ∧
      colMajor2 2 2 3 < sampleStatDim2.getNumElems) ∧
    (sampleStatDim3.opCall 2 3 4 = sampleStatDim3.getData + colMajor3 2 3 2 3 4 ∧
      sampleStatDim3.opCallIdx [2, 3, 4] = .ok (sampleStatDim3.getData + colMajor3 2 3 2 3 4) ∧
      colMajor3 2 3 2 3 4 < sampleStatDim3.getNumElems) ∧
    (sampleDynDim2.opCall 2 3 = sampleDynDim2.getData + colMajor2 2 2 3 ∧
      sampleDynDim2.opCallIdx [2, 3] = .ok (sampleDynDim2.getData + colMajor2 2 2 3) ∧
      colMajor2 2 2 3 < sampleDynDim2.getNumElems) ∧
    (sampleDynDim3.opCall 2 3 4 = sampleDynDim3.getData + colMajor3 2 3 2 3 4 ∧
      sampleDynDim3.opCallIdx [2, 3, 4] = .ok (sampleDynDim3.getData + colMajor3 2 3 2 3 4) ∧
      colMajor3 2 3 2 3 4 < sampleDynDim3.getNumElems) :=
  have h2 := indexed_access_column_major.2.2.1 Int sampleDynDim2 2 3 2 3 rfl
    (by decide) (by decide) (by decide) (by decide) (by decide)
  have h3 := indexed_access_column_major.2.2.2 Int sampleDynDim3 2 3 4 2 3 4 rfl
    (by decide) (by decide) (by decide) (by decide) (by decide) (by decide) (by decide)
  ⟨indexed_access_column_major.1 2 3 true sampleStatDim2 2 3
      (by decide) (by decide) (by decide) (by decide) (by decide),
    indexed_access_column_major.2.1 2 3 4 false sampleStatDim3 2 3 4
      (by decide) (by decide) (by decide) (by decide) (by decide) (by decide) (by decide),
    ⟨h2.1, h2.2.1, h2.2.2 sampleDynDim2_reachable⟩,
    ⟨h3.1, h3.2.1, h3.2.2 sampleDynDim3_reachable⟩⟩

/-! ## Element count -/

theorem szMul_szMul (a b c : Nat) : szMul (szMul a b) c = (a * b * c) % SIZE_MOD := by
  unfold szMul
  rw [Nat.mod_mul_mod]

/-- C6: in every reachable state of an array of any class and rank (for a dynamic array:
after any constructor, `resize`, `setDims` and `assign`), `getNumElems()` equals the
product of the entries of `getDims()`: always as `size_t` values, and as natural numbers
whenever the product is a `size_t`. -/
theorem getNumElems_eq_prod_getDims (T : Type) [Inhabited T] (b : BaseArray)
    (h : BaseArray.Reachable T b) :
    b.getNumElems % SIZE_MOD = b.getDims.prod % SIZE_MOD ∧
      (b.getDims.prod < SIZE_MOD → b.getNumElems = b.getDims.prod) := by
  cases b with
  | refDim1 size a =>
    simp [BaseArray.getNumElems, BaseArray.getDims, RefArray.getNumElems, RefArrayDim1.getDims]
  | refDim2 size1 size2 a =>
    have e : (BaseArray.refDim2 size1 size2 a).getNumElems = (size1 * size2) % SIZE_MOD := rfl
    have d : (BaseArray.refDim2 size1 size2 a).getDims.prod = size1 * size2 := by
      simp [BaseArray.getDims, RefArrayDim2.getDims]
    rw [e, d, Nat.mod_mod]
    exact ⟨rfl, fun hlt => Nat.mod_eq_of_lt hlt⟩
  | refDim3 size1 size2 size3 a =>
    have e : (BaseArray.refDim3 size1 size2 size3 a).getNumElems
        = (size1 * size2 * size3) % SIZE_MOD := szMul_szMul size1 size2 size3
    have d : (BaseArray.refDim3 size1 size2 size3 a).getDims.prod = size1 * size2 * size3 := by
      simp [BaseArray.getDims, RefArrayDim3.getDims, Nat.mul_assoc]
    rw [e, d, Nat.mod_mod]
    exact ⟨rfl, fun hlt => Nat.mod_eq_of_lt hlt⟩
  | statDim1 size external a =>
    simp [BaseArray.getNumElems, BaseArray.getDims, StatArray.getNumElems,
      StatArrayDim1.getDims]
  | statDim2 size1 size2 external a =>
    have e : (BaseArray.statDim2 size1 size2 external a).getNumElems
        = (size1 * size2) % SIZE_MOD := rfl
    have d : (BaseArray.statDim2 size1 size2 external a).getDims.prod = size1 * size2 := by
      simp [BaseArray.getDims, StatArrayDim2.getDims]
    rw [e, d, Nat.mod_mod]
    exact ⟨rfl, fun hlt => Nat.mod_eq_of_lt hlt⟩
  | statDim3 size1 size2 size3 external a =>
    have e : (BaseArray.statDim3 size1 size2 size3 external a).getNumElems
        = (size1 * size2 * size3) % SIZE_MOD := szMul_szMul size1 size2 size3
    have d : (BaseArray.statDim3 size1 size2 size3 external a).getDims.prod
        = size1 * size2 * size3 := by
      simp [BaseArray.getDims, StatArrayDim3.getDims, Nat.mul_assoc]
    rw [e, d, Nat.mod_mod]
    exact ⟨rfl, fun hlt => Nat.mod_eq_of_lt hlt⟩
  | dynDim1 a =>
    have key : a.getNumElems = a.getDims.prod % SIZE_MOD := DynArray_Reachable_getNumElems h
    exact ⟨by rw [BaseArray.getNumElems, BaseArray.getDims, key, Nat.mod_mod],
      fun hlt => by rw [BaseArray.getNumElems, BaseArray.getDims, key]; exact Nat.mod_eq_of_lt hlt⟩
  | dynDim2 a =>
    have key : a.getNumElems = a.getDims.prod % SIZE_MOD := DynArray_Reachable_getNumElems h
    exact ⟨by rw [BaseArray.getNumElems, BaseArray.getDims, key, Nat.mod_mod],
      fun hlt => by rw [BaseArray.getNumElems, BaseArray.getDims, key]; exact Nat.mod_eq_of_lt hlt⟩
  | dynDim3 a =>
    have key : a.getNumElems = a.getDims.prod % SIZE_MOD := DynArray_Reachable_getNumElems h
    exact ⟨by rw [BaseArray.getNumElems, BaseArray.getDims, key, Nat.mod_mod],
      fun hlt => by rw [BaseArray.getNumElems, BaseArray.getDims, key]; exact Nat.mod_eq_of_lt hlt⟩

/-- Witness of C6: the 2x3 dynamic sample array, reached by `setDims`, has 6 elements. -/
theorem getNumElems_eq_prod_getDims_witness :
    (BaseArray.dynDim2 sampleDynDim2).getNumElems % SIZE_MOD
        = (BaseArray.dynDim2 sampleDynDim2).getDims.prod % SIZE_MOD ∧
      ((BaseArray.dynDim2 sampleDynDim2).getDims.prod < SIZE_MOD →
        (BaseArray.dynDim2 sampleDynDim2).getNumElems
          = (BaseArray.dynDim2 sampleDynDim2).getDims.prod) :=
  getNumElems_eq_prod_getDims Int (BaseArray.dynDim2 sampleDynDim2) sampleDynDim2_reachable

/-! ## Write/read round trip -/

theorem StatArrayDim1_opCall_eq {size : Nat} {external : Bool}
    (a : StatArrayDim1 size external) {i : Nat} (hi1 : 1 ≤ i) (hi : i ≤ size)
    (hrep : size < SIZE_MOD) : a.opCall i = a.getData + (i - 1) := by
  unfold StatArrayDim1.opCall StatArray.getData
  rw [szSub_one_of_pos hi1 (by omega)]

theorem DynArrayDim1_opCall_eq (a : DynArrayDim1) {d1 i : Nat} (hi1 : 1 ≤ i) (hi : i ≤ d1)
    (hrep : d1 < SIZE_MOD) : a.opCall i = a.getData + (i - 1) := by
  unfold DynArrayDim1.opCall DynArray.getData
  rw [szSub_one_of_pos hi1 (by omega)]

theorem readAt_ok {T : Type} (m : Mem T) (p : Nat) : readAt m (.ok p) = .ok (m p) :=
  rfl

theorem writeAt_ok {T : Type} (m : Mem T) (p : Nat) (v : T) :
    writeAt m (.ok p) v = .ok (Mem.write m p v) :=
  rfl

theorem Mem_write_same {T : Type} (m : Mem T) (p : Nat) (v : T) : (Mem.write m p v) p = v := by
  unfold Mem.write
  rw [if_pos rfl]

theorem Mem_write_other {T : Type} (m : Mem T) (p : Nat) (v : T) {q : Nat} (h : q ≠ p) :
    (Mem.write m p v) q = m q := by
  unfold Mem.write
  rw [if_neg h]

/-- C4: for a static array (owned, or external and bound to a buffer) and for a reachable
dynamic array, of rank 1, 2 or 3 and with an element count that is a `size_t`: a value
written through an index operator at a valid 1-based index tuple is the value read
there afterwards, whichever of the per-rank and the index-vector operator writes and
whichever reads; the cell written lies in the `getData()` buffer. -/
theorem write_read_round_trip (T : Type) [Inhabited T] (m : Mem T) (v : T) :
    (∀ (size : Nat) (external : Bool) (a : StatArrayDim1 size external) (i : Nat),
        a.getData ≠ NULL → 1 ≤ i → i ≤ size → size < SIZE_MOD →
        (Mem.write m (a.opCall i) v) (a.opCall i) = v ∧
        readAt (Mem.write m (a.opCall i) v) (a.opCallIdx [i]) = .ok v ∧
        writeAt m (a.opCallIdx [i]) v = .ok (Mem.write m (a.opCall i) v) ∧
        a.getData ≤ a.opCall i ∧ a.opCall i < a.getData + a.getNumElems) ∧
    (∀ (size1 size2 : Nat) (external : Bool) (a : StatArrayDim2 size1 size2 external)
        (i j : Nat), a.getData ≠ NULL → 1 ≤ i → i ≤ size1 → 1 ≤ j → j ≤ size2 →
        size1 * size2 < SIZE_MOD →
        (Mem.write m (a.opCall i j) v) (a.opCall i j) = v ∧
        readAt (Mem.write m (a.opCall i j) v) (a.opCallIdx [i, j]) = .ok v ∧
        writeAt m (a.opCallIdx [i, j]) v = .ok (Mem.write m (a.opCall i j) v) ∧
        a.getData ≤ a.opCall i j ∧ a.opCall i j < a.getData + a.getNumElems) ∧
    (∀ (size1 size2 size3 : Nat) (external : Bool)
        (a : StatArrayDim3 size1 size2 size3 external) (i j k : Nat),
        a.getData ≠ NULL → 1 ≤ i → i ≤ size1 → 1 ≤ j → j ≤ size2 → 1 ≤ k → k ≤ size3 →
        size1 * size2 * size3 < SIZE_MOD →
        (Mem.write m (a.opCall i j k) v) (a.opCall i j k) = v ∧
        readAt (Mem.write m (a.opCall i j k) v) (a.opCallIdx [i, j, k]) = .ok v ∧
        writeAt m (a.opCallIdx [i, j, k]) v = .ok (Mem.write m (a.opCall i j k) v) ∧
        a.getData ≤ a.opCall i j k ∧ a.opCall i j k < a.getData + a.getNumElems) ∧
    (∀ (a : DynArrayDim1) (d1 i : Nat),
        DynArray.Reachable T a.toDynArray → a.getDims = [d1] →
        1 ≤ i → i ≤ d1 → d1 < SIZE_MOD →
        (Mem.write m (a.opCall i) v) (a.opCall i) = v ∧
        readAt (Mem.write m (a.opCall i) v) (a.opCallIdx [i]) = .ok v ∧
        writeAt m (a.opCallIdx [i]) v = .ok (Mem.write m (a.opCall i) v) ∧
        a.getData ≤ a.opCall i ∧ a.opCall i < a.getData + a.getNumElems) ∧
    (∀ (a : DynArrayDim2) (d1 d2 i j : Nat),
        DynArray.Reachable T a.toDynArray → a.getDims = [d1, d2] →
        1 ≤ i → i ≤ d1 → 1 ≤ j → j ≤ d2 → d1 * d2 < SIZE_MOD →
        (Mem.write m (a.opCall i j) v) (a.opCall i j) = v ∧
        readAt (Mem.write m (a.opCall i j) v) (a.opCallIdx [i, j]) = .ok v ∧
        writeAt m (a.opCallIdx [i, j]) v = .ok (Mem.write m (a.opCall i j) v) ∧
        a.getData ≤ a.opCall i j ∧ a.opCall i j < a.getData + a.getNumElems) ∧
    (∀ (a : DynArrayDim3) (d1 d2 d3 i j k : Nat),
        DynArray.Reachable T a.toDynArray → a.getDims = [d1, d2, d3] →
        1 ≤ i → i ≤ d1 → 1 ≤ j → j ≤ d2 → 1 ≤ k → k ≤ d3 → d1 * d2 * d3 < SIZE_MOD →
        (Mem.write m (a.opCall i j k) v) (a.opCall i j k) = v ∧
        readAt (Mem.write m (a.opCall i j k) v) (a.opCallIdx [i, j, k]) = .ok v ∧
        writeAt m (a.opCallIdx [i, j, k]) v = .ok (Mem.write m (a.opCall i j k) v) ∧
        a.getData ≤ a.opCall i j k ∧ a.opCall i j k < a.getData + a.getNumElems) := by
  refine ⟨?_, ?_, ?_, ?_, ?_, ?_⟩
  · intro size external a i _ hi1 hi hrep
    refine ⟨Mem_write_same _ _ _, ?_, ?_, ?_⟩
    · rw [StatArrayDim1_opCallIdx_eq, readAt_ok, Mem_write_same]
    · rw [StatArrayDim1_opCallIdx_eq, writeAt_ok]
    · rw [StatArrayDim1_opCall_eq a hi1 hi hrep]
      unfold StatArray.getNumElems
      omega
  · intro size1 size2 external a i j _ hi1 hi hj1 hj hrep
    refine ⟨Mem_write_same _ _ _, ?_, ?_, ?_⟩
    · rw [StatArrayDim2_opCallIdx_eq, readAt_ok, Mem_write_same]
    · rw [StatArrayDim2_opCallIdx_eq, writeAt_ok]
    · rw [StatArrayDim2_opCall_eq a hi1 hi hj1 hj hrep]
      have := colMajor2_lt hi1 hi hj1 hj
      have hN := szMul_of_lt hrep
      unfold StatArray.getNumElems
      omega
  · intro size1 size2 size3 external a i j k _ hi1 hi hj1 hj hk1 hk hrep
    have h12 : size1 * size2 < SIZE_MOD :=
      lt_of_le_of_lt (Nat.le_mul_of_pos_right _ (by omega)) hrep
    refine ⟨Mem_write_same _ _ _, ?_, ?_, ?_⟩
    · rw [StatArrayDim3_opCallIdx_eq, readAt_ok, Mem_write_same]
    · rw [StatArrayDim3_opCallIdx_eq, writeAt_ok]
    · rw [StatArrayDim3_opCall_eq a hi1 hi hj1 hj hk1 hk hrep]
      have := colMajor3_lt hi1 hi hj1 hj hk1 hk
      have hN : szMul (szMul size1 size2) size3 = size1 * size2 * size3 := by
        rw [szMul_of_lt h12, szMul_of_lt hrep]
      unfold StatArray.getNumElems
      omega
  · intro a d1 i hr hd hi1 hi hrep
    refine ⟨Mem_write_same _ _ _, ?_, ?_, ?_⟩
    · rw [DynArrayDim1_opCallIdx_eq, readAt_ok, Mem_write_same]
    · rw [DynArrayDim1_opCallIdx_eq, writeAt_ok]
    · have hp : [d1].prod = d1 := by simp
      rw [DynArrayDim1_opCall_eq a hi1 hi hrep, DynArray_Reachable_getNumElems hr, hd, hp,
        Nat.mod_eq_of_lt hrep]
      omega
  · intro a d1 d2 i j hr hd hi1 hi hj1 hj hrep
    refine ⟨Mem_write_same _ _ _, ?_, ?_, ?_⟩
    · rw [DynArrayDim2_opCallIdx_eq, readAt_ok, Mem_write_same]
    · rw [DynArrayDim2_opCallIdx_eq, writeAt_ok]
    · have hp : [d1, d2].prod = d1 * d2 := by simp
      have := colMajor2_lt hi1 hi hj1 hj
      rw [DynArrayDim2_opCall_eq a hd hi1 hi hj1 hj hrep, DynArray_Reachable_getNumElems hr, hd,
        hp, Nat.mod_eq_of_lt hrep]
      omega
  · intro a d1 d2 d3 i j k hr hd hi1 hi hj1 hj hk1 hk hrep
    refine ⟨Mem_write_same _ _ _, ?_, ?_, ?_⟩
    · rw [DynArrayDim3_opCallIdx_eq, readAt_ok, Mem_write_same]
    · rw [DynArrayDim3_opCallIdx_eq, writeAt_ok]
    · have hp : [d1, d2, d3].prod = d1 * d2 * d3 := by simp [Nat.mul_assoc]
      have := colMajor3_lt hi1 hi hj1 hj hk1 hk
      rw [DynArrayDim3_opCall_eq a hd hi1 hi hj1 hj hk1 hk hrep,
        DynArray_Reachable_getNumElems hr, hd, hp, Nat.mod_eq_of_lt hrep]
      omega

/-- Witness of C4: the value 7 written at the last element of each sample array is read
back through the index-vector operator. -/
theorem write_read_round_trip_witness :
    readAt (Mem.write sampleMem (sampleStatDim1.opCall 4) 7) (sampleStatDim1.opCallIdx [4])
        = .ok 7 ∧
    readAt (Mem.write sampleMem (sampleStatDim2.opCall 2 3) 7) (sampleStatDim2.opCallIdx [2, 3])
        = .ok 7 ∧
    readAt (Mem.write sampleMem (sampleStatDim3.opCall 2 3 4) 7)
        (sampleStatDim3.opCallIdx [2, 3, 4]) = .ok 7 ∧
    readAt (Mem.write sampleMem (sampleDynDim1.opCall 4) 7) (sampleDynDim1.opCallIdx [4])
        = .ok 7 ∧
    readAt (Mem.write sampleMem (sampleDynDim2.opCall 2 3) 7) (sampleDynDim2.opCallIdx [2, 3])
        = .ok 7 ∧
    readAt (Mem.write sampleMem (sampleDynDim3.opCall 2 3 4) 7)
        (sampleDynDim3.opCallIdx [2, 3, 4]) = .ok 7 :=
  ⟨((write_read_round_trip Int sampleMem 7).1 4 true sampleStatDim1 4
      (by decide) (by decide) (by decide) (by decide)).2.1,
    ((write_read_round_trip Int sampleMem 7).2.1 2 3 true sampleStatDim2 2 3
      (by decide) (by decide) (by decide) (by decide) (by decide) (by decide)).2.1,
    ((write_read_round_trip Int sampleMem 7).2.2.1 2 3 4 false sampleStatDim3 2 3 4
      (by decide) (by decide) (by decide) (by decide) (by decide) (by decide) (by decide)
      (by decide)).2.1,
    ((write_read_round_trip Int sampleMem 7).2.2.2.1 sampleDynDim1 4 4
      sampleDynDim1_reachable rfl (by decide) (by decide) (by decide)).2.1,
    ((write_read_round_trip Int sampleMem 7).2.2.2.2.1 sampleDynDim2 2 3 2 3
      sampleDynDim2_reachable rfl (by decide) (by decide) (by decide) (by decide)
      (by decide)).2.1,
    ((write_read_round_trip Int sampleMem 7).2.2.2.2.2 sampleDynDim3 2 3 4 2 3 4
      sampleDynDim3_reachable rfl (by decide) (by decide) (by decide) (by decide) (by decide)
      (by decide) (by decide)).2.1⟩

/-! ## External storage and reference arrays over a caller buffer -/

/-- C7: the constructor `StatArray(T* data)` of a static array with external storage
copies nothing and makes `getData()` the caller buffer `buf`; and for every static array
with external storage, writing `v` through an index operator at a valid 1-based index
tuple stores `v` in the cell of the `getData()` buffer at the column-major offset of the
tuple and leaves every other cell of the memory, so every other element of the buffer,
as it was. -/
theorem external_write_in_place (T : Type) (m : Mem T) (v : T) :
    (∀ (size self buf : Nat),
        (StatArrayDim1.ofData self m buf : StatArrayDim1 size true × Mem T).2 = m ∧
        (StatArrayDim1.ofData self m buf : StatArrayDim1 size true × Mem T).1.getData = buf) ∧
    (∀ (size1 size2 self buf : Nat),
        (StatArrayDim2.ofData self m buf : StatArrayDim2 size1 size2 true × Mem T).2 = m ∧
        (StatArrayDim2.ofData self m buf : StatArrayDim2 size1 size2 true × Mem T).1.getData
          = buf) ∧
    (∀ (size1 size2 size3 self buf : Nat),
        (StatArrayDim3.ofData self m buf : StatArrayDim3 size1 size2 size3 true × Mem T).2
          = m ∧
        (StatArrayDim3.ofData self m buf :
          StatArrayDim3 size1 size2 size3 true × Mem T).1.getData = buf) ∧
    (∀ (size : Nat) (a : StatArrayDim1 size true) (i : Nat),
        a.getData ≠ NULL → 1 ≤ i → i ≤ size → size < SIZE_MOD →
        (Mem.write m (a.opCall i) v) (a.getData + (i - 1)) = v ∧
        ∀ q : Nat, q ≠ a.getData + (i - 1) → (Mem.write m (a.opCall i) v) q = m q) ∧
    (∀ (size1 size2 : Nat) (a : StatArrayDim2 size1 size2 true) (i j : Nat),
        a.getData ≠ NULL → 1 ≤ i → i ≤ size1 → 1 ≤ j → j ≤ size2 →
        size1 * size2 < SIZE_MOD →
        (Mem.write m (a.opCall i j) v) (a.getData + colMajor2 size1 i j) = v ∧
        ∀ q : Nat, q ≠ a.getData + colMajor2 size1 i j →
          (Mem.write m (a.opCall i j) v) q = m q) ∧
    (∀ (size1 size2 size3 : Nat) (a : StatArrayDim3 size1 size2 size3 true) (i j k : Nat),
        a.getData ≠ NULL → 1 ≤ i → i ≤ size1 → 1 ≤ j → j ≤ size2 → 1 ≤ k → k ≤ size3 →
        size1 * size2 * size3 < SIZE_MOD →
        (Mem.write m (a.opCall i j k) v) (a.getData + colMajor3 size1 size2 i j k) = v ∧
        ∀ q : Nat, q ≠ a.getData + colMajor3 size1 size2 i j k →
          (Mem.write m (a.opCall i j k) v) q = m q) := by
  refine ⟨fun _ _ _ => ⟨rfl, rfl⟩, fun _ _ _ _ => ⟨rfl, rfl⟩, fun _ _ _ _ _ => ⟨rfl, rfl⟩,
    ?_, ?_, ?_⟩
  · intro size a i _ hi1 hi hrep
    rw [StatArrayDim1_opCall_eq a hi1 hi hrep]
    exact ⟨Mem_write_same _ _ _, fun q hq => Mem_write_other _ _ _ hq⟩
  · intro size1 size2 a i j _ hi1 hi hj1 hj hrep
    rw [StatArrayDim2_opCall_eq a hi1 hi hj1 hj hrep]
    exact ⟨Mem_write_same _ _ _, fun q hq => Mem_write_other _ _ _ hq⟩
  · intro size1 size2 size3 a i j k _ hi1 hi hj1 hj hk1 hk hrep
    rw [StatArrayDim3_opCall_eq a hi1 hi hj1 hj hk1 hk hrep]
    exact ⟨Mem_write_same _ _ _, fun q hq => Mem_write_other _ _ _ hq⟩

/-- Witness of C7: writing 7 at element 3, (2,3) and (2,3,4) of the external sample
arrays changes exactly the cell at offset 2, 5 and 23 of the buffer at address 100. -/
theorem external_write_in_place_witness :
    ((Mem.write sampleMemTen (sampleStatDim1.opCall 3) 7) (sampleStatDim1.getData + (3 - 1)) = 7 ∧
      ∀ q : Nat, q ≠ sampleStatDim1.getData + (3 - 1) →
        (Mem.write sampleMemTen (sampleStatDim1.opCall 3) 7) q = sampleMemTen q) ∧
    ((Mem.write sampleMemTen (sampleStatDim2.opCall 2 3) 7)
        (sampleStatDim2.getData + colMajor2 2 2 3) = 7 ∧
      ∀ q : Nat, q ≠ sampleStatDim2.getData + colMajor2 2 2 3 →
        (Mem.write sampleMemTen (sampleStatDim2.opCall 2 3) 7) q = sampleMemTen q) ∧
    ((Mem.write sampleMemTen (sampleStatDim3Ext.opCall 2 3 4) 7)
        (sampleStatDim3Ext.getData + colMajor3 2 3 2 3 4) = 7 ∧
      ∀ q : Nat, q ≠ sampleStatDim3Ext.getData + colMajor3 2 3 2 3 4 →
        (Mem.write sampleMemTen (sampleStatDim3Ext.opCall 2 3 4) 7) q = sampleMemTen q) :=
  ⟨(external_write_in_place Int sampleMemTen 7).2.2.2.1 4 sampleStatDim1 3
      (by decide) (by decide) (by decide) (by decide),
    (external_write_in_place Int sampleMemTen 7).2.2.2.2.1 2 3 sampleStatDim2 2 3
      (by decide) (by decide) (by decide) (by decide) (by decide) (by decide),
    (external_write_in_place Int sampleMemTen 7).2.2.2.2.2 2 3 4 sampleStatDim3Ext 2 3 4
      (by decide) (by decide) (by decide) (by decide) (by decide) (by decide) (by decide)
      (by decide)⟩

theorem rowMajor2_lt {d1 d2 i j : Nat} (hi1 : 1 ≤ i) (hi : i ≤ d1) (hj1 : 1 ≤ j)
    (hj : j ≤ d2) : rowMajor2 d2 i j < d1 * d2 := by
  have h := colMajor2_lt hj1 hj hi1 hi
  unfold colMajor2 at h
  unfold rowMajor2
  rw [Nat.mul_comm (i - 1) d2, Nat.mul_comm d1 d2]
  omega

/-- The `size_t` expression `(i-1)*d2 + (j-1)` has the value `rowMajor2 d2 i j` for a valid
index pair of an array whose element count is a `size_t`. -/
theorem szRowIndex2 {d1 d2 i j : Nat} (hi1 : 1 ≤ i) (hi : i ≤ d1) (hj1 : 1 ≤ j) (hj : j ≤ d2)
    (hrep : d1 * d2 < SIZE_MOD) :
    szAdd (szMul (szSub i 1) d2) (szSub j 1) = rowMajor2 d2 i j := by
  have hlt := rowMajor2_lt hi1 hi hj1 hj
  have hd1 : d1 ≤ d1 * d2 := Nat.le_mul_of_pos_right d1 (by omega)
  have hd2 : d2 ≤ d1 * d2 := Nat.le_mul_of_pos_left d2 (by omega)
  unfold rowMajor2 at hlt ⊢
  rw [szSub_one_of_pos hi1 (by omega), szSub_one_of_pos hj1 (by omega),
    szMul_of_lt (by omega), szAdd_of_lt (by omega)]

theorem RefArrayDim1_opCallIdx_eq {size : Nat} (a : RefArrayDim1 size) (i : Nat) :
    a.opCallIdx [i] = a.opCall i :=
  rfl

theorem RefArrayDim2_opCallIdx_eq {size1 size2 : Nat} (a : RefArrayDim2 size1 size2)
    (i j : Nat) : a.opCallIdx [i, j] = a.opCall i j :=
  rfl

theorem RefArrayDim2_opCall_eq {size1 size2 : Nat} (a : RefArrayDim2 size1 size2) {i j : Nat}
    (hi1 : 1 ≤ i) (hi : i ≤ size1) (hj1 : 1 ≤ j) (hj : j ≤ size2)
    (hrep : size1 * size2 < SIZE_MOD) :
    a.opCall i j = .ok (a.getDataRefs (rowMajor2 size2 i j)) := by
  have hlt := rowMajor2_lt hi1 hi hj1 hj
  unfold RefArrayDim2.opCall RefArray.getDataRefs
  have hN := szMul_of_lt hrep
  rw [szRowIndex2 hi1 hi hj1 hj hrep, if_pos (by omega)]

theorem RefArray_ofData_slot {nelems : Nat} (tmp data : Nat) {k : Nat} (hk : k < nelems) :
    (RefArray.ofData tmp data : RefArray nelems).getDataRefs k = data + k := by
  unfold RefArray.getDataRefs RefArray.ofData
  exact if_pos hk

/-- C8: the address table of a reference array constructed from a contiguous buffer
refers in slot `k` to `buffer[k]` for every `k` below the element count; for a rank-2
array with both sizes at least 1, the index operators at `(1, 1)` return the first
scalar of the buffer, so writing `v` there makes the first scalar `v` and leaves every
other cell of the memory as it was. -/
theorem ref_array_of_contiguous_buffer (T : Type) (m : Mem T) (v : T) (tmp data : Nat) :
    (∀ (nelems k : Nat), k < nelems →
        (RefArray.ofData tmp data : RefArray nelems).getDataRefs k = data + k) ∧
    (∀ (size1 size2 : Nat), 1 ≤ size1 → 1 ≤ size2 → size1 * size2 < SIZE_MOD →
        (RefArrayDim2.ofData tmp data : RefArrayDim2 size1 size2).opCall 1 1 = .ok data ∧
        (RefArrayDim2.ofData tmp data : RefArrayDim2 size1 size2).opCallIdx [1, 1]
          = .ok data ∧
        writeAt m ((RefArrayDim2.ofData tmp data : RefArrayDim2 size1 size2).opCall 1 1) v
          = .ok (Mem.write m data v) ∧
        (Mem.write m data v) data = v ∧
        ∀ q : Nat, q ≠ data → (Mem.write m data v) q = m q) := by
  refine ⟨fun nelems k hk => RefArray_ofData_slot tmp data hk, ?_⟩
  intro size1 size2 h1 h2 hrep
  have hpos : 0 < szMul size1 size2 := by
    rw [szMul_of_lt hrep]
    exact Nat.mul_pos h1 h2
  have hx : (RefArrayDim2.ofData tmp data : RefArrayDim2 size1 size2).opCall 1 1 = .ok data := by
    rw [RefArrayDim2_opCall_eq _ (le_refl 1) h1 (le_refl 1) h2 hrep]
    have h0 : rowMajor2 size2 1 1 = 0 := by simp [rowMajor2]
    rw [h0]
    show Except.ok ((RefArray.ofData tmp data : RefArray (szMul size1 size2)).getDataRefs 0) = _
    rw [RefArray_ofData_slot tmp data hpos]
    rfl
  refine ⟨hx, ?_, ?_, Mem_write_same _ _ _, fun q hq => Mem_write_other _ _ _ hq⟩
  · rw [RefArrayDim2_opCallIdx_eq, hx]
  · rw [hx, writeAt_ok]

/-- Witness of C8: a 2x3 reference array over the 6 scalars at the addresses 100 to 105;
writing 5 at `(1, 1)` stores 5 in the scalar at address 100. -/
theorem ref_array_of_contiguous_buffer_witness :
    (RefArray.ofData 50 100 : RefArray 6).getDataRefs 4 = 100 + 4 ∧
    (RefArrayDim2.ofData 50 100 : RefArrayDim2 2 3).opCall 1 1 = .ok 100 ∧
    writeAt sampleMemTen ((RefArrayDim2.ofData 50 100 : RefArrayDim2 2 3).opCall 1 1) 5
      = .ok (Mem.write sampleMemTen 100 5) ∧
    (Mem.write sampleMemTen 100 5) 100 = 5 :=
  ⟨(ref_array_of_contiguous_buffer Int sampleMemTen 5 50 100).1 6 4 (by decide),
    ((ref_array_of_contiguous_buffer Int sampleMemTen 5 50 100).2 2 3
      (by decide) (by decide) (by decide)).1,
    ((ref_array_of_contiguous_buffer Int sampleMemTen 5 50 100).2 2 3
      (by decide) (by decide) (by decide)).2.2.1,
    ((ref_array_of_contiguous_buffer Int sampleMemTen 5 50 100).2 2 3
      (by decide) (by decide) (by decide)).2.2.2.1⟩

/-! ## Index arithmetic of the reference arrays -/

/-- Counterexample to C2: in the 2x3 reference array the index pair `(2, 1)` resolves to
slot 3 of the address table, the scalar at address 103, and not to the column-major slot
`(2-1) + 2*(1-1) = 1`, the scalar at address 101. -/
theorem ref_array_dim2_not_column_major :
    sampleRefDim2.opCall 2 1 = .ok 103 ∧
    sampleRefDim2.opCallIdx [2, 1] = .ok 103 ∧
    sampleRefDim2.getDataRefs (colMajor2 2 2 1) = 101 ∧
    ¬ (sampleRefDim2.opCall 2 1 = .ok (sampleRefDim2.getDataRefs (colMajor2 2 2 1))) := by
  decide

/-- C2, amended: for a rank-2 reference array whose element count is a `size_t` and a
valid 1-based index pair, the index operators resolve to the slot of the address table
at the row-major offset `(i-1)*size2 + (j-1)`, which lies below the element count. -/
theorem ref_array_dim2_row_major (size1 size2 : Nat) (a : RefArrayDim2 size1 size2)
    (i j : Nat) (hi1 : 1 ≤ i) (hi : i ≤ size1) (hj1 : 1 ≤ j) (hj : j ≤ size2)
    (hrep : size1 * size2 < SIZE_MOD) :
    a.opCall i j = .ok (a.getDataRefs (rowMajor2 size2 i j)) ∧
    a.opCallIdx [i, j] = .ok (a.getDataRefs (rowMajor2 size2 i j)) ∧
    rowMajor2 size2 i j < a.getNumElems := by
  have hx := RefArrayDim2_opCall_eq a hi1 hi hj1 hj hrep
  refine ⟨hx, ?_, ?_⟩
  · rw [RefArrayDim2_opCallIdx_eq, hx]
  · have hN := szMul_of_lt hrep
    have := rowMajor2_lt hi1 hi hj1 hj
    unfold RefArray.getNumElems
    omega

/-- Witness of the amended C2: element `(2, 1)` of the 2x3 reference array is slot 3. -/
theorem ref_array_dim2_row_major_witness :
    sampleRefDim2.opCall 2 1 = .ok (sampleRefDim2.getDataRefs (rowMajor2 3 2 1)) ∧
    sampleRefDim2.opCallIdx [2, 1] = .ok (sampleRefDim2.getDataRefs (rowMajor2 3 2 1)) ∧
    rowMajor2 3 2 1 < sampleRefDim2.getNumElems :=
  ref_array_dim2_row_major 2 3 sampleRefDim2 2 1 (by decide) (by decide) (by decide)
    (by decide) (by decide)

/-- C3 at the failing input: in the 3x2x1 reference array the two valid index triples
`(3, 1, 1)` and `(1, 2, 1)` resolve to the same slot 2 of the address table, the scalar at
address 102. -/
theorem ref_array_dim3_slot_collision :
    sampleRefDim3.opCall 3 1 1 = .ok (sampleRefDim3.getDataRefs 2) ∧
    sampleRefDim3.opCall 1 2 1 = .ok (sampleRefDim3.getDataRefs 2) ∧
    sampleRefDim3.opCallIdx [3, 1, 1] = .ok (sampleRefDim3.getDataRefs 2) ∧
    sampleRefDim3.opCallIdx [1, 2, 1] = .ok (sampleRefDim3.getDataRefs 2) ∧
    sampleRefDim3.getDataRefs 2 = 102 := by
  decide

/-- C5 at the failing input: in the 2x3x1 reference array the valid index triple
`(2, 3, 1)` computes slot 7 of an address table of 6 slots, so the assertion of the index
operators fails and nothing can be written or read there. -/
theorem ref_array_dim3_valid_index_fails :
    sampleRefDim3b.opCall 2 3 1 = .error Fault.assertion ∧
    sampleRefDim3b.opCallIdx [2, 3, 1] = .error Fault.assertion ∧
    writeAt sampleMem (sampleRefDim3b.opCall 2 3 1) 5 = .error Fault.assertion ∧
    readAt sampleMem (sampleRefDim3b.opCall 2 3 1) = .error Fault.assertion := by
  refine ⟨by decide, by decide, rfl, rfl⟩

/-! ## Ranks 1 and 2 of the reference arrays -/

theorem rowMajor2_injective {d2 i j i' j' : Nat} (hi1 : 1 ≤ i) (hj1 : 1 ≤ j) (hj : j ≤ d2)
    (hi1' : 1 ≤ i') (hj1' : 1 ≤ j') (hj' : j' ≤ d2)
    (h : rowMajor2 d2 i j = rowMajor2 d2 i' j') : i = i' ∧ j = j' := by
  unfold rowMajor2 at h
  have hd : 0 < d2 := by omega
  have hq := congrArg (fun x => x / d2) h
  have hr := congrArg (fun x => x % d2) h
  simp only [] at hq hr
  rw [Nat.add_comm ((i - 1) * d2), Nat.add_comm ((i' - 1) * d2),
    Nat.add_mul_div_right _ _ hd, Nat.add_mul_div_right _ _ hd,
    Nat.div_eq_of_lt (by omega), Nat.div_eq_of_lt (by omega)] at hq
  rw [Nat.add_comm ((i - 1) * d2), Nat.add_comm ((i' - 1) * d2),
    Nat.add_mul_mod_self_right, Nat.add_mul_mod_self_right,
    Nat.mod_eq_of_lt (by omega), Nat.mod_eq_of_lt (by omega)] at hr
  omega

theorem RefArrayDim1_opCall_eq {size : Nat} (a : RefArrayDim1 size) {i : Nat} (hi1 : 1 ≤ i)
    (hi : i ≤ size) (hrep : size < SIZE_MOD) : a.opCall i = .ok (a.getDataRefs (i - 1)) := by
  unfold RefArrayDim1.opCall RefArray.getDataRefs
  rw [szSub_one_of_pos hi1 (by omega), if_pos (by omega)]

/-- On the ranks 1 and 2 of the reference arrays the index operators are injective: over
an address table whose slots refer to pairwise distinct scalars, two valid index tuples
that resolve to the same scalar are equal. -/
theorem ref_array_rank_1_2_index_injective :
    (∀ (size : Nat) (a : RefArrayDim1 size) (i i' : Nat), size < SIZE_MOD →
        (∀ s t : Nat, s < size → t < size → a.getDataRefs s = a.getDataRefs t → s = t) →
        1 ≤ i → i ≤ size → 1 ≤ i' → i' ≤ size → a.opCall i = a.opCall i' → i = i') ∧
    (∀ (size1 size2 : Nat) (a : RefArrayDim2 size1 size2) (i j i' j' : Nat),
        size1 * size2 < SIZE_MOD →
        (∀ s t : Nat, s < size1 * size2 → t < size1 * size2 →
          a.getDataRefs s = a.getDataRefs t → s = t) →
        1 ≤ i → i ≤ size1 → 1 ≤ j → j ≤ size2 → 1 ≤ i' → i' ≤ size1 → 1 ≤ j' → j' ≤ size2 →
        a.opCall i j = a.opCall i' j' → i = i' ∧ j = j') := by
  refine ⟨?_, ?_⟩
  · intro size a i i' hrep hinj hi1 hi hi1' hi' h
    rw [RefArrayDim1_opCall_eq a hi1 hi hrep, RefArrayDim1_opCall_eq a hi1' hi' hrep] at h
    have := hinj _ _ (by omega) (by omega) (Except.ok.inj h)
    omega
  · intro size1 size2 a i j i' j' hrep hinj hi1 hi hj1 hj hi1' hi' hj1' hj' h
    rw [RefArrayDim2_opCall_eq a hi1 hi hj1 hj hrep,
      RefArrayDim2_opCall_eq a hi1' hi' hj1' hj' hrep] at h
    exact rowMajor2_injective hi1 hj1 hj hi1' hj1' hj'
      (hinj _ _ (rowMajor2_lt hi1 hi hj1 hj) (rowMajor2_lt hi1' hi' hj1' hj') (Except.ok.inj h))

/-- On the ranks 1 and 2 of the reference arrays a value written through an index
operator at a valid index tuple is read back there. -/
theorem ref_array_rank_1_2_round_trip (T : Type) (m : Mem T) (v : T) :
    (∀ (size : Nat) (a : RefArrayDim1 size) (i : Nat), size < SIZE_MOD →
        1 ≤ i → i ≤ size →
        writeAt m (a.opCall i) v = .ok (Mem.write m (a.getDataRefs (i - 1)) v) ∧
        readAt (Mem.write m (a.getDataRefs (i - 1)) v) (a.opCall i) = .ok v ∧
        readAt (Mem.write m (a.getDataRefs (i - 1)) v) (a.opCallIdx [i]) = .ok v) ∧
    (∀ (size1 size2 : Nat) (a : RefArrayDim2 size1 size2) (i j : Nat),
        size1 * size2 < SIZE_MOD → 1 ≤ i → i ≤ size1 → 1 ≤ j → j ≤ size2 →
        writeAt m (a.opCall i j) v
          = .ok (Mem.write m (a.getDataRefs (rowMajor2 size2 i j)) v) ∧
        readAt (Mem.write m (a.getDataRefs (rowMajor2 size2 i j)) v) (a.opCall i j) = .ok v ∧
        readAt (Mem.write m (a.getDataRefs (rowMajor2 size2 i j)) v) (a.opCallIdx [i, j])
          = .ok v) := by
  refine ⟨?_, ?_⟩
  · intro size a i hrep hi1 hi
    rw [RefArrayDim1_opCallIdx_eq, RefArrayDim1_opCall_eq a hi1 hi hrep, writeAt_ok, readAt_ok,
      Mem_write_same]
    exact ⟨rfl, rfl, rfl⟩
  · intro size1 size2 a i j hrep hi1 hi hj1 hj
    rw [RefArrayDim2_opCallIdx_eq, RefArrayDim2_opCall_eq a hi1 hi hj1 hj hrep, writeAt_ok,
      readAt_ok, Mem_write_same]
    exact ⟨rfl, rfl, rfl⟩

/-! ## Resize of the arrays of fixed shape -/

theorem StatArray_resize_state {T : Type} {nelems : Nat} {external : Bool} (getDims : List Nat)
    (a : StatArray nelems external) (m : Mem T) (dims : List Nat) :
    (StatArray.resize getDims a m dims).2 = (a, m) := by
  unfold StatArray.resize
  split <;> rfl

theorem StatArray_resize_error {T : Type} {nelems : Nat} {external : Bool} (getDims : List Nat)
    (a : StatArray nelems external) (m : Mem T) (dims : List Nat) :
    (StatArray.resize getDims a m dims).1 = .error Fault.runtime_error ↔ dims ≠ getDims := by
  unfold StatArray.resize
  split <;> simp_all

theorem StatArray_resize_ok {T : Type} {nelems : Nat} {external : Bool} (getDims : List Nat)
    (a : StatArray nelems external) (m : Mem T) (dims : List Nat) :
    (StatArray.resize getDims a m dims).1 = .ok () ↔ dims = getDims := by
  unfold StatArray.resize
  split <;> simp_all

/-- C9: on a static array of rank 1, 2 or 3, with owned or external storage, `resize(dims)`
throws (a `std::runtime_error`) exactly when `dims` differs from `getDims()` and returns
normally exactly when `dims` equals `getDims()`; in both cases it leaves the array object,
hence its shape, and the memory, hence its contents, as they were. -/
theorem stat_resize_fails_iff_dims_differ (T : Type) (m : Mem T) (dims : List Nat) :
    (∀ (size : Nat) (external : Bool) (a : StatArrayDim1 size external),
        ((a.resize m dims).1 = .error Fault.runtime_error ↔ dims ≠ a.getDims) ∧
        ((a.resize m dims).1 = .ok () ↔ dims = a.getDims) ∧
        (a.resize m dims).2 = (a, m) ∧ (a.resize m dims).2.1.getDims = a.getDims) ∧
    (∀ (size1 size2 : Nat) (external : Bool) (a : StatArrayDim2 size1 size2 external),
        ((a.resize m dims).1 = .error Fault.runtime_error ↔ dims ≠ a.getDims) ∧
        ((a.resize m dims).1 = .ok () ↔ dims = a.getDims) ∧
        (a.resize m dims).2 = (a, m) ∧ (a.resize m dims).2.1.getDims = a.getDims) ∧
    (∀ (size1 size2 size3 : Nat) (external : Bool)
        (a : StatArrayDim3 size1 size2 size3 external),
        ((a.resize m dims).1 = .error Fault.runtime_error ↔ dims ≠ a.getDims) ∧
        ((a.resize m dims).1 = .ok () ↔ dims = a.getDims) ∧
        (a.resize m dims).2 = (a, m) ∧ (a.resize m dims).2.1.getDims = a.getDims) := by
  refine ⟨?_, ?_, ?_⟩
  · intro size external a
    refine ⟨StatArray_resize_error _ _ _ _, StatArray_resize_ok _ _ _ _, ?_, rfl⟩
    unfold StatArrayDim1.resize
    rw [StatArray_resize_state]
  · intro size1 size2 external a
    refine ⟨StatArray_resize_error _ _ _ _, StatArray_resize_ok _ _ _ _, ?_, rfl⟩
    unfold StatArrayDim2.resize
    rw [StatArray_resize_state]
  · intro size1 size2 size3 external a
    refine ⟨StatArray_resize_error _ _ _ _, StatArray_resize_ok _ _ _ _, ?_, rfl⟩
    unfold StatArrayDim3.resize
    rw [StatArray_resize_state]

/-- Counterexample to C10: on the reference vector of 3 elements, `resize` with
`getDims()`, the vector `[3]`, throws and does not return normally. -/
theorem ref_resize_same_dims_throws :
    sampleRefDim1.getDims = [3] ∧
    (sampleRefDim1.toRefArray.resize sampleMem sampleRefDim1.getDims).1
      = .error Fault.runtime_error ∧
    ¬ ((sampleRefDim1.toRefArray.resize sampleMem sampleRefDim1.getDims).1 = .ok ()) := by
  refine ⟨rfl, rfl, ?_⟩
  intro h
  cases h

/-- C10, amended: on a reference array of rank 1, 2 or 3, `resize(dims)` with `dims` equal
to `getDims()` throws (a `std::runtime_error`) and changes neither the array object nor
the memory. -/
theorem ref_resize_same_dims (T : Type) (m : Mem T) :
    (∀ (size : Nat) (a : RefArrayDim1 size),
        (a.toRefArray.resize m a.getDims).1 = .error Fault.runtime_error ∧
        (a.toRefArray.resize m a.getDims).2 = (a.toRefArray, m)) ∧
    (∀ (size1 size2 : Nat) (a : RefArrayDim2 size1 size2),
        (a.toRefArray.resize m a.getDims).1 = .error Fault.runtime_error ∧
        (a.toRefArray.resize m a.getDims).2 = (a.toRefArray, m)) ∧
    (∀ (size1 size2 size3 : Nat) (a : RefArrayDim3 size1 size2 size3),
        (a.toRefArray.resize m a.getDims).1 = .error Fault.runtime_error ∧
        (a.toRefArray.resize m a.getDims).2 = (a.toRefArray, m)) :=
  ⟨fun _ _ => ⟨rfl, rfl⟩, fun _ _ _ => ⟨rfl, rfl⟩, fun _ _ _ _ => ⟨rfl, rfl⟩⟩

/-! ## Copy loops -/

/-- The loop `for k < n: *tbl[k] = *src[k]`, front to back: when the destinations are
pairwise distinct and no source cell is a destination written earlier, destination `k`
receives the former value of source `k` and every other cell keeps its value. -/
theorem foldl_write_spec {T : Type} (tbl src : Nat → Nat) (m : Mem T) (n : Nat)
    (hinj : ∀ i j : Nat, i < n → j < n → tbl i = tbl j → i = j)
    (hsrc : ∀ i j : Nat, j < i → i < n → src i ≠ tbl j) :
    (∀ k : Nat, k < n →
      ((List.range n).foldl (fun acc k => Mem.write acc (tbl k) (acc (src k))) m) (tbl k)
        = m (src k)) ∧
    (∀ q : Nat, (∀ k : Nat, k < n → q ≠ tbl k) →
      ((List.range n).foldl (fun acc k => Mem.write acc (tbl k) (acc (src k))) m) q = m q) := by
  induction n with
  | zero =>
    refine ⟨fun k hk => absurd hk (Nat.not_lt_zero k), fun q _ => rfl⟩
  | succ n ih =>
    have ih' := ih (fun i j hi hj => hinj i j (by omega) (by omega))
      (fun i j hji hi => hsrc i j hji (by omega))
    rw [List.range_succ, List.foldl_append]
    simp only [List.foldl_cons, List.foldl_nil]
    have hsn : ((List.range n).foldl (fun acc k => Mem.write acc (tbl k) (acc (src k))) m)
        (src n) = m (src n) :=
      ih'.2 (src n) (fun k hk => hsrc n k hk (by omega))
    refine ⟨?_, ?_⟩
    · intro k hk
      by_cases hkn : k = n
      · subst hkn
        rw [Mem_write_same, hsn]
      · have hne : tbl k ≠ tbl n := fun h => hkn (hinj k n hk (by omega) h)
        rw [Mem_write_other _ _ _ hne]
        exact ih'.1 k (by omega)
    · intro q hq
      rw [Mem_write_other _ _ _ (hq n (by omega))]
      exact ih'.2 q (fun k hk => hq k (by omega))

/-- The loop `for k < n: *tbl[k] = *src[k]` changes no cell other than its destinations,
whatever the tables are. -/
theorem foldl_write_other {T : Type} (tbl src : Nat → Nat) (m : Mem T) (n : Nat) (q : Nat)
    (hq : ∀ k : Nat, k < n → q ≠ tbl k) :
    ((List.range n).foldl (fun acc k => Mem.write acc (tbl k) (acc (src k))) m) q = m q := by
  induction n with
  | zero => rfl
  | succ n ih =>
    rw [List.range_succ, List.foldl_append]
    simp only [List.foldl_cons, List.foldl_nil]
    rw [Mem_write_other _ _ _ (hq n (by omega))]
    exact ih (fun k hk => hq k (by omega))

/-- The algorithm `std::copy(src, src + n, dst)` whose destination does not start inside
the source range: cell `dst + k` receives the former value of cell `src + k`. -/
theorem std_copy_dst {T : Type} (m : Mem T) (src n dst : Nat)
    (h : dst ≤ src ∨ src + n ≤ dst) {k : Nat} (hk : k < n) :
    (std_copy m src n dst) (dst + k) = m (src + k) :=
  (foldl_write_spec (fun k => dst + k) (fun k => src + k) m n
    (fun i j _ _ hij => by simp only [] at hij; omega)
    (fun i j hji hi => by simp only []; omega)).1 k hk

/-- The algorithm `std::copy(src, src + n, dst)` changes no cell outside
`[dst, dst + n)`. -/
theorem std_copy_other {T : Type} (m : Mem T) (src n dst : Nat) {q : Nat}
    (hq : q < dst ∨ dst + n ≤ q) : (std_copy m src n dst) q = m q :=
  foldl_write_other (fun k => dst + k) (fun k => src + k) m n q
    (fun k hk => by simp only []; omega)

/-! ## Resize -/

/-- C11: on a reference array of rank 1, 2 or 3, `resize(dims)` throws (a
`std::runtime_error`) for every `dims` and leaves the array object, hence its address
table, and the memory, hence the referenced scalars, as they were. -/
theorem ref_resize_always_throws (T : Type) (m : Mem T) (dims : List Nat) :
    (∀ (size : Nat) (a : RefArrayDim1 size),
        (a.toRefArray.resize m dims).1 = .error Fault.runtime_error ∧
        (a.toRefArray.resize m dims).2.1.getDataRefs = a.getDataRefs ∧
        (a.toRefArray.resize m dims).2.2 = m) ∧
    (∀ (size1 size2 : Nat) (a : RefArrayDim2 size1 size2),
        (a.toRefArray.resize m dims).1 = .error Fault.runtime_error ∧
        (a.toRefArray.resize m dims).2.1.getDataRefs = a.getDataRefs ∧
        (a.toRefArray.resize m dims).2.2 = m) ∧
    (∀ (size1 size2 size3 : Nat) (a : RefArrayDim3 size1 size2 size3),
        (a.toRefArray.resize m dims).1 = .error Fault.runtime_error ∧
        (a.toRefArray.resize m dims).2.1.getDataRefs = a.getDataRefs ∧
        (a.toRefArray.resize m dims).2.2 = m) :=
  ⟨fun _ _ => ⟨rfl, rfl, rfl⟩, fun _ _ _ => ⟨rfl, rfl, rfl⟩, fun _ _ _ _ => ⟨rfl, rfl, rfl⟩⟩

theorem MultiArray_extentsOf_eq (ndims : Nat) (dims : List Nat) (h : dims.length = ndims) :
    MultiArray.extentsOf ndims dims = dims := by
  unfold MultiArray.extentsOf
  apply List.ext_getElem
  · simp [h]
  · intro i h1 h2
    simp only [List.getElem_map, List.getElem_range]
    rw [List.getD_eq_getElem _ _ h2]

/-- C12: on a reachable dynamic array of rank `ndims`, for every `dims` with `ndims`
entries, after `resize(dims)` and likewise after `setDims(dims)`, `getDims()` is `dims`
and `getNumElems()` is the product of `dims` in `size_t` arithmetic, hence the product
itself whenever the product is a `size_t`. -/
theorem dyn_resize_sets_shape (T : Type) [Inhabited T] (ndims : Nat) (a : DynArray ndims)
    (m : Mem T) (dims : List Nat) (fresh : Nat) (hr : DynArray.Reachable T a)
    (hlen : dims.length = ndims) :
    (a.resize m dims fresh).1.getDims = dims ∧
    (a.resize m dims fresh).1.getNumElems = dims.prod % SIZE_MOD ∧
    (a.setDims m dims fresh).1.getDims = dims ∧
    (a.setDims m dims fresh).1.getNumElems = dims.prod % SIZE_MOD ∧
    (dims.prod < SIZE_MOD →
      (a.resize m dims fresh).1.getNumElems = dims.prod ∧
      (a.setDims m dims fresh).1.getNumElems = dims.prod) := by
  have hs1 : (a.setDims m dims fresh).1.getDims = dims := MultiArray_extentsOf_eq ndims dims hlen
  have hs2 : (a.setDims m dims fresh).1.getNumElems = dims.prod % SIZE_MOD := by
    show szProd (MultiArray.extentsOf ndims dims) = _
    rw [MultiArray_extentsOf_eq ndims dims hlen, szProd_eq]
  have hr1 : (a.resize m dims fresh).1.getDims = dims := by
    unfold DynArray.resize
    split
    · exact hs1
    · rename_i h
      simp only [ne_eq, not_not] at h
      exact h.symm
  have hr2 : (a.resize m dims fresh).1.getNumElems = dims.prod % SIZE_MOD := by
    unfold DynArray.resize
    split
    · exact hs2
    · rename_i h
      simp only [ne_eq, not_not] at h
      rw [DynArray_Reachable_getNumElems hr, ← h]
  refine ⟨hr1, hr2, hs1, hs2, fun hlt => ?_⟩
  rw [hr2, hs2, Nat.mod_eq_of_lt hlt]
  exact ⟨rfl, rfl⟩

/-- Witness of C12: the dynamic 2x3 sample array resized to 4x5 has shape `[4, 5]` and 20
elements. -/
theorem dyn_resize_sets_shape_witness :
    (sampleDynDim2.toDynArray.resize sampleMem [4, 5] 2000).1.getDims = [4, 5] ∧
    (sampleDynDim2.toDynArray.resize sampleMem [4, 5] 2000).1.getNumElems
      = [4, 5].prod % SIZE_MOD ∧
    (sampleDynDim2.toDynArray.setDims sampleMem [4, 5] 2000).1.getDims = [4, 5] ∧
    (sampleDynDim2.toDynArray.setDims sampleMem [4, 5] 2000).1.getNumElems
      = [4, 5].prod % SIZE_MOD ∧
    ([4, 5].prod < SIZE_MOD →
      (sampleDynDim2.toDynArray.resize sampleMem [4, 5] 2000).1.getNumElems = [4, 5].prod ∧
      (sampleDynDim2.toDynArray.setDims sampleMem [4, 5] 2000).1.getNumElems = [4, 5].prod) :=
  dyn_resize_sets_shape Int 2 sampleDynDim2.toDynArray sampleMem [4, 5] 2000
    sampleDynDim2_reachable rfl

/-! ## Assignment from a flat buffer -/

theorem StatArray_assignData_spec {T : Type} {nelems : Nat} {external : Bool}
    (a : StatArray nelems external) (m : Mem T) (data : Nat) (hnull : a._data ≠ NULL)
    (hpre : a._data < data ∨ data + nelems ≤ a._data) :
    (a.assignData m data).1 = .ok () ∧ (a.assignData m data).2.1 = a ∧
    (∀ k : Nat, k < nelems → (a.assignData m data).2.2 (a._data + k) = m (data + k)) ∧
    (∀ q : Nat, q < a._data ∨ a._data + nelems ≤ q → (a.assignData m data).2.2 q = m q) := by
  unfold StatArray.assignData
  by_cases hn : nelems > 0
  · rw [if_pos hn, if_neg hnull]
    exact ⟨rfl, rfl, fun k hk => std_copy_dst m data nelems a._data (by omega) hk,
      fun q hq => std_copy_other m data nelems a._data hq⟩
  · rw [if_neg hn]
    exact ⟨rfl, rfl, fun k hk => absurd hk (by omega), fun q _ => rfl⟩

theorem DynArray_assignData_spec {T : Type} {ndims : Nat} (a : DynArray ndims) (m : Mem T)
    (data : Nat) (hpre : a.getData < data ∨ data + a.getNumElems ≤ a.getData) :
    (a.assignData m data).1 = a ∧
    (∀ k : Nat, k < a.getNumElems → (a.assignData m data).2 (a.getData + k) = m (data + k)) ∧
    (∀ q : Nat, q < a.getData ∨ a.getData + a.getNumElems ≤ q →
      (a.assignData m data).2 q = m q) := by
  unfold DynArray.getData DynArray.getNumElems at *
  exact ⟨rfl, fun k hk => std_copy_dst m data _ _ (by omega) hk,
    fun q hq => std_copy_other m data _ _ hq⟩

/-- C13: `assign(data)` on an initialized static array and on a reachable dynamic array, of
rank 1, 2 or 3 and with an element count that is a `size_t`, from a flat buffer `data` of
`getNumElems()` values into which the array buffer does not point (the precondition of
`std::copy`): the call returns normally, leaves the array object, hence its shape, as it
was, and afterwards the element at every valid 1-based index tuple holds the value that
`data` held at the column-major offset of the tuple (rank 1: `data[i-1]`). -/
theorem assign_data_column_major (T : Type) [Inhabited T] (m : Mem T) (data : Nat) :
    (∀ (size : Nat) (external : Bool) (a : StatArrayDim1 size external),
        a.getData ≠ NULL → size < SIZE_MOD →
        (a.getData < data ∨ data + a.getNumElems ≤ a.getData) →
        (a.toStatArray.assignData m data).1 = .ok () ∧
        (a.toStatArray.assignData m data).2.1 = a.toStatArray ∧
        ∀ i : Nat, 1 ≤ i → i ≤ size →
          (a.toStatArray.assignData m data).2.2 (a.opCall i) = m (data + (i - 1))) ∧
    (∀ (size1 size2 : Nat) (external : Bool) (a : StatArrayDim2 size1 size2 external),
        a.getData ≠ NULL → size1 * size2 < SIZE_MOD →
        (a.getData < data ∨ data + a.getNumElems ≤ a.getData) →
        (a.toStatArray.assignData m data).1 = .ok () ∧
        (a.toStatArray.assignData m data).2.1 = a.toStatArray ∧
        ∀ i j : Nat, 1 ≤ i → i ≤ size1 → 1 ≤ j → j ≤ size2 →
          (a.toStatArray.assignData m data).2.2 (a.opCall i j)
            = m (data + colMajor2 size1 i j)) ∧
    (∀ (size1 size2 size3 : Nat) (external : Bool)
        (a : StatArrayDim3 size1 size2 size3 external),
        a.getData ≠ NULL → size1 * size2 * size3 < SIZE_MOD →
        (a.getData < data ∨ data + a.getNumElems ≤ a.getData) →
        (a.toStatArray.assignData m data).1 = .ok () ∧
        (a.toStatArray.assignData m data).2.1 = a.toStatArray ∧
        ∀ i j k : Nat, 1 ≤ i → i ≤ size1 → 1 ≤ j → j ≤ size2 → 1 ≤ k → k ≤ size3 →
          (a.toStatArray.assignData m data).2.2 (a.opCall i j k)
            = m (data + colMajor3 size1 size2 i j k)) ∧
    (∀ (a : DynArrayDim1) (d1 : Nat),
        DynArray.Reachable T a.toDynArray → a.getDims = [d1] → d1 < SIZE_MOD →
        (a.getData < data ∨ data + a.getNumElems ≤ a.getData) →
        (a.toDynArray.assignData m data).1 = a.toDynArray ∧
        ∀ i : Nat, 1 ≤ i → i ≤ d1 →
          (a.toDynArray.assignData m data).2 (a.opCall i) = m (data + (i - 1))) ∧
    (∀ (a : DynArrayDim2) (d1 d2 : Nat),
        DynArray.Reachable T a.toDynArray → a.getDims = [d1, d2] → d1 * d2 < SIZE_MOD →
        (a.getData < data ∨ data + a.getNumElems ≤ a.getData) →
        (a.toDynArray.assignData m data).1 = a.toDynArray ∧
        ∀ i j : Nat, 1 ≤ i → i ≤ d1 → 1 ≤ j → j ≤ d2 →
          (a.toDynArray.assignData m data).2 (a.opCall i j) = m (data + colMajor2 d1 i j)) ∧
    (∀ (a : DynArrayDim3) (d1 d2 d3 : Nat),
        DynArray.Reachable T a.toDynArray → a.getDims = [d1, d2, d3] →
        d1 * d2 * d3 < SIZE_MOD →
        (a.getData < data ∨ data + a.getNumElems ≤ a.getData) →
        (a.toDynArray.assignData m data).1 = a.toDynArray ∧
        ∀ i j k : Nat, 1 ≤ i → i ≤ d1 → 1 ≤ j → j ≤ d2 → 1 ≤ k → k ≤ d3 →
          (a.toDynArray.assignData m data).2 (a.opCall i j k)
            = m (data + colMajor3 d1 d2 i j k)) := by
  refine ⟨?_, ?_, ?_, ?_, ?_, ?_⟩
  · intro size external a hnull hrep hpre
    have h := StatArray_assignData_spec a.toStatArray m data hnull hpre
    refine ⟨h.1, h.2.1, fun i hi1 hi => ?_⟩
    rw [StatArrayDim1_opCall_eq a hi1 hi hrep]
    exact h.2.2.1 (i - 1) (by omega)
  · intro size1 size2 external a hnull hrep hpre
    have h := StatArray_assignData_spec a.toStatArray m data hnull hpre
    have hN := szMul_of_lt hrep
    refine ⟨h.1, h.2.1, fun i j hi1 hi hj1 hj => ?_⟩
    rw [StatArrayDim2_opCall_eq a hi1 hi hj1 hj hrep]
    have := colMajor2_lt hi1 hi hj1 hj
    exact h.2.2.1 (colMajor2 size1 i j) (by omega)
  · intro size1 size2 size3 external a hnull hrep hpre
    have h := StatArray_assignData_spec a.toStatArray m data hnull hpre
    refine ⟨h.1, h.2.1, fun i j k hi1 hi hj1 hj hk1 hk => ?_⟩
    have h12 : size1 * size2 < SIZE_MOD :=
      lt_of_le_of_lt (Nat.le_mul_of_pos_right _ (by omega)) hrep
    have hN : szMul (szMul size1 size2) size3 = size1 * size2 * size3 := by
      rw [szMul_of_lt h12, szMul_of_lt hrep]
    rw [StatArrayDim3_opCall_eq a hi1 hi hj1 hj hk1 hk hrep]
    have := colMajor3_lt hi1 hi hj1 hj hk1 hk
    exact h.2.2.1 (colMajor3 size1 size2 i j k) (by omega)
  · intro a d1 hr hd hrep hpre
    have h := DynArray_assignData_spec a.toDynArray m data hpre
    have hp : [d1].prod = d1 := by simp
    have hn : a.getNumElems = d1 := by
      rw [DynArray_Reachable_getNumElems hr, hd, hp, Nat.mod_eq_of_lt hrep]
    refine ⟨h.1, fun i hi1 hi => ?_⟩
    rw [DynArrayDim1_opCall_eq a hi1 hi hrep]
    exact h.2.1 (i - 1) (by omega)
  · intro a d1 d2 hr hd hrep hpre
    have h := DynArray_assignData_spec a.toDynArray m data hpre
    have hp : [d1, d2].prod = d1 * d2 := by simp
    have hn : a.getNumElems = d1 * d2 := by
      rw [DynArray_Reachable_getNumElems hr, hd, hp, Nat.mod_eq_of_lt hrep]
    refine ⟨h.1, fun i j hi1 hi hj1 hj => ?_⟩
    rw [DynArrayDim2_opCall_eq a hd hi1 hi hj1 hj hrep]
    have := colMajor2_lt hi1 hi hj1 hj
    exact h.2.1 (colMajor2 d1 i j) (by omega)
  · intro a d1 d2 d3 hr hd hrep hpre
    have h := DynArray_assignData_spec a.toDynArray m data hpre
    have hp : [d1, d2, d3].prod = d1 * d2 * d3 := by simp [Nat.mul_assoc]
    have hn : a.getNumElems = d1 * d2 * d3 := by
      rw [DynArray_Reachable_getNumElems hr, hd, hp, Nat.mod_eq_of_lt hrep]
    refine ⟨h.1, fun i j k hi1 hi hj1 hj hk1 hk => ?_⟩
    rw [DynArrayDim3_opCall_eq a hd hi1 hi hj1 hj hk1 hk hrep]
    have := colMajor3_lt hi1 hi hj1 hj hk1 hk
    exact h.2.1 (colMajor3 d1 d2 i j k) (by omega)

/-- Witness of C13: the dynamic vector of shape 4 assigned the buffer 1, 2, 3, 4 (at the
addresses 500 to 503) has element 3 at index 3; likewise the other sample arrays hold at
their last element the value of the buffer at the column-major offset. -/
theorem assign_data_column_major_witness :
    (sampleDynDim1.toDynArray.assignData sampleMemSeq 500).2 (sampleDynDim1.opCall 3) = 3 ∧
    (sampleDynDim2.toDynArray.assignData sampleMemSeq 500).2 (sampleDynDim2.opCall 2 3) = 6 ∧
    (sampleDynDim3.toDynArray.assignData sampleMemSeq 500).2 (sampleDynDim3.opCall 2 3 4)
      = 24 ∧
    (sampleStatDim1.toStatArray.assignData sampleMemSeq 500).2.2 (sampleStatDim1.opCall 3)
      = 3 ∧
    (sampleStatDim2.toStatArray.assignData sampleMemSeq 500).2.2 (sampleStatDim2.opCall 2 3)
      = 6 ∧
    (sampleStatDim3.toStatArray.assignData sampleMemSeq 500).2.2 (sampleStatDim3.opCall 2 3 4)
      = 24 :=
  ⟨((assign_data_column_major Int sampleMemSeq 500).2.2.2.1 sampleDynDim1 4
      sampleDynDim1_reachable rfl (by decide) (by decide)).2 3 (by decide) (by decide),
    ((assign_data_column_major Int sampleMemSeq 500).2.2.2.2.1 sampleDynDim2 2 3
      sampleDynDim2_reachable rfl (by decide) (by decide)).2 2 3
      (by decide) (by decide) (by decide) (by decide),
    ((assign_data_column_major Int sampleMemSeq 500).2.2.2.2.2 sampleDynDim3 2 3 4
      sampleDynDim3_reachable rfl (by decide) (by decide)).2 2 3 4
      (by decide) (by decide) (by decide) (by decide) (by decide) (by decide),
    ((assign_data_column_major Int sampleMemSeq 500).1 4 true sampleStatDim1
      (by decide) (by decide) (by decide)).2.2 3 (by decide) (by decide),
    ((assign_data_column_major Int sampleMemSeq 500).2.1 2 3 true sampleStatDim2
      (by decide) (by decide) (by decide)).2.2 2 3
      (by decide) (by decide) (by decide) (by decide),
    ((assign_data_column_major Int sampleMemSeq 500).2.2.1 2 3 4 false sampleStatDim3
      (by decide) (by decide) (by decide)).2.2 2 3 4
      (by decide) (by decide) (by decide) (by decide) (by decide) (by decide)⟩

/-! ## Assignment to a reference array -/

/-- C14: `assign(data)` on a reference array of `N` elements whose slots refer to pairwise
distinct scalars, from a flat buffer `data` of `N` values that contains none of these
scalars: afterwards the scalar referenced by slot `k` holds the value `data[k]` for every
`k < N`; the address table and the buffer `data` are as they were. -/
theorem ref_assign_data_scatter (T : Type) (m : Mem T) (data N : Nat) (a : RefArray N)
    (hinj : ∀ i : Nat, i < N → ∀ j : Nat, j < N → a.getDataRefs i = a.getDataRefs j → i = j)
    (hdisj : ∀ i : Nat, i < N → ∀ j : Nat, j < N → data + i ≠ a.getDataRefs j) :
    (a.assignData m data).1.getDataRefs = a.getDataRefs ∧
    (∀ k : Nat, k < N → (a.assignData m data).2 (a.getDataRefs k) = m (data + k)) ∧
    (∀ k : Nat, k < N → (a.assignData m data).2 (data + k) = m (data + k)) := by
  refine ⟨rfl, ?_, ?_⟩
  · exact (foldl_write_spec a._ref_array (fun k => data + k) m N
      (fun i j hi hj => hinj i hi j hj)
      (fun i j hji hi => hdisj i hi j (by omega))).1
  · intro k hk
    exact foldl_write_other a._ref_array (fun k => data + k) m N (data + k)
      (fun j hj => hdisj k hk j hj)

/-- Witness of C14: the reference vector over the scalars at the addresses 100, 101, 102,
assigned the buffer 1, 2, 3 at the addresses 500 to 502. -/
theorem ref_assign_data_scatter_witness :
    (sampleRefDim1.toRefArray.assignData sampleMemSeq 500).1.getDataRefs
      = sampleRefDim1.getDataRefs ∧
    (∀ k : Nat, k < 3 →
      (sampleRefDim1.toRefArray.assignData sampleMemSeq 500).2 (sampleRefDim1.getDataRefs k)
        = sampleMemSeq (500 + k)) ∧
    (∀ k : Nat, k < 3 →
      (sampleRefDim1.toRefArray.assignData sampleMemSeq 500).2 (500 + k)
        = sampleMemSeq (500 + k)) :=
  ref_assign_data_scatter Int sampleMemSeq 500 3 sampleRefDim1.toRefArray
    (by decide) (by decide)

theorem RefArray_assign_eq {T : Type} {N : Nat} (a : RefArray N) (m : Mem T) (b : BaseArray) :
    a.assign m b = (.ok (), (a, (List.range N).foldl
      (fun acc k => Mem.write acc (a._ref_array k) (acc (b.storageAddr k))) m)) := by
  cases b <;> rfl

theorem RefArray_assign_spec {T : Type} {N : Nat} (a : RefArray N) (m : Mem T) (b : BaseArray)
    (hinj : ∀ i : Nat, i < N → ∀ j : Nat, j < N → a.getDataRefs i = a.getDataRefs j → i = j)
    (hdisj : ∀ i : Nat, i < N → ∀ j : Nat, j < N → b.storageAddr i ≠ a.getDataRefs j) :
    (a.assign m b).1 = .ok () ∧
    (a.assign m b).2.1 = a ∧
    (∀ k : Nat, k < N → (a.assign m b).2.2 (a.getDataRefs k) = m (b.storageAddr k)) ∧
    (∀ k : Nat, k < N → (a.assign m b).2.2 (b.storageAddr k) = m (b.storageAddr k)) := by
  rw [RefArray_assign_eq]
  refine ⟨rfl, rfl, ?_, ?_⟩
  · exact (foldl_write_spec a._ref_array b.storageAddr m N
      (fun i j hi hj => hinj i hi j hj)
      (fun i j hji hi => hdisj i hi j (by omega))).1
  · intro k hk
    exact foldl_write_other a._ref_array b.storageAddr m N (b.storageAddr k)
      (fun j hj => hdisj k hk j hj)

/-- Counterexample to C15: the reference vector whose two slots refer to the same scalar
(address 100) is assigned the static vector over the buffer 1, 2 (addresses 500, 501),
whose storage is disjoint from that scalar.  The scalar receives 1 and then 2, so the
scalar of slot 0 ends with the value 2 and not with the value 1 that the source held at
slot 0. -/
theorem ref_assign_array_aliased_slots :
    (BaseArray.statDim1 2 true sampleStatSrc2).getNumElems = sampleRefAlias.getNumElems ∧
    (∀ i : Nat, i < 2 → ∀ j : Nat, j < 2 →
      (BaseArray.statDim1 2 true sampleStatSrc2).storageAddr i ≠ sampleRefAlias.getDataRefs j) ∧
    (sampleRefAlias.toRefArray.assign sampleMemSeq (BaseArray.statDim1 2 true sampleStatSrc2)).1
      = .ok () ∧
    sampleMemSeq ((BaseArray.statDim1 2 true sampleStatSrc2).storageAddr 0) = 1 ∧
    (sampleRefAlias.toRefArray.assign sampleMemSeq
      (BaseArray.statDim1 2 true sampleStatSrc2)).2.2 (sampleRefAlias.getDataRefs 0) = 2 ∧
    ¬ (∀ k : Nat, k < 2 →
      (sampleRefAlias.toRefArray.assign sampleMemSeq
        (BaseArray.statDim1 2 true sampleStatSrc2)).2.2 (sampleRefAlias.getDataRefs k)
        = sampleMemSeq ((BaseArray.statDim1 2 true sampleStatSrc2).storageAddr k)) := by
  decide

/-- C15, amended: `assign(b)` on a reference array of `N` elements whose slots refer to
pairwise distinct scalars, from a source array `b` of `N` elements whose storage contains
none of these scalars: the call returns normally and afterwards the scalar of slot `k`
holds the value that `b` held at element `k` of its storage, for every `k < N`; the
address table and the values of `b` are as they were.  Element `k` of the storage of `b`
is slot `k` of `b.getDataRefs()` when `b.isRefArray()`, and cell `k` of `b.getData()`
otherwise. -/
theorem ref_assign_array_copies (T : Type) (m : Mem T) (N : Nat) (a : RefArray N)
    (b : BaseArray) (_hN : b.getNumElems = N)
    (hinj : ∀ i : Nat, i < N → ∀ j : Nat, j < N → a.getDataRefs i = a.getDataRefs j → i = j)
    (hdisj : ∀ i : Nat, i < N → ∀ j : Nat, j < N → b.storageAddr i ≠ a.getDataRefs j) :
    (a.assign m b).1 = .ok () ∧
    (a.assign m b).2.1.getDataRefs = a.getDataRefs ∧
    (∀ k : Nat, k < N → (a.assign m b).2.2 (a.getDataRefs k) = m (b.storageAddr k)) ∧
    (∀ k : Nat, k < N → (a.assign m b).2.2 (b.storageAddr k) = m (b.storageAddr k)) ∧
    (b.isRefArray = true → b.getDataRefs = .ok b.storageAddr) ∧
    (b.isRefArray = false → ∀ k : Nat, b.storageAddr k = (b.getDataConst m).1 + k) := by
  have h := RefArray_assign_spec a m b hinj hdisj
  refine ⟨h.1, by rw [h.2.1], h.2.2.1, h.2.2.2, ?_, ?_⟩
  · intro hb
    cases b <;> first | rfl | cases hb
  · intro hb
    cases b <;> first | exact fun _ => rfl | cases hb

/-- Witness of the amended C15: the reference vector over the scalars at the addresses
100, 101, 102 is assigned the static vector over the buffer 1, 2, 3 at the addresses 500
to 502. -/
theorem ref_assign_array_copies_witness :
    (sampleRefDim1.toRefArray.assign sampleMemSeq (BaseArray.statDim1 3 true sampleStatSrc3)).1
      = .ok () ∧
    (∀ k : Nat, k < 3 →
      (sampleRefDim1.toRefArray.assign sampleMemSeq
        (BaseArray.statDim1 3 true sampleStatSrc3)).2.2 (sampleRefDim1.getDataRefs k)
        = sampleMemSeq ((BaseArray.statDim1 3 true sampleStatSrc3).storageAddr k)) :=
  ⟨(ref_assign_array_copies Int sampleMemSeq 3 sampleRefDim1.toRefArray
      (BaseArray.statDim1 3 true sampleStatSrc3) rfl (by decide) (by decide)).1,
    (ref_assign_array_copies Int sampleMemSeq 3 sampleRefDim1.toRefArray
      (BaseArray.statDim1 3 true sampleStatSrc3) rfl (by decide) (by decide)).2.2.1⟩

/-! ## Element counts in assign(otherArray) -/

/-- Counterexample to C16: the owned static vector of capacity 0 is assigned a static
vector of 4 elements; the element counts differ and the call returns normally. -/
theorem stat_assign_array_capacity_zero :
    (BaseArray.statDim1 4 true sampleStatSrc4).getNumElems ≠ sampleStatEmpty.getNumElems ∧
    (sampleStatEmpty.toStatArray.assign sampleMemSeq
      (BaseArray.statDim1 4 true sampleStatSrc4)).1 = .ok () ∧
    ¬ ((sampleStatEmpty.toStatArray.assign sampleMemSeq
      (BaseArray.statDim1 4 true sampleStatSrc4)).1 = .error Fault.assertion) := by
  decide

/-- C16, amended: `assign(b)` on a static array of capacity `N` from a source `b` with
`b.getNumElems() != N` copies nothing and leaves the array object and the memory as they
were; for `N > 0` it fails, on the assertion `b.getNumElems() == nelems` when the array is
initialized and with a `std::runtime_error` when its `_data` is null; for `N = 0` it
returns normally. -/
theorem stat_assign_array_count_mismatch (T : Type) (m : Mem T) (N : Nat) (external : Bool)
    (a : StatArray N external) (b : BaseArray) (hne : b.getNumElems ≠ N) :
    (a.assign m b).2 = (a, m) ∧
    (0 < N → a.getData ≠ NULL → (a.assign m b).1 = .error Fault.assertion) ∧
    (0 < N → a.getData = NULL → (a.assign m b).1 = .error Fault.runtime_error) ∧
    (N = 0 → (a.assign m b).1 = .ok ()) := by
  unfold StatArray.assign StatArray.getData
  refine ⟨?_, ?_, ?_, ?_⟩
  · by_cases hN : N > 0
    · rw [if_pos hN]
      by_cases hnull : a._data = NULL
      · rw [if_pos hnull]
      · rw [if_neg hnull, if_neg hne]
    · rw [if_neg hN]
  · intro hN hnull
    rw [if_pos hN, if_neg hnull, if_neg hne]
  · intro hN hnull
    rw [if_pos hN, if_pos hnull]
  · intro hN
    rw [if_neg (by omega)]

/-- Witness of the amended C16: the owned static vector of 4 elements at address 300 is
assigned a static vector of 3 elements and fails on the assertion. -/
theorem stat_assign_array_count_mismatch_witness :
    (sampleStatOwn4.toStatArray.assign sampleMemSeq
      (BaseArray.statDim1 3 true sampleStatSrc3)).2 = (sampleStatOwn4.toStatArray, sampleMemSeq) ∧
    (0 < 4 → sampleStatOwn4.getData ≠ NULL →
      (sampleStatOwn4.toStatArray.assign sampleMemSeq
        (BaseArray.statDim1 3 true sampleStatSrc3)).1 = .error Fault.assertion) :=
  ⟨(stat_assign_array_count_mismatch Int sampleMemSeq 4 false sampleStatOwn4.toStatArray
      (BaseArray.statDim1 3 true sampleStatSrc3) (by decide)).1,
    (stat_assign_array_count_mismatch Int sampleMemSeq 4 false sampleStatOwn4.toStatArray
      (BaseArray.statDim1 3 true sampleStatSrc3) (by decide)).2.1⟩

/-- Counterexample to C17: the reference vector of 3 elements (scalars at the addresses
100, 101, 102) is assigned a static vector of 4 elements over the buffer 1, 2, 3, 4; the
element counts differ, the call returns normally and has copied the first 3 values. -/
theorem ref_assign_array_count_differs :
    (BaseArray.statDim1 4 true sampleStatSrc4).getNumElems ≠ sampleRefDim1.getNumElems ∧
    (sampleRefDim1.toRefArray.assign sampleMemSeq
      (BaseArray.statDim1 4 true sampleStatSrc4)).1 = .ok () ∧
    (sampleRefDim1.toRefArray.assign sampleMemSeq
      (BaseArray.statDim1 4 true sampleStatSrc4)).2.2 100 = 1 ∧
    (sampleRefDim1.toRefArray.assign sampleMemSeq
      (BaseArray.statDim1 4 true sampleStatSrc4)).2.2 101 = 2 ∧
    (sampleRefDim1.toRefArray.assign sampleMemSeq
      (BaseArray.statDim1 4 true sampleStatSrc4)).2.2 102 = 3 := by
  decide

/-- C17, amended: `assign(b)` on a reference array of `N` elements (slots referring to
pairwise distinct scalars) compares no element counts: from a source `b` with more than
`N` elements, whose first `N` elements are stored apart from these scalars, the call
returns normally and copies the first `N` values of `b` into the referenced scalars. -/
theorem ref_assign_array_no_count_check (T : Type) (m : Mem T) (N : Nat) (a : RefArray N)
    (b : BaseArray) (_hgt : N < b.getNumElems)
    (hinj : ∀ i : Nat, i < N → ∀ j : Nat, j < N → a.getDataRefs i = a.getDataRefs j → i = j)
    (hdisj : ∀ i : Nat, i < N → ∀ j : Nat, j < N → b.storageAddr i ≠ a.getDataRefs j) :
    (a.assign m b).1 = .ok () ∧
    (∀ k : Nat, k < N → (a.assign m b).2.2 (a.getDataRefs k) = m (b.storageAddr k)) :=
  ⟨(RefArray_assign_spec a m b hinj hdisj).1, (RefArray_assign_spec a m b hinj hdisj).2.2.1⟩

/-- Witness of the amended C17: the reference vector of 3 elements is assigned the static
vector of 4 elements. -/
theorem ref_assign_array_no_count_check_witness :
    (sampleRefDim1.toRefArray.assign sampleMemSeq
      (BaseArray.statDim1 4 true sampleStatSrc4)).1 = .ok () ∧
    (∀ k : Nat, k < 3 →
      (sampleRefDim1.toRefArray.assign sampleMemSeq
        (BaseArray.statDim1 4 true sampleStatSrc4)).2.2 (sampleRefDim1.getDataRefs k)
        = sampleMemSeq ((BaseArray.statDim1 4 true sampleStatSrc4).storageAddr k)) :=
  ref_assign_array_no_count_check Int sampleMemSeq 3 sampleRefDim1.toRefArray
    (BaseArray.statDim1 4 true sampleStatSrc4) (by decide) (by decide) (by decide)

/-! ## Copies out of an array: getDataCopy -/

/-- The loop `for k < n: dst[k] = *src[k]` into a block that contains none of the `n`
sources: cell `dst + k` receives the former value of source `k`, and every cell outside
the block keeps its value. -/
theorem copy_block_spec {T : Type} (src : Nat → Nat) (m : Mem T) (dst n : Nat)
    (hdisj : ∀ k : Nat, k < n → src k < dst ∨ dst + n ≤ src k) :
    (∀ k : Nat, k < n →
      ((List.range n).foldl (fun acc k => Mem.write acc (dst + k) (acc (src k))) m) (dst + k)
        = m (src k)) ∧
    (∀ q : Nat, q < dst ∨ dst + n ≤ q →
      ((List.range n).foldl (fun acc k => Mem.write acc (dst + k) (acc (src k))) m) q = m q) := by
  refine ⟨?_, ?_⟩
  · exact (foldl_write_spec (fun k => dst + k) src m n
      (fun i j _ _ hij => by simp only [] at hij; omega)
      (fun i j hji hi => by
        have := hdisj i hi
        simp only []
        omega)).1
  · intro q hq
    exact foldl_write_other (fun k => dst + k) src m n q (fun k hk => by simp only []; omega)

theorem StatArray_getDataCopy_eq {T : Type} {nelems : Nat} {external : Bool}
    (c : StatArray nelems external) (m : Mem T) (dst n : Nat) :
    c.getDataCopy m dst n = (.ok (), (List.range n).foldl
      (fun acc k => Mem.write acc (dst + k) (acc (c.getData + k))) m) := by
  unfold StatArray.getDataCopy
  by_cases hn : n > 0
  · rw [if_pos hn]
    rfl
  · rw [if_neg hn]
    have h0 : n = 0 := by omega
    subst h0
    rfl

theorem DynArray_getDataCopy_eq {T : Type} {ndims : Nat} (c : DynArray ndims) (m : Mem T)
    (dst n : Nat) :
    c.getDataCopy m dst n = (.ok (), (List.range n).foldl
      (fun acc k => Mem.write acc (dst + k) (acc (c.getData + k))) m) := by
  unfold DynArray.getDataCopy
  by_cases hn : n > 0
  · rw [if_pos hn]
    rfl
  · rw [if_neg hn]
    have h0 : n = 0 := by omega
    subst h0
    rfl

theorem RefArray_getDataCopy_eq {T : Type} {nelems : Nat} (c : RefArray nelems) (m : Mem T)
    (dst n : Nat) (hn : n ≤ nelems) :
    c.getDataCopy m dst n = (.ok (), (List.range n).foldl
      (fun acc k => Mem.write acc (dst + k) (acc (c.getDataRefs k))) m) := by
  unfold RefArray.getDataCopy
  rw [if_pos hn]
  rfl

/-- The virtual `getDataCopy(data, n)` with `n <= getNumElems()` returns normally and runs
the loop `for k < n: data[k] = (element k of the storage)`. -/
theorem BaseArray_getDataCopy_eq {T : Type} (b : BaseArray) (m : Mem T) (dst n : Nat)
    (hn : n ≤ b.getNumElems) :
    b.getDataCopy m dst n = (.ok (), (List.range n).foldl
      (fun acc k => Mem.write acc (dst + k) (acc (b.storageAddr k))) m) := by
  cases b with
  | refDim1 size a => exact RefArray_getDataCopy_eq a.toRefArray m dst n hn
  | refDim2 size1 size2 a => exact RefArray_getDataCopy_eq a.toRefArray m dst n hn
  | refDim3 size1 size2 size3 a => exact RefArray_getDataCopy_eq a.toRefArray m dst n hn
  | statDim1 size external a => exact StatArray_getDataCopy_eq a.toStatArray m dst n
  | statDim2 size1 size2 external a => exact StatArray_getDataCopy_eq a.toStatArray m dst n
  | statDim3 size1 size2 size3 external a =>
    exact StatArray_getDataCopy_eq a.toStatArray m dst n
  | dynDim1 a => exact DynArray_getDataCopy_eq a.toDynArray m dst n
  | dynDim2 a => exact DynArray_getDataCopy_eq a.toDynArray m dst n
  | dynDim3 a => exact DynArray_getDataCopy_eq a.toDynArray m dst n

theorem BaseArray_getDataCopy_spec {T : Type} (b : BaseArray) (m : Mem T) (dst n : Nat)
    (hn : n ≤ b.getNumElems)
    (hdisj : ∀ k : Nat, k < n → b.storageAddr k < dst ∨ dst + n ≤ b.storageAddr k) :
    (b.getDataCopy m dst n).1 = .ok () ∧
    (∀ k : Nat, k < n → (b.getDataCopy m dst n).2 (dst + k) = m (b.storageAddr k)) ∧
    (∀ q : Nat, q < dst ∨ dst + n ≤ q → (b.getDataCopy m dst n).2 q = m q) := by
  rw [BaseArray_getDataCopy_eq b m dst n hn]
  exact ⟨rfl, (copy_block_spec b.storageAddr m dst n hdisj).1,
    (copy_block_spec b.storageAddr m dst n hdisj).2⟩

theorem BaseArray_szProd_getDims {T : Type} [Inhabited T] (b : BaseArray)
    (hb : BaseArray.Reachable T b) (hsz : b.getNumElems < SIZE_MOD) :
    szProd b.getDims = b.getNumElems := by
  rw [szProd_eq]
  cases b with
  | refDim1 size a =>
    have d : (BaseArray.refDim1 size a).getDims.prod = size := by
      simp [BaseArray.getDims, RefArrayDim1.getDims]
    rw [d]
    exact Nat.mod_eq_of_lt hsz
  | refDim2 size1 size2 a =>
    have d : (BaseArray.refDim2 size1 size2 a).getDims.prod = size1 * size2 := by
      simp [BaseArray.getDims, RefArrayDim2.getDims]
    rw [d]
    rfl
  | refDim3 size1 size2 size3 a =>
    have d : (BaseArray.refDim3 size1 size2 size3 a).getDims.prod = size1 * size2 * size3 := by
      simp [BaseArray.getDims, RefArrayDim3.getDims, Nat.mul_assoc]
    rw [d]
    exact (szMul_szMul size1 size2 size3).symm
  | statDim1 size external a =>
    have d : (BaseArray.statDim1 size external a).getDims.prod = size := by
      simp [BaseArray.getDims, StatArrayDim1.getDims]
    rw [d]
    exact Nat.mod_eq_of_lt hsz
  | statDim2 size1 size2 external a =>
    have d : (BaseArray.statDim2 size1 size2 external a).getDims.prod = size1 * size2 := by
      simp [BaseArray.getDims, StatArrayDim2.getDims]
    rw [d]
    rfl
  | statDim3 size1 size2 size3 external a =>
    have d : (BaseArray.statDim3 size1 size2 size3 external a).getDims.prod
        = size1 * size2 * size3 := by
      simp [BaseArray.getDims, StatArrayDim3.getDims, Nat.mul_assoc]
    rw [d]
    exact (szMul_szMul size1 size2 size3).symm
  | dynDim1 a => exact (DynArray_Reachable_getNumElems hb).symm
  | dynDim2 a => exact (DynArray_Reachable_getNumElems hb).symm
  | dynDim3 a => exact (DynArray_Reachable_getNumElems hb).symm

theorem MultiArray_resize_other {T : Type} [Inhabited T] {ndims : Nat} (a : MultiArray ndims)
    (m : Mem T) (extents : List Nat) (fresh : Nat) {q : Nat}
    (hq : q < fresh ∨ fresh + szProd (MultiArray.extentsOf ndims extents) ≤ q) :
    (a.resize m extents fresh).2 q = m q := by
  unfold MultiArray.resize
  simp only []
  rw [if_neg (by omega)]

/-! ## Assignment to a dynamic array -/

theorem DynArray_assign_spec {T : Type} [Inhabited T] {ndims : Nat} (a : DynArray ndims)
    (m : Mem T) (b : BaseArray) (fresh : Nat) (hrank : b.getDims.length = ndims)
    (hb : BaseArray.Reachable T b) (hsz : b.getNumElems < SIZE_MOD)
    (hfresh : ∀ k : Nat, k < b.getNumElems →
      b.storageAddr k < fresh ∨ fresh + b.getNumElems ≤ b.storageAddr k) :
    (a.assign m b fresh).1 = .ok () ∧
    (a.assign m b fresh).2.1.getDims = b.getDims ∧
    (a.assign m b fresh).2.1.getNumElems = b.getNumElems ∧
    (a.assign m b fresh).2.1.getData = fresh ∧
    (∀ k : Nat, k < b.getNumElems →
      (a.assign m b fresh).2.2 (fresh + k) = m (b.storageAddr k)) ∧
    (∀ q : Nat, q < fresh ∨ fresh + b.getNumElems ≤ q → (a.assign m b fresh).2.2 q = m q) := by
  have hE : MultiArray.extentsOf ndims b.getDims = b.getDims :=
    MultiArray_extentsOf_eq _ _ hrank
  have hP : szProd (MultiArray.extentsOf ndims b.getDims) = b.getNumElems := by
    rw [hE]
    exact BaseArray_szProd_getDims b hb hsz
  have hnum : (a._multi_array.resize m b.getDims fresh).1.num_elements_ = b.getNumElems := hP
  have hbase : (a._multi_array.resize m b.getDims fresh).1.base_ = fresh := rfl
  have hm1 : ∀ q : Nat, q < fresh ∨ fresh + b.getNumElems ≤ q →
      (a._multi_array.resize m b.getDims fresh).2 q = m q := by
    intro q hq
    exact MultiArray_resize_other a._multi_array m b.getDims fresh (by rw [hP]; exact hq)
  have hc := BaseArray_getDataCopy_spec b (a._multi_array.resize m b.getDims fresh).2 fresh
    b.getNumElems (le_refl _) hfresh
  unfold DynArray.assign
  rw [hnum, hbase]
  refine ⟨hc.1, hE, hP, rfl, ?_, ?_⟩
  · intro k hk
    show (b.getDataCopy (a._multi_array.resize m b.getDims fresh).2 fresh b.getNumElems).2
      (fresh + k) = m (b.storageAddr k)
    rw [hc.2.1 k hk]
    exact hm1 _ (hfresh k hk)
  · intro q hq
    show (b.getDataCopy (a._multi_array.resize m b.getDims fresh).2 fresh b.getNumElems).2 q
      = m q
    rw [hc.2.2 q hq]
    exact hm1 q hq

/-- C18: `a.assign(b)` on a dynamic array `a` of rank `ndims`, whatever its shape, from a
reachable source `b` of the same rank whose storage lies outside the buffer that the
reshape allocates: the call returns normally, `a.getDims()` becomes `b.getDims()`,
`a.getNumElems()` becomes `b.getNumElems()`, and cell `k` of the buffer of `a` holds the
value of element `k` of the storage of `b`, which is the value that `b.getDataCopy`
delivers at position `k` of any buffer apart from the storage of `b`, for every
`k < b.getNumElems()`. -/
theorem dyn_assign_array_reshapes_and_copies (T : Type) [Inhabited T] (ndims : Nat)
    (a : DynArray ndims) (m : Mem T) (b : BaseArray) (fresh : Nat)
    (hrank : b.getDims.length = ndims) (hb : BaseArray.Reachable T b)
    (hsz : b.getNumElems < SIZE_MOD)
    (hfresh : ∀ k : Nat, k < b.getNumElems →
      b.storageAddr k < fresh ∨ fresh + b.getNumElems ≤ b.storageAddr k) :
    (a.assign m b fresh).1 = .ok () ∧
    (a.assign m b fresh).2.1.getDims = b.getDims ∧
    (a.assign m b fresh).2.1.getNumElems = b.getNumElems ∧
    (∀ k : Nat, k < b.getNumElems →
      (a.assign m b fresh).2.2 ((a.assign m b fresh).2.1.getData + k)
        = m (b.storageAddr k)) ∧
    (∀ dst : Nat,
      (∀ k : Nat, k < b.getNumElems →
        b.storageAddr k < dst ∨ dst + b.getNumElems ≤ b.storageAddr k) →
      (b.getDataCopy m dst b.getNumElems).1 = .ok () ∧
      ∀ k : Nat, k < b.getNumElems →
        (a.assign m b fresh).2.2 ((a.assign m b fresh).2.1.getData + k)
          = (b.getDataCopy m dst b.getNumElems).2 (dst + k)) := by
  have h := DynArray_assign_spec a m b fresh hrank hb hsz hfresh
  refine ⟨h.1, h.2.1, h.2.2.1, ?_, ?_⟩
  · intro k hk
    rw [h.2.2.2.1]
    exact h.2.2.2.2.1 k hk
  · intro dst hdst
    have hc := BaseArray_getDataCopy_spec b m dst b.getNumElems (le_refl _) hdst
    refine ⟨hc.1, fun k hk => ?_⟩
    rw [h.2.2.2.1, h.2.2.2.2.1 k hk, hc.2.1 k hk]

/-- Witness of C18: the dynamic vector of shape 4 is assigned the static vector over the
buffer 1, 2, 3 at the addresses 500 to 502, with the new buffer at address 2000. -/
theorem dyn_assign_array_reshapes_and_copies_witness :
    (sampleDynDim1.toDynArray.assign sampleMemSeq (BaseArray.statDim1 3 true sampleStatSrc3)
      2000).1 = .ok () ∧
    (sampleDynDim1.toDynArray.assign sampleMemSeq (BaseArray.statDim1 3 true sampleStatSrc3)
      2000).2.1.getDims = (BaseArray.statDim1 3 true sampleStatSrc3).getDims ∧
    (sampleDynDim1.toDynArray.assign sampleMemSeq (BaseArray.statDim1 3 true sampleStatSrc3)
      2000).2.1.getNumElems = (BaseArray.statDim1 3 true sampleStatSrc3).getNumElems ∧
    (∀ k : Nat, k < (BaseArray.statDim1 3 true sampleStatSrc3).getNumElems →
      (sampleDynDim1.toDynArray.assign sampleMemSeq (BaseArray.statDim1 3 true sampleStatSrc3)
        2000).2.2
        ((sampleDynDim1.toDynArray.assign sampleMemSeq
          (BaseArray.statDim1 3 true sampleStatSrc3) 2000).2.1.getData + k)
        = sampleMemSeq ((BaseArray.statDim1 3 true sampleStatSrc3).storageAddr k)) :=
  ⟨(dyn_assign_array_reshapes_and_copies Int 1 sampleDynDim1.toDynArray sampleMemSeq
      (BaseArray.statDim1 3 true sampleStatSrc3) 2000 rfl trivial (by decide) (by decide)).1,
    (dyn_assign_array_reshapes_and_copies Int 1 sampleDynDim1.toDynArray sampleMemSeq
      (BaseArray.statDim1 3 true sampleStatSrc3) 2000 rfl trivial (by decide) (by decide)).2.1,
    (dyn_assign_array_reshapes_and_copies Int 1 sampleDynDim1.toDynArray sampleMemSeq
      (BaseArray.statDim1 3 true sampleStatSrc3) 2000 rfl trivial (by decide)
      (by decide)).2.2.1,
    (dyn_assign_array_reshapes_and_copies Int 1 sampleDynDim1.toDynArray sampleMemSeq
      (BaseArray.statDim1 3 true sampleStatSrc3) 2000 rfl trivial (by decide)
      (by decide)).2.2.2.1⟩

/-! ## Assignment copies values into the buffer of the destination -/

theorem StatArray_getDataCopy_spec {T : Type} {nelems : Nat} {external : Bool}
    (c : StatArray nelems external) (m : Mem T) (dst n : Nat)
    (hdisj : ∀ k : Nat, k < n → c.getData + k < dst ∨ dst + n ≤ c.getData + k) :
    (c.getDataCopy m dst n).1 = .ok () ∧
    (∀ k : Nat, k < n → (c.getDataCopy m dst n).2 (dst + k) = m (c.getData + k)) ∧
    (∀ q : Nat, q < dst ∨ dst + n ≤ q → (c.getDataCopy m dst n).2 q = m q) := by
  rw [StatArray_getDataCopy_eq c m dst n]
  exact ⟨rfl, (copy_block_spec (fun k => c.getData + k) m dst n hdisj).1,
    (copy_block_spec (fun k => c.getData + k) m dst n hdisj).2⟩

/-- A cell of a block is not changed by a write to an address outside the block. -/
theorem block_frame {T : Type} (m1 : Mem T) (dst n : Nat) (src : Nat → Nat)
    (hdisj : ∀ k : Nat, k < n → src k < dst ∨ dst + n ≤ src k) :
    ∀ j : Nat, j < n → ∀ (v : T) (k : Nat), k < n →
      (Mem.write m1 (src j) v) (dst + k) = m1 (dst + k) := by
  intro j hj v k hk
  have := hdisj j hj
  exact Mem_write_other m1 (src j) v (by omega)

theorem StatArray_assign_spec {T : Type} {N : Nat} {external : Bool} (a : StatArray N external)
    (m : Mem T) (b : BaseArray) (hnull : a.getData ≠ NULL) (hN : b.getNumElems = N)
    (hdisj : ∀ k : Nat, k < N →
      b.storageAddr k < a.getData ∨ a.getData + N ≤ b.storageAddr k) :
    (a.assign m b).1 = .ok () ∧ (a.assign m b).2.1 = a ∧
    (∀ k : Nat, k < N → (a.assign m b).2.2 (a.getData + k) = m (b.storageAddr k)) := by
  unfold StatArray.assign
  by_cases hpos : N > 0
  · have hc := BaseArray_getDataCopy_spec b m a._data N (by omega) hdisj
    have hnull' : ¬ a._data = NULL := hnull
    rw [if_pos hpos, if_neg hnull', if_pos hN]
    exact ⟨hc.1, rfl, hc.2.1⟩
  · rw [if_neg hpos]
    exact ⟨rfl, rfl, fun k hk => absurd hk (by omega)⟩

theorem StatArray_opAssignBase_eq {T : Type} {N : Nat} {external : Bool}
    (a : StatArray N external) (m : Mem T) (b : BaseArray) :
    a.opAssignBase m b = a.assign m b :=
  rfl

theorem StatArray_opAssignOwn_spec {T : Type} {N : Nat} {external : Bool}
    (a : StatArray N external) (m : Mem T) (c : StatArray N false) (hnull : a.getData ≠ NULL)
    (hdisj : ∀ k : Nat, k < N → c.getData + k < a.getData ∨ a.getData + N ≤ c.getData + k) :
    (a.opAssignOwn m c).1 = .ok () ∧ (a.opAssignOwn m c).2.1 = a ∧
    (∀ k : Nat, k < N → (a.opAssignOwn m c).2.2 (a.getData + k) = m (c.getData + k)) := by
  unfold StatArray.opAssignOwn
  by_cases hpos : N > 0
  · have hc := StatArray_getDataCopy_spec c m a._data N hdisj
    have hnull' : ¬ a._data = NULL := hnull
    rw [if_pos hpos, if_neg hnull']
    exact ⟨hc.1, rfl, hc.2.1⟩
  · rw [if_neg hpos]
    exact ⟨rfl, rfl, fun k hk => absurd hk (by omega)⟩

/-- C19, on the paths that the source has an instance for: a static array with owned
storage (initialized, capacity `N`) and a dynamic array hold after an assignment the
values of the source in their own buffer.  For the owned static array: after `assign(b)`
and after `operator=` from a generic array `b` with `b.getNumElems() = N` and from an
owned static array, each with a storage outside the buffer of the destination, the call
has returned normally, the array object still points at its own buffer, cell `k` of that
buffer holds the value of element `k` of the source, and a later write to any element of
the storage of the source leaves every cell of that buffer as it is.  For the dynamic
array: the same after `assign(b)`, with the buffer that the reshape allocates.  The
`operator=` from a static array with external storage has no instance for an owned
destination (see `StatArray.opAssignExt`) and is not part of the statement. -/
theorem assign_copies_into_own_buffer (T : Type) [Inhabited T] (m : Mem T) :
    (∀ (N : Nat) (a : StatArray N false) (b : BaseArray), a.getData ≠ NULL →
        b.getNumElems = N →
        (∀ k : Nat, k < N → b.storageAddr k < a.getData ∨ a.getData + N ≤ b.storageAddr k) →
        ((a.assign m b).1 = .ok () ∧ (a.assign m b).2.1 = a ∧
          (∀ k : Nat, k < N → (a.assign m b).2.2 (a.getData + k) = m (b.storageAddr k)) ∧
          (∀ j : Nat, j < N → ∀ (v : T) (k : Nat), k < N →
            (Mem.write (a.assign m b).2.2 (b.storageAddr j) v) (a.getData + k)
              = (a.assign m b).2.2 (a.getData + k))) ∧
        ((a.opAssignBase m b).1 = .ok () ∧ (a.opAssignBase m b).2.1 = a ∧
          (∀ k : Nat, k < N →
            (a.opAssignBase m b).2.2 (a.getData + k) = m (b.storageAddr k)) ∧
          (∀ j : Nat, j < N → ∀ (v : T) (k : Nat), k < N →
            (Mem.write (a.opAssignBase m b).2.2 (b.storageAddr j) v) (a.getData + k)
              = (a.opAssignBase m b).2.2 (a.getData + k)))) ∧
    (∀ (N : Nat) (a : StatArray N false) (c : StatArray N false), a.getData ≠ NULL →
        (∀ k : Nat, k < N → c.getData + k < a.getData ∨ a.getData + N ≤ c.getData + k) →
        (a.opAssignOwn m c).1 = .ok () ∧ (a.opAssignOwn m c).2.1 = a ∧
        (∀ k : Nat, k < N → (a.opAssignOwn m c).2.2 (a.getData + k) = m (c.getData + k)) ∧
        (∀ j : Nat, j < N → ∀ (v : T) (k : Nat), k < N →
          (Mem.write (a.opAssignOwn m c).2.2 (c.getData + j) v) (a.getData + k)
            = (a.opAssignOwn m c).2.2 (a.getData + k))) ∧
    (∀ (ndims : Nat) (a : DynArray ndims) (b : BaseArray) (fresh : Nat),
        b.getDims.length = ndims → BaseArray.Reachable T b → b.getNumElems < SIZE_MOD →
        (∀ k : Nat, k < b.getNumElems →
          b.storageAddr k < fresh ∨ fresh + b.getNumElems ≤ b.storageAddr k) →
        (a.assign m b fresh).1 = .ok () ∧
        (a.assign m b fresh).2.1.getNumElems = b.getNumElems ∧
        (∀ k : Nat, k < b.getNumElems →
          (a.assign m b fresh).2.2 ((a.assign m b fresh).2.1.getData + k)
            = m (b.storageAddr k)) ∧
        (∀ j : Nat, j < b.getNumElems → ∀ (v : T) (k : Nat), k < b.getNumElems →
          (Mem.write (a.assign m b fresh).2.2 (b.storageAddr j) v)
              ((a.assign m b fresh).2.1.getData + k)
            = (a.assign m b fresh).2.2 ((a.assign m b fresh).2.1.getData + k))) := by
  refine ⟨?_, ?_, ?_⟩
  · intro N a b hnull hN hdisj
    have h := StatArray_assign_spec a m b hnull hN hdisj
    have hf := fun m1 : Mem T => block_frame m1 a.getData N b.storageAddr hdisj
    rw [StatArray_opAssignBase_eq]
    exact ⟨⟨h.1, h.2.1, h.2.2, hf _⟩, ⟨h.1, h.2.1, h.2.2, hf _⟩⟩
  · intro N a c hnull hdisj
    have h := StatArray_opAssignOwn_spec a m c hnull hdisj
    exact ⟨h.1, h.2.1, h.2.2, block_frame _ a.getData N (fun k => c.getData + k) hdisj⟩
  · intro ndims a b fresh hrank hb hsz hfresh
    have h := DynArray_assign_spec a m b fresh hrank hb hsz hfresh
    rw [h.2.2.2.1]
    exact ⟨h.1, h.2.2.1, h.2.2.2.2.1, block_frame _ fresh b.getNumElems b.storageAddr hfresh⟩

/-- Witness of C19: the owned static vector of 4 elements at address 300 and the dynamic
vector are assigned the static vector over the buffer 1, 2, 3, 4 at address 500; writing
to the buffer afterwards does not change the copy. -/
theorem assign_copies_into_own_buffer_witness :
    ((sampleStatOwn4.toStatArray.assign sampleMemSeq
        (BaseArray.statDim1 4 true sampleStatSrc4)).1 = .ok () ∧
      (∀ k : Nat, k < 4 →
        (sampleStatOwn4.toStatArray.assign sampleMemSeq
          (BaseArray.statDim1 4 true sampleStatSrc4)).2.2 (sampleStatOwn4.getData + k)
          = sampleMemSeq ((BaseArray.statDim1 4 true sampleStatSrc4).storageAddr k)) ∧
      ∀ j : Nat, j < 4 → ∀ (v : Int) (k : Nat), k < 4 →
        (Mem.write
          (sampleStatOwn4.toStatArray.assign sampleMemSeq
            (BaseArray.statDim1 4 true sampleStatSrc4)).2.2
          ((BaseArray.statDim1 4 true sampleStatSrc4).storageAddr j) v)
            (sampleStatOwn4.getData + k)
          = (sampleStatOwn4.toStatArray.assign sampleMemSeq
              (BaseArray.statDim1 4 true sampleStatSrc4)).2.2 (sampleStatOwn4.getData + k)) ∧
    ((sampleStatOwn4.toStatArray.opAssignOwn sampleMemSeq sampleStatOwn4b.toStatArray).1
        = .ok ()) ∧
    ((sampleDynDim1.toDynArray.assign sampleMemSeq (BaseArray.statDim1 4 true sampleStatSrc4)
        2000).1 = .ok ()) :=
  ⟨⟨((assign_copies_into_own_buffer Int sampleMemSeq).1 4 sampleStatOwn4.toStatArray
        (BaseArray.statDim1 4 true sampleStatSrc4) (by decide) rfl (by decide)).1.1,
      ((assign_copies_into_own_buffer Int sampleMemSeq).1 4 sampleStatOwn4.toStatArray
        (BaseArray.statDim1 4 true sampleStatSrc4) (by decide) rfl (by decide)).1.2.2.1,
      ((assign_copies_into_own_buffer Int sampleMemSeq).1 4 sampleStatOwn4.toStatArray
        (BaseArray.statDim1 4 true sampleStatSrc4) (by decide) rfl (by decide)).1.2.2.2⟩,
    ((assign_copies_into_own_buffer Int sampleMemSeq).2.1 4 sampleStatOwn4.toStatArray
      sampleStatOwn4b.toStatArray (by decide) (by decide)).1,
    ((assign_copies_into_own_buffer Int sampleMemSeq).2.2 1 sampleDynDim1.toDynArray
      (BaseArray.statDim1 4 true sampleStatSrc4) 2000 rfl trivial (by decide) (by decide)).1⟩

/-- C20: the assignment `a = b` between two static arrays with external storage of the
same shape (rank 1, 2 or 3) copies only the address: it returns normally, afterwards
`a.getData()` is `b.getData()`, the memory is as it was (no element of any buffer is
modified), the index operators of `a` and of `b` return the same cell for every index
tuple, and so a value written through `a` is read through `b`. -/
theorem external_assign_copies_address (T : Type) (m : Mem T) :
    (∀ (size : Nat) (a b : StatArrayDim1 size true),
        (a.opAssignExt m b).1 = .ok () ∧ (a.opAssignExt m b).2.1.getData = b.getData ∧
        (a.opAssignExt m b).2.2 = m ∧
        ∀ (i : Nat) (v : T), (a.opAssignExt m b).2.1.opCall i = b.opCall i ∧
          (Mem.write m ((a.opAssignExt m b).2.1.opCall i) v) (b.opCall i) = v) ∧
    (∀ (size1 size2 : Nat) (a b : StatArrayDim2 size1 size2 true),
        (a.opAssignExt m b).1 = .ok () ∧ (a.opAssignExt m b).2.1.getData = b.getData ∧
        (a.opAssignExt m b).2.2 = m ∧
        ∀ (i j : Nat) (v : T), (a.opAssignExt m b).2.1.opCall i j = b.opCall i j ∧
          (Mem.write m ((a.opAssignExt m b).2.1.opCall i j) v) (b.opCall i j) = v) ∧
    (∀ (size1 size2 size3 : Nat) (a b : StatArrayDim3 size1 size2 size3 true),
        (a.opAssignExt m b).1 = .ok () ∧ (a.opAssignExt m b).2.1.getData = b.getData ∧
        (a.opAssignExt m b).2.2 = m ∧
        ∀ (i j k : Nat) (v : T), (a.opAssignExt m b).2.1.opCall i j k = b.opCall i j k ∧
          (Mem.write m ((a.opAssignExt m b).2.1.opCall i j k) v) (b.opCall i j k) = v) := by
  refine ⟨?_, ?_, ?_⟩
  · intro size a b
    refine ⟨rfl, rfl, rfl, fun i v => ⟨rfl, ?_⟩⟩
    exact Mem_write_same _ _ _
  · intro size1 size2 a b
    refine ⟨rfl, rfl, rfl, fun i j v => ⟨rfl, ?_⟩⟩
    exact Mem_write_same _ _ _
  · intro size1 size2 size3 a b
    refine ⟨rfl, rfl, rfl, fun i j k v => ⟨rfl, ?_⟩⟩
    exact Mem_write_same _ _ _

/-! ## Assignment to a default-constructed array with external storage -/

/-- Counterexample to C21: the default-constructed static vector of capacity 0 with
external storage has a null data pointer, and `assign(data)`, `assign(b)`, `operator=`
from an owned static array and `operator=` from a generic array all return normally. -/
theorem null_external_capacity_zero_returns :
    sampleStatNull0.getData = NULL ∧
    (sampleStatNull0.toStatArray.assignData sampleMemSeq 500).1 = .ok () ∧
    (sampleStatNull0.toStatArray.assign sampleMemSeq
      (BaseArray.statDim1 0 false sampleStatEmptySrc)).1 = .ok () ∧
    (sampleStatNull0.toStatArray.opAssignOwn sampleMemSeq sampleStatEmptySrc.toStatArray).1
      = .ok () ∧
    (sampleStatNull0.toStatArray.opAssignBase sampleMemSeq
      (BaseArray.statDim1 0 false sampleStatEmptySrc)).1 = .ok () := by
  decide

/-- C21, amended: on the default-constructed static array with external storage of a
capacity `N > 0` (its data pointer is null), each of `assign(data)`, `assign(b)`,
`operator=` from an owned static array and `operator=` from a generic array fails with a
`std::runtime_error`, whatever the source is, and leaves the array object (with its null
data pointer) and the memory as they were. -/
theorem null_external_assign_fails (T : Type) (m : Mem T) (N : Nat) (hN : 0 < N)
    (self data : Nat) (b : BaseArray) (c : StatArray N false) :
    (StatArray.empty self : StatArray N true).getData = NULL ∧
    (StatArray.empty self : StatArray N true).assignData m data
      = (.error Fault.runtime_error, ((StatArray.empty self : StatArray N true), m)) ∧
    (StatArray.empty self : StatArray N true).assign m b
      = (.error Fault.runtime_error, ((StatArray.empty self : StatArray N true), m)) ∧
    (StatArray.empty self : StatArray N true).opAssignOwn m c
      = (.error Fault.runtime_error, ((StatArray.empty self : StatArray N true), m)) ∧
    (StatArray.empty self : StatArray N true).opAssignBase m b
      = (.error Fault.runtime_error, ((StatArray.empty self : StatArray N true), m)) := by
  have hnull : (StatArray.empty self : StatArray N true)._data = NULL := rfl
  have hpos : N > 0 := hN
  refine ⟨rfl, ?_, ?_, ?_, ?_⟩
  · unfold StatArray.assignData
    rw [if_pos hpos, if_pos hnull]
  · unfold StatArray.assign
    rw [if_pos hpos, if_pos hnull]
  · unfold StatArray.opAssignOwn
    rw [if_pos hpos, if_pos hnull]
  · unfold StatArray.opAssignBase
    rw [if_pos hpos, if_pos hnull]

/-- Witness of the amended C21: the default-constructed external static vector of
capacity 4, assigned the buffer at address 500, the static vector over that buffer and
the owned static vector at address 400. -/
theorem null_external_assign_fails_witness :
    0 < 4 ∧
    sampleStatNull4.toStatArray.assignData sampleMemSeq 500
      = (.error Fault.runtime_error, (sampleStatNull4.toStatArray, sampleMemSeq)) ∧
    sampleStatNull4.toStatArray.assign sampleMemSeq (BaseArray.statDim1 4 true sampleStatSrc4)
      = (.error Fault.runtime_error, (sampleStatNull4.toStatArray, sampleMemSeq)) ∧
    sampleStatNull4.toStatArray.opAssignOwn sampleMemSeq sampleStatOwn4b.toStatArray
      = (.error Fault.runtime_error, (sampleStatNull4.toStatArray, sampleMemSeq)) :=
  ⟨by decide,
    (null_external_assign_fails Int sampleMemSeq 4 (by decide) 70 500
      (BaseArray.statDim1 4 true sampleStatSrc4) sampleStatOwn4b.toStatArray).2.1,
    (null_external_assign_fails Int sampleMemSeq 4 (by decide) 70 500
      (BaseArray.statDim1 4 true sampleStatSrc4) sampleStatOwn4b.toStatArray).2.2.1,
    (null_external_assign_fails Int sampleMemSeq 4 (by decide) 70 500
      (BaseArray.statDim1 4 true sampleStatSrc4) sampleStatOwn4b.toStatArray).2.2.2.1⟩

/-! ## Copy construction from an array with external storage -/

/-- C23, the construction that the source has an instance for: a static array with
external storage that is copy-constructed from another static array with external storage
(rank 1, 2 or 3) copies only the address: the memory is as it was (no element is copied),
its `getData()` is the `getData()` of the source, the index operators of both arrays
return the same cell for every index tuple, and so a value written through either array is
read through the other.  The same constructor has no instance for an owned array (see
`StatArray.ofExternal`), so the value copy of an owned array that is copy-constructed
from an external one is not part of the statement. -/
theorem copy_construct_from_external (T : Type) (m : Mem T) :
    (∀ (size self : Nat) (b : StatArrayDim1 size true),
        (StatArrayDim1.ofExternal self m b).2 = m ∧
        (StatArrayDim1.ofExternal self m b).1.getData = b.getData ∧
        ∀ (i : Nat) (v : T),
          (StatArrayDim1.ofExternal self m b).1.opCall i = b.opCall i ∧
          (Mem.write m ((StatArrayDim1.ofExternal self m b).1.opCall i) v) (b.opCall i)
            = v ∧
          (Mem.write m (b.opCall i) v) ((StatArrayDim1.ofExternal self m b).1.opCall i)
            = v) ∧
    (∀ (size1 size2 self : Nat) (b : StatArrayDim2 size1 size2 true),
        (StatArrayDim2.ofExternal self m b).2 = m ∧
        (StatArrayDim2.ofExternal self m b).1.getData = b.getData ∧
        ∀ (i j : Nat) (v : T),
          (StatArrayDim2.ofExternal self m b).1.opCall i j = b.opCall i j ∧
          (Mem.write m ((StatArrayDim2.ofExternal self m b).1.opCall i j) v)
            (b.opCall i j) = v ∧
          (Mem.write m (b.opCall i j) v)
            ((StatArrayDim2.ofExternal self m b).1.opCall i j) = v) ∧
    (∀ (size1 size2 size3 self : Nat) (b : StatArrayDim3 size1 size2 size3 true),
        (StatArrayDim3.ofExternal self m b).2 = m ∧
        (StatArrayDim3.ofExternal self m b).1.getData = b.getData ∧
        ∀ (i j k : Nat) (v : T),
          (StatArrayDim3.ofExternal self m b).1.opCall i j k = b.opCall i j k ∧
          (Mem.write m ((StatArrayDim3.ofExternal self m b).1.opCall i j k) v)
            (b.opCall i j k) = v ∧
          (Mem.write m (b.opCall i j k) v)
            ((StatArrayDim3.ofExternal self m b).1.opCall i j k) = v) := by
  refine ⟨?_, ?_, ?_⟩
  · intro size self b
    exact ⟨rfl, rfl, fun i v => ⟨rfl, Mem_write_same _ _ _, Mem_write_same _ _ _⟩⟩
  · intro size1 size2 self b
    exact ⟨rfl, rfl, fun i j v => ⟨rfl, Mem_write_same _ _ _, Mem_write_same _ _ _⟩⟩
  · intro size1 size2 size3 self b
    exact ⟨rfl, rfl, fun i j k v => ⟨rfl, Mem_write_same _ _ _, Mem_write_same _ _ _⟩⟩

/-! ## Access to the data of a reference array -/

/-- C24: the non-const `getData()` of a reference array of any element count, and so of
the reference arrays of rank 1, 2 and 3, which inherit it, fails with a
`std::runtime_error` whatever the state of the array and of the memory is, and leaves the
array object and the memory as they were. -/
theorem ref_get_data_mutable_throws (T : Type) (m : Mem T) :
    (∀ (N : Nat) (a : RefArray N), a.getData m = (.error Fault.runtime_error, (a, m))) ∧
    (∀ (size : Nat) (a : RefArrayDim1 size),
      a.toRefArray.getData m = (.error Fault.runtime_error, (a.toRefArray, m))) ∧
    (∀ (size1 size2 : Nat) (a : RefArrayDim2 size1 size2),
      a.toRefArray.getData m = (.error Fault.runtime_error, (a.toRefArray, m))) ∧
    (∀ (size1 size2 size3 : Nat) (a : RefArrayDim3 size1 size2 size3),
      a.toRefArray.getData m = (.error Fault.runtime_error, (a.toRefArray, m))) :=
  ⟨fun _ _ => rfl, fun _ _ => rfl, fun _ _ _ => rfl, fun _ _ _ _ => rfl⟩

/-! ## The snapshot buffer of a reference array -/

theorem RefArray_getDataConst_spec {T : Type} {N : Nat} (a : RefArray N) (m : Mem T)
    (hout : ∀ k : Nat, k < N →
      a.getDataRefs k < a._tmp_data ∨ a._tmp_data + N ≤ a.getDataRefs k) :
    (a.getDataConst m).1 = a._tmp_data ∧
    (∀ k : Nat, k < N → (a.getDataConst m).2 (a._tmp_data + k) = m (a.getDataRefs k)) ∧
    (∀ q : Nat, q < a._tmp_data ∨ a._tmp_data + N ≤ q → (a.getDataConst m).2 q = m q) :=
  ⟨rfl, (copy_block_spec a._ref_array m a._tmp_data N hout).1,
    (copy_block_spec a._ref_array m a._tmp_data N hout).2⟩

theorem RefArrayDim1_opCall_slot {size : Nat} (a : RefArrayDim1 size) {i p : Nat}
    (h : a.opCall i = .ok p) : ∃ s : Nat, s < size ∧ p = a.getDataRefs s := by
  unfold RefArrayDim1.opCall at h
  by_cases hc : size > szSub i 1
  · rw [if_pos hc] at h
    exact ⟨szSub i 1, hc, (Except.ok.inj h).symm⟩
  · rw [if_neg hc] at h
    cases h

theorem RefArrayDim2_opCall_slot {size1 size2 : Nat} (a : RefArrayDim2 size1 size2)
    {i j p : Nat} (h : a.opCall i j = .ok p) :
    ∃ s : Nat, s < szMul size1 size2 ∧ p = a.getDataRefs s := by
  unfold RefArrayDim2.opCall at h
  by_cases hc : szMul size1 size2 > szAdd (szMul (szSub i 1) size2) (szSub j 1)
  · rw [if_pos hc] at h
    exact ⟨_, hc, (Except.ok.inj h).symm⟩
  · rw [if_neg hc] at h
    cases h

theorem RefArrayDim3_opCall_slot {size1 size2 size3 : Nat} (a : RefArrayDim3 size1 size2 size3)
    {i j k p : Nat} (h : a.opCall i j k = .ok p) :
    ∃ s : Nat, s < szMul (szMul size1 size2) size3 ∧ p = a.getDataRefs s := by
  unfold RefArrayDim3.opCall at h
  by_cases hc : szMul (szMul size1 size2) size3 >
      szAdd (szMul size3 (szAdd (szSub i 1) (szMul size2 (szSub j 1)))) (szSub k 1)
  · rw [if_pos hc] at h
    exact ⟨_, hc, (Except.ok.inj h).symm⟩
  · rw [if_neg hc] at h
    cases h

/-- After `getData() const`, a write to a referenced scalar leaves the snapshot buffer
with the values that the scalars had at the call. -/
theorem RefArray_snapshot_write {T : Type} {N : Nat} (a : RefArray N) (m : Mem T)
    (hout : ∀ k : Nat, k < N →
      a.getDataRefs k < a._tmp_data ∨ a._tmp_data + N ≤ a.getDataRefs k)
    {p : Nat} (hp : ∃ s : Nat, s < N ∧ p = a.getDataRefs s) (v : T) {k : Nat} (hk : k < N) :
    (Mem.write (a.getDataConst m).2 p v) ((a.getDataConst m).1 + k) = m (a.getDataRefs k) := by
  obtain ⟨s, hs, rfl⟩ := hp
  have h := RefArray_getDataConst_spec a m hout
  have hs' := hout s hs
  rw [h.1, Mem_write_other _ _ _ (by omega)]
  exact h.2.1 k hk

/-- C25: `getData() const` on a reference array of `N` elements whose referenced scalars
lie outside its own `_tmp_data` buffer returns the address of that buffer, whose `k`-th
entry holds, for every `k < N`, the value that the scalar referenced by slot `k` of the
address table had at the call; every referenced scalar, and every other cell outside the
buffer, keeps its value. -/
theorem ref_get_data_const_snapshot (T : Type) (m : Mem T) (N : Nat) (a : RefArray N)
    (hout : ∀ k : Nat, k < N →
      a.getDataRefs k < a._tmp_data ∨ a._tmp_data + N ≤ a.getDataRefs k) :
    (∀ k : Nat, k < N →
      (a.getDataConst m).2 ((a.getDataConst m).1 + k) = m (a.getDataRefs k)) ∧
    (∀ k : Nat, k < N → (a.getDataConst m).2 (a.getDataRefs k) = m (a.getDataRefs k)) ∧
    (∀ q : Nat, q < (a.getDataConst m).1 ∨ (a.getDataConst m).1 + N ≤ q →
      (a.getDataConst m).2 q = m q) := by
  have h := RefArray_getDataConst_spec a m hout
  rw [h.1]
  exact ⟨h.2.1, fun k hk => h.2.2 _ (hout k hk), h.2.2⟩

/-- Witness of C25: the reference vector over the scalars at the addresses 100, 101, 102,
whose snapshot buffer is at address 50, in the memory that holds `10 * p` in cell `p`. -/
theorem ref_get_data_const_snapshot_witness :
    (∀ k : Nat, k < 3 →
      sampleRefDim1.getDataRefs k < sampleRefDim1._tmp_data ∨
        sampleRefDim1._tmp_data + 3 ≤ sampleRefDim1.getDataRefs k) ∧
    (∀ k : Nat, k < 3 →
      (sampleRefDim1.toRefArray.getDataConst sampleMemTen).2
          ((sampleRefDim1.toRefArray.getDataConst sampleMemTen).1 + k)
        = sampleMemTen (sampleRefDim1.getDataRefs k)) :=
  ⟨by decide,
    (ref_get_data_const_snapshot Int sampleMemTen 3 sampleRefDim1.toRefArray (by decide)).1⟩

/-- C26: on a reference array whose referenced scalars lie outside its own `_tmp_data`
buffer, the buffer filled by `getData() const` keeps the values of the time of that call
under every later mutation of the referenced scalars: after a direct write of any value
to a referenced scalar, after `assign(data)`, after `assign(b)`, and after a write through
the element that the index operator of a reference array of rank 1, 2 or 3 returns, entry
`k` of the buffer still holds the value that the scalar of slot `k` had at the call. -/
theorem ref_snapshot_keeps_values (T : Type) (m : Mem T) :
    (∀ (N : Nat) (a : RefArray N),
        (∀ k : Nat, k < N →
          a.getDataRefs k < a._tmp_data ∨ a._tmp_data + N ≤ a.getDataRefs k) →
        (∀ j : Nat, j < N → ∀ (v : T) (k : Nat), k < N →
          (Mem.write (a.getDataConst m).2 (a.getDataRefs j) v) ((a.getDataConst m).1 + k)
            = m (a.getDataRefs k)) ∧
        (∀ (data k : Nat), k < N →
          (a.assignData (a.getDataConst m).2 data).2 ((a.getDataConst m).1 + k)
            = m (a.getDataRefs k)) ∧
        (∀ (b : BaseArray) (k : Nat), k < N →
          (a.assign (a.getDataConst m).2 b).2.2 ((a.getDataConst m).1 + k)
            = m (a.getDataRefs k))) ∧
    (∀ (size : Nat) (a : RefArrayDim1 size),
        (∀ k : Nat, k < size →
          a.getDataRefs k < a._tmp_data ∨ a._tmp_data + size ≤ a.getDataRefs k) →
        ∀ (i p : Nat), a.opCall i = .ok p → ∀ (v : T) (k : Nat), k < size →
          (Mem.write (a.toRefArray.getDataConst m).2 p v)
              ((a.toRefArray.getDataConst m).1 + k)
            = m (a.getDataRefs k)) ∧
    (∀ (size1 size2 : Nat) (a : RefArrayDim2 size1 size2),
        (∀ k : Nat, k < szMul size1 size2 →
          a.getDataRefs k < a._tmp_data ∨
            a._tmp_data + szMul size1 size2 ≤ a.getDataRefs k) →
        ∀ (i j p : Nat), a.opCall i j = .ok p → ∀ (v : T) (k : Nat), k < szMul size1 size2 →
          (Mem.write (a.toRefArray.getDataConst m).2 p v)
              ((a.toRefArray.getDataConst m).1 + k)
            = m (a.getDataRefs k)) ∧
    (∀ (size1 size2 size3 : Nat) (a : RefArrayDim3 size1 size2 size3),
        (∀ k : Nat, k < szMul (szMul size1 size2) size3 →
          a.getDataRefs k < a._tmp_data ∨
            a._tmp_data + szMul (szMul size1 size2) size3 ≤ a.getDataRefs k) →
        ∀ (i j l p : Nat), a.opCall i j l = .ok p →
          ∀ (v : T) (k : Nat), k < szMul (szMul size1 size2) size3 →
          (Mem.write (a.toRefArray.getDataConst m).2 p v)
              ((a.toRefArray.getDataConst m).1 + k)
            = m (a.getDataRefs k)) := by
  refine ⟨?_, ?_, ?_, ?_⟩
  · intro N a hout
    have h := RefArray_getDataConst_spec a m hout
    refine ⟨?_, ?_, ?_⟩
    · intro j hj v k hk
      exact RefArray_snapshot_write a m hout ⟨j, hj, rfl⟩ v hk
    · intro data k hk
      rw [h.1]
      have hfr := foldl_write_other a._ref_array (fun k => data + k) (a.getDataConst m).2 N
        (a._tmp_data + k) (fun s hs => by
          have := hout s hs
          unfold RefArray.getDataRefs at this
          omega)
      exact hfr.trans (h.2.1 k hk)
    · intro b k hk
      rw [RefArray_assign_eq, h.1]
      have hfr := foldl_write_other a._ref_array b.storageAddr (a.getDataConst m).2 N
        (a._tmp_data + k) (fun s hs => by
          have := hout s hs
          unfold RefArray.getDataRefs at this
          omega)
      exact hfr.trans (h.2.1 k hk)
  · intro size a hout i p hp v k hk
    exact RefArray_snapshot_write a.toRefArray m hout (RefArrayDim1_opCall_slot a hp) v hk
  · intro size1 size2 a hout i j p hp v k hk
    exact RefArray_snapshot_write a.toRefArray m hout (RefArrayDim2_opCall_slot a hp) v hk
  · intro size1 size2 size3 a hout i j l p hp v k hk
    exact RefArray_snapshot_write a.toRefArray m hout (RefArrayDim3_opCall_slot a hp) v hk

/-- Witness of C26: the reference vector over the scalars at the addresses 100, 101, 102
with its snapshot buffer at address 50; after the snapshot, the scalars are overwritten
from the buffer at address 500 and through the element with index 2. -/
theorem ref_snapshot_keeps_values_witness :
    (∀ k : Nat, k < 3 →
      sampleRefDim1.getDataRefs k < sampleRefDim1._tmp_data ∨
        sampleRefDim1._tmp_data + 3 ≤ sampleRefDim1.getDataRefs k) ∧
    (∀ k : Nat, k < 3 →
      (sampleRefDim1.toRefArray.assignData
          (sampleRefDim1.toRefArray.getDataConst sampleMemTen).2 500).2
          ((sampleRefDim1.toRefArray.getDataConst sampleMemTen).1 + k)
        = sampleMemTen (sampleRefDim1.getDataRefs k)) ∧
    (sampleRefDim1.opCall 2 = .ok 101 ∧
      ∀ (v : Int) (k : Nat), k < 3 →
        (Mem.write (sampleRefDim1.toRefArray.getDataConst sampleMemTen).2 101 v)
            ((sampleRefDim1.toRefArray.getDataConst sampleMemTen).1 + k)
          = sampleMemTen (sampleRefDim1.getDataRefs k)) :=
  ⟨by decide,
    fun k hk => ((ref_snapshot_keeps_values Int sampleMemTen).1 3 sampleRefDim1.toRefArray
      (by decide)).2.1 500 k hk,
    by decide,
    (ref_snapshot_keeps_values Int sampleMemTen).2.1 3 sampleRefDim1 (by decide) 2 101
      (by decide)⟩

/-! ## Bounded copy into a caller buffer -/

/-- C27: for an array of any class and any `n <= getNumElems()`, `getDataCopy(buffer, n)`
into a buffer of `n` cells that lies outside the storage of the array returns normally,
sets `buffer[k]` for every `k < n` to element `k` of the array in storage order (for a
reference array the scalar referenced by slot `k`), leaves every cell outside
`[buffer, buffer + n)` as it is, so the buffer entries at the positions `>= n` and every
element of the array keep their value; the call is const and returns no new array
object. -/
theorem get_data_copy_bounded (T : Type) (m : Mem T) (b : BaseArray) (buffer n : Nat)
    (hn : n ≤ b.getNumElems)
    (hdisj : ∀ k : Nat, k < b.getNumElems →
      b.storageAddr k < buffer ∨ buffer + n ≤ b.storageAddr k) :
    (b.getDataCopy m buffer n).1 = .ok () ∧
    (∀ k : Nat, k < n → (b.getDataCopy m buffer n).2 (buffer + k) = m (b.storageAddr k)) ∧
    (∀ k : Nat, n ≤ k → (b.getDataCopy m buffer n).2 (buffer + k) = m (buffer + k)) ∧
    (∀ q : Nat, q < buffer ∨ buffer + n ≤ q → (b.getDataCopy m buffer n).2 q = m q) ∧
    (∀ k : Nat, k < b.getNumElems →
      (b.getDataCopy m buffer n).2 (b.storageAddr k) = m (b.storageAddr k)) := by
  have h := BaseArray_getDataCopy_spec b m buffer n hn
    (fun k hk => hdisj k (Nat.lt_of_lt_of_le hk hn))
  exact ⟨h.1, h.2.1, fun k hk => h.2.2 _ (by omega), h.2.2,
    fun k hk => h.2.2 _ (hdisj k hk)⟩

/-- Witness of C27: the first 2 of the 3 elements of the reference vector over the scalars
at the addresses 100, 101, 102 are copied into the buffer at address 500. -/
theorem get_data_copy_bounded_witness :
    2 ≤ (BaseArray.refDim1 3 sampleRefDim1).getNumElems ∧
    (∀ k : Nat, k < (BaseArray.refDim1 3 sampleRefDim1).getNumElems →
      (BaseArray.refDim1 3 sampleRefDim1).storageAddr k < 500 ∨
        500 + 2 ≤ (BaseArray.refDim1 3 sampleRefDim1).storageAddr k) ∧
    ((BaseArray.refDim1 3 sampleRefDim1).getDataCopy sampleMemTen 500 2).1 = .ok () ∧
    (∀ k : Nat, k < 2 →
      ((BaseArray.refDim1 3 sampleRefDim1).getDataCopy sampleMemTen 500 2).2 (500 + k)
        = sampleMemTen ((BaseArray.refDim1 3 sampleRefDim1).storageAddr k)) :=
  ⟨by decide, by decide,
    (get_data_copy_bounded Int sampleMemTen (BaseArray.refDim1 3 sampleRefDim1) 500 2
      (by decide) (by decide)).1,
    (get_data_copy_bounded Int sampleMemTen (BaseArray.refDim1 3 sampleRefDim1) 500 2
      (by decide) (by decide)).2.1⟩

/-! ## Shape queries -/

theorem toInt32_of_lt {n : Nat} (h : n < 2147483648) : toInt32 n = (n : Int) := by
  unfold toInt32
  have h1 : n % 4294967296 = n := Nat.mod_eq_of_lt (by omega)
  rw [h1, if_pos h]

theorem MultiArray_extentsOf_length (ndims : Nat) (l : List Nat) :
    (MultiArray.extentsOf ndims l).length = ndims := by
  unfold MultiArray.extentsOf
  simp

theorem DynArray_Reachable_length {T : Type} [Inhabited T] {ndims : Nat}
    {a : DynArray ndims} (h : DynArray.Reachable T a) : a.getDims.length = ndims := by
  induction h with
  | empty m fresh => exact MultiArray_extentsOf_length _ _
  | copy m b fresh => exact MultiArray_extentsOf_length _ _
  | ofBase m b fresh => exact MultiArray_extentsOf_length _ _
  | resize h m dims fresh ih =>
    unfold DynArray.resize
    split
    · exact MultiArray_extentsOf_length _ _
    · exact ih
  | setDims h m dims fresh ih => exact MultiArray_extentsOf_length _ _
  | assign h m b fresh ih => exact MultiArray_extentsOf_length _ _
  | assignData h m data ih => exact ih

theorem DynArray_getDim_eq {ndims : Nat} (a : DynArray ndims) {d : Nat} (hd1 : 1 ≤ d)
    (hd : d < SIZE_MOD) (hint : a.getDims.getD (d - 1) 0 < 2147483648) :
    a.getDim d = .ok ((a.getDims.getD (d - 1) 0 : Nat) : Int) := by
  unfold DynArray.getDim MultiArray.shape
  rw [szSub_one_of_pos hd1 hd]
  unfold DynArray.getDims at hint ⊢
  rw [toInt32_of_lt hint]

/-- Counterexample to C28: the static vector of 2147483648 elements over an external
buffer has `getDims() = [2147483648]`, while `getDim(1)`, which returns `(int)size`, is
`-2147483648`. -/
theorem getDim_leaves_int_range :
    (BaseArray.statDim1 2147483648 true sampleStatHuge).getNumDims = 1 ∧
    (BaseArray.statDim1 2147483648 true sampleStatHuge).getDims = [2147483648] ∧
    (BaseArray.statDim1 2147483648 true sampleStatHuge).getDim 1 = .ok (-2147483648) ∧
    (BaseArray.statDim1 2147483648 true sampleStatHuge).getDim 1
      ≠ .ok (((BaseArray.statDim1 2147483648 true sampleStatHuge).getDims.getD 0 0 : Nat) :
          Int) := by
  decide

/-- C28, amended: for an array of any class (rank `r` in 1, 2, 3; a dynamic array in a
reachable state) and every `d` with `1 <= d <= r` whose extent, entry `d - 1` of
`getDims()`, is below 2147483648 and so is a value of the type `int` that `getDim`
returns, `getDim(d)` returns that entry; `getNumDims()` is the length of `getDims()` and
lies between 1 and 3. -/
theorem getDim_eq_getDims_entry (T : Type) [Inhabited T] (b : BaseArray)
    (hb : BaseArray.Reachable T b) (d : Nat) (hd1 : 1 ≤ d) (hd : d ≤ b.getNumDims)
    (hint : b.getDims.getD (d - 1) 0 < 2147483648) :
    b.getDim d = .ok ((b.getDims.getD (d - 1) 0 : Nat) : Int) ∧
    b.getNumDims = b.getDims.length ∧ 1 ≤ b.getNumDims ∧ b.getNumDims ≤ 3 := by
  have h3 : (3 : Nat) < SIZE_MOD := by decide
  cases b with
  | refDim1 size a =>
    have hd' : d ≤ 1 := hd
    obtain rfl : d = 1 := by omega
    have hint' : size < 2147483648 := hint
    refine ⟨?_, rfl, (by show (1 : Nat) ≤ 1; omega), (by show (1 : Nat) ≤ 3; omega)⟩
    show Except.ok (toInt32 size) = Except.ok ((size : Nat) : Int)
    rw [toInt32_of_lt hint']
  | refDim2 size1 size2 a =>
    have hd' : d ≤ 2 := hd
    refine ⟨?_, rfl, (by show (1 : Nat) ≤ 2; omega), (by show (2 : Nat) ≤ 3; omega)⟩
    obtain rfl | rfl : d = 1 ∨ d = 2 := by omega
    · have hint' : size1 < 2147483648 := hint
      show Except.ok (toInt32 size1) = Except.ok ((size1 : Nat) : Int)
      rw [toInt32_of_lt hint']
    · have hint' : size2 < 2147483648 := hint
      show Except.ok (toInt32 size2) = Except.ok ((size2 : Nat) : Int)
      rw [toInt32_of_lt hint']
  | refDim3 size1 size2 size3 a =>
    have hd' : d ≤ 3 := hd
    refine ⟨?_, rfl, (by show (1 : Nat) ≤ 3; omega), (by show (3 : Nat) ≤ 3; omega)⟩
    obtain rfl | rfl | rfl : d = 1 ∨ d = 2 ∨ d = 3 := by omega
    · have hint' : size1 < 2147483648 := hint
      show Except.ok (toInt32 size1) = Except.ok ((size1 : Nat) : Int)
      rw [toInt32_of_lt hint']
    · have hint' : size2 < 2147483648 := hint
      show Except.ok (toInt32 size2) = Except.ok ((size2 : Nat) : Int)
      rw [toInt32_of_lt hint']
    · have hint' : size3 < 2147483648 := hint
      show Except.ok (toInt32 size3) = Except.ok ((size3 : Nat) : Int)
      rw [toInt32_of_lt hint']
  | statDim1 size external a =>
    have hd' : d ≤ 1 := hd
    obtain rfl : d = 1 := by omega
    have hint' : size < 2147483648 := hint
    refine ⟨?_, rfl, (by show (1 : Nat) ≤ 1; omega), (by show (1 : Nat) ≤ 3; omega)⟩
    show Except.ok (toInt32 size) = Except.ok ((size : Nat) : Int)
    rw [toInt32_of_lt hint']
  | statDim2 size1 size2 external a =>
    have hd' : d ≤ 2 := hd
    refine ⟨?_, rfl, (by show (1 : Nat) ≤ 2; omega), (by show (2 : Nat) ≤ 3; omega)⟩
    obtain rfl | rfl : d = 1 ∨ d = 2 := by omega
    · have hint' : size1 < 2147483648 := hint
      show Except.ok (toInt32 size1) = Except.ok ((size1 : Nat) : Int)
      rw [toInt32_of_lt hint']
    · have hint' : size2 < 2147483648 := hint
      show Except.ok (toInt32 size2) = Except.ok ((size2 : Nat) : Int)
      rw [toInt32_of_lt hint']
  | statDim3 size1 size2 size3 external a =>
    have hd' : d ≤ 3 := hd
    refine ⟨?_, rfl, (by show (1 : Nat) ≤ 3; omega), (by show (3 : Nat) ≤ 3; omega)⟩
    obtain rfl | rfl | rfl : d = 1 ∨ d = 2 ∨ d = 3 := by omega
    · have hint' : size1 < 2147483648 := hint
      show Except.ok (toInt32 size1) = Except.ok ((size1 : Nat) : Int)
      rw [toInt32_of_lt hint']
    · have hint' : size2 < 2147483648 := hint
      show Except.ok (toInt32 size2) = Except.ok ((size2 : Nat) : Int)
      rw [toInt32_of_lt hint']
    · have hint' : size3 < 2147483648 := hint
      show Except.ok (toInt32 size3) = Except.ok ((size3 : Nat) : Int)
      rw [toInt32_of_lt hint']
  | dynDim1 a =>
    have hd' : d ≤ 1 := hd
    have hlen := DynArray_Reachable_length (T := T) (a := a.toDynArray) hb
    exact ⟨DynArray_getDim_eq a.toDynArray hd1 (by omega) hint, hlen.symm, (by show (1 : Nat) ≤ 1; omega),
      (by show (1 : Nat) ≤ 3; omega)⟩
  | dynDim2 a =>
    have hd' : d ≤ 2 := hd
    have hlen := DynArray_Reachable_length (T := T) (a := a.toDynArray) hb
    exact ⟨DynArray_getDim_eq a.toDynArray hd1 (by omega) hint, hlen.symm, (by show (1 : Nat) ≤ 2; omega),
      (by show (2 : Nat) ≤ 3; omega)⟩
  | dynDim3 a =>
    have hd' : d ≤ 3 := hd
    have hlen := DynArray_Reachable_length (T := T) (a := a.toDynArray) hb
    exact ⟨DynArray_getDim_eq a.toDynArray hd1 (by omega) hint, hlen.symm, (by show (1 : Nat) ≤ 3; omega),
      (by show (3 : Nat) ≤ 3; omega)⟩

/-- Witness of the amended C28: the owned static 2x3x4 array and the dynamic 2x3 array,
asked for their second extent. -/
theorem getDim_eq_getDims_entry_witness :
    ((BaseArray.statDim3 2 3 4 false sampleStatDim3).getDim 2 = .ok 3 ∧
      (BaseArray.statDim3 2 3 4 false sampleStatDim3).getNumDims = 3) ∧
    ((BaseArray.dynDim2 sampleDynDim2).getDim 2 = .ok 3 ∧
      (BaseArray.dynDim2 sampleDynDim2).getNumDims
        = (BaseArray.dynDim2 sampleDynDim2).getDims.length) :=
  ⟨⟨(getDim_eq_getDims_entry Int (BaseArray.statDim3 2 3 4 false sampleStatDim3) trivial 2
        (by decide) (by decide) (by decide)).1,
      rfl⟩,
    ⟨(getDim_eq_getDims_entry Int (BaseArray.dynDim2 sampleDynDim2) sampleDynDim2_reachable 2
        (by decide) (by decide) (by decide)).1,
      (getDim_eq_getDims_entry Int (BaseArray.dynDim2 sampleDynDim2) sampleDynDim2_reachable 2
        (by decide) (by decide) (by decide)).2.1⟩⟩

/-! ## The bounds assertion of the reference array of rank 2 -/

/-- The `size_t` expression `(i-1)*d2 + (j-1)` has the value `rowMajor2 d2 i j` whenever
that value is a `size_t`. -/
theorem szRowSlot {d2 i j : Nat} (hi1 : 1 ≤ i) (hi : i < SIZE_MOD) (hj1 : 1 ≤ j)
    (hj : j < SIZE_MOD) (h : rowMajor2 d2 i j < SIZE_MOD) :
    szAdd (szMul (szSub i 1) d2) (szSub j 1) = rowMajor2 d2 i j := by
  unfold rowMajor2 at h ⊢
  rw [szSub_one_of_pos hi1 hi, szSub_one_of_pos hj1 hj, szMul_of_lt (by omega),
    szAdd_of_lt (by omega)]

theorem szMul_le (a b : Nat) : szMul a b ≤ a * b :=
  Nat.mod_le _ _

/-- The `size_t` expression `(0-1)*d2 + (j-1)` for `1 <= j <= d2 < 2^64`. -/
theorem szRowSlot_zero {d2 j : Nat} (hj1 : 1 ≤ j) (hj : j ≤ d2) (hd : d2 < SIZE_MOD) :
    szAdd (szMul (szSub 0 1) d2) (szSub j 1) = SIZE_MOD - d2 + (j - 1) := by
  have h0 : szSub 0 1 = 18446744073709551615 := by decide
  rw [szSub_one_of_pos hj1 (by omega), h0]
  unfold szAdd szMul SIZE_MOD at *
  omega

/-- Counterexample to C29: in the 2x3 reference array over the scalars at the addresses
100 to 105, the index pair (1, 4) has its column outside 1..3, yet the assertion holds
and the access returns the scalar at address 103, the element (2, 1). -/
theorem ref_array_dim2_column_overrun_passes :
    ¬ (4 ≤ 3) ∧
    sampleRefDim2.opCall 1 4 = .ok 103 ∧
    sampleRefDim2.opCallIdx [1, 4] = .ok 103 ∧
    sampleRefDim2.opCall 2 1 = .ok 103 := by
  decide

/-- C29, amended: in a reference array of rank 2 and shape `(size1, size2)` whose element
count is a `size_t`, for index values `i >= 1`, `j >= 1` whose slot number
`(i-1)*size2 + (j-1)` is a `size_t`, the indexed access fails on its bounds assertion
exactly when that slot number is at least `size1*size2`, and returns the scalar of that
slot otherwise.  So it fails for every such pair with `i > size1`, and it fails for
`i = 0` with `1 <= j <= size2` when `(size1+1)*size2 <= 2^64`; a pair with `i < size1`
and `j > size2` whose slot number is below `size1*size2` is not rejected. -/
theorem ref_array_dim2_assert_slot (size1 size2 : Nat) (a : RefArrayDim2 size1 size2) :
    (∀ (i j : Nat), 1 ≤ i → i < SIZE_MOD → 1 ≤ j → j < SIZE_MOD →
        rowMajor2 size2 i j < SIZE_MOD → size1 * size2 < SIZE_MOD →
        (a.opCall i j = .error Fault.assertion ↔ size1 * size2 ≤ rowMajor2 size2 i j) ∧
        (a.opCallIdx [i, j] = .error Fault.assertion ↔ size1 * size2 ≤ rowMajor2 size2 i j) ∧
        (rowMajor2 size2 i j < size1 * size2 →
          a.opCall i j = .ok (a.getDataRefs (rowMajor2 size2 i j)))) ∧
    (∀ (i j : Nat), size1 < i → i < SIZE_MOD → 1 ≤ j → j < SIZE_MOD →
        rowMajor2 size2 i j < SIZE_MOD →
        a.opCall i j = .error Fault.assertion ∧
        a.opCallIdx [i, j] = .error Fault.assertion) ∧
    (∀ (j : Nat), 1 ≤ j → j ≤ size2 → (size1 + 1) * size2 ≤ SIZE_MOD →
        a.opCall 0 j = .error Fault.assertion ∧
        a.opCallIdx [0, j] = .error Fault.assertion) := by
  refine ⟨?_, ?_, ?_⟩
  · intro i j hi1 hi hj1 hj hslot hrep
    have hN := szMul_of_lt hrep
    have hs := szRowSlot hi1 hi hj1 hj hslot
    have key : (a.opCall i j = .error Fault.assertion ↔ size1 * size2 ≤ rowMajor2 size2 i j) ∧
        (rowMajor2 size2 i j < size1 * size2 →
          a.opCall i j = .ok (a.getDataRefs (rowMajor2 size2 i j))) := by
      unfold RefArrayDim2.opCall RefArray.getDataRefs
      rw [hs]
      by_cases hc : szMul size1 size2 > rowMajor2 size2 i j
      · rw [if_pos hc]
        exact ⟨⟨fun h => (by cases h), fun h => (by omega)⟩, fun _ => rfl⟩
      · rw [if_neg hc]
        exact ⟨⟨fun _ => (by omega), fun _ => rfl⟩, fun h => (by omega)⟩
    rw [RefArrayDim2_opCallIdx_eq]
    exact ⟨key.1, key.1, key.2⟩
  · intro i j hi hilt hj1 hj hslot
    have hle : size1 * size2 ≤ (i - 1) * size2 := Nat.mul_le_mul_right size2 (by omega)
    have hs := szRowSlot (by omega) hilt hj1 hj hslot
    have hN := szMul_le size1 size2
    have key : a.opCall i j = .error Fault.assertion := by
      unfold RefArrayDim2.opCall
      rw [hs]
      unfold rowMajor2
      rw [if_neg (by omega)]
    rw [RefArrayDim2_opCallIdx_eq]
    exact ⟨key, key⟩
  · intro j hj1 hj hrep
    have hN := szMul_le size1 size2
    have hexp : (size1 + 1) * size2 = size1 * size2 + size2 := Nat.succ_mul size1 size2
    have key : a.opCall 0 j = .error Fault.assertion := by
      unfold RefArrayDim2.opCall
      by_cases hd : size2 < SIZE_MOD
      · rw [szRowSlot_zero hj1 hj hd, if_neg (by omega)]
      · have h0 : size1 = 0 := by
          rcases Nat.eq_zero_or_pos size1 with h | h
          · exact h
          · have : size2 ≤ size1 * size2 := Nat.le_mul_of_pos_left size2 h
            omega
        subst h0
        have hz : szMul 0 size2 = 0 := by
          unfold szMul
          rw [Nat.zero_mul]
          rfl
        rw [if_neg (by omega)]
    rw [RefArrayDim2_opCallIdx_eq]
    exact ⟨key, key⟩

/-- Witness of the amended C29: the 2x3 reference array over the scalars at the addresses
100 to 105 rejects the index pairs (3, 1) and (0, 2), and (2, 4), whose slot number is 6. -/
theorem ref_array_dim2_assert_slot_witness :
    (sampleRefDim2.opCall 2 4 = .error Fault.assertion ↔ 2 * 3 ≤ rowMajor2 3 2 4) ∧
    sampleRefDim2.opCall 3 1 = .error Fault.assertion ∧
    sampleRefDim2.opCall 0 2 = .error Fault.assertion :=
  ⟨((ref_array_dim2_assert_slot 2 3 sampleRefDim2).1 2 4 (by decide) (by decide) (by decide)
      (by decide) (by decide) (by decide)).1,
    ((ref_array_dim2_assert_slot 2 3 sampleRefDim2).2.1 3 1 (by decide) (by decide)
      (by decide) (by decide) (by decide)).1,
    ((ref_array_dim2_assert_slot 2 3 sampleRefDim2).2.2 2 (by decide) (by decide)
      (by decide)).1⟩

/-! ## Appending a row to a dynamic array of rank 2 -/

theorem colMajor2_injective {d1 i j i' j' : Nat} (hi1 : 1 ≤ i) (hi : i ≤ d1) (hj1 : 1 ≤ j)
    (hi1' : 1 ≤ i') (hi' : i' ≤ d1) (hj1' : 1 ≤ j')
    (h : colMajor2 d1 i j = colMajor2 d1 i' j') : i = i' ∧ j = j' := by
  have h' : rowMajor2 d1 j i = rowMajor2 d1 j' i' := by
    unfold colMajor2 at h
    unfold rowMajor2
    rw [Nat.mul_comm (j - 1) d1, Nat.mul_comm (j' - 1) d1]
    omega
  have := rowMajor2_injective hj1 hi1 hi hj1' hi1' hi' h'
  exact ⟨this.2, this.1⟩

/-- The sub-array assignment `A[idx] = b` for a row `idx` below the first extent `d1` of
`A`, a vector `b` of the length of the second extent `d2`, and a buffer of `b` outside the
buffer of `A`: cell `idx + d1*j` of `A` receives the value of cell `j` of `b`, every other
cell keeps its value. -/
theorem MultiArray_assignRow_spec {T : Type} (A : MultiArray 2) (m : Mem T) (idx : Nat)
    (b : MultiArray 1) (d1 d2 : Nat) (hA0 : A.shape 0 = d1) (hA1 : A.shape 1 = d2)
    (hb : b.shape 0 = d2) (hidx : idx < d1)
    (hdisj : ∀ k : Nat, k < d2 → b.base_ + k < A.base_ ∨ A.base_ + d1 * d2 ≤ b.base_ + k) :
    (A.assignRow m idx b).1 = .ok () ∧
    (∀ j : Nat, j < d2 → (A.assignRow m idx b).2 (A.base_ + (idx + d1 * j)) = m (b.base_ + j)) ∧
    (∀ q : Nat, (∀ j : Nat, j < d2 → q ≠ A.base_ + (idx + d1 * j)) →
      (A.assignRow m idx b).2 q = m q) := by
  have hcell : ∀ j : Nat, j < d2 → idx + d1 * j < d1 * d2 := by
    intro j hj
    have : colMajor2 d1 (idx + 1) (j + 1) < d1 * d2 :=
      colMajor2_lt (by omega) (by omega) (by omega) (by omega)
    unfold colMajor2 at this
    simpa using this
  unfold MultiArray.assignRow
  rw [hA0, hA1, hb, if_pos hidx, if_pos rfl]
  have hspec := foldl_write_spec (fun j => A.base_ + (idx + d1 * j)) (fun j => b.base_ + j) m d2
    (fun i j _ _ hij => by
      simp only [] at hij
      have h1 : d1 * i = d1 * j := by omega
      exact Nat.eq_of_mul_eq_mul_left (by omega) h1)
    (fun i j hji hi => by
      have h1 := hdisj i hi
      have h2 := hcell j (by omega)
      simp only []
      omega)
  exact ⟨rfl, hspec.1, hspec.2⟩

/-- C30: for a dynamic array `A` of rank 2 and shape `(d1, d2)` whose element count is a
`size_t`, a row `i` with `1 <= i <= d1` and a dynamic vector `b` of length `d2` whose
buffer lies outside the buffer of `A`: `A.append(i, b)` returns normally, afterwards
`A(i, j)` holds the value of `b(j)` for every `j` in `1..d2`, every element `A(i', j)`
with `i' != i` holds the value it had, and the array object, so its shape, is as it was. -/
theorem dyn_append_row (T : Type) (m : Mem T) (A : DynArrayDim2) (b : DynArrayDim1)
    (d1 d2 i : Nat) (hA : A.getDims = [d1, d2]) (hb : b.getDims = [d2]) (hi1 : 1 ≤ i)
    (hi : i ≤ d1) (hrep : d1 * d2 < SIZE_MOD)
    (hdisj : ∀ k : Nat, k < d2 →
      b.getData + k < A.getData ∨ A.getData + d1 * d2 ≤ b.getData + k) :
    (A.append m i b).1 = .ok () ∧
    (A.append m i b).2.1 = A ∧
    (A.append m i b).2.1.getDims = [d1, d2] ∧
    (∀ j : Nat, 1 ≤ j → j ≤ d2 → (A.append m i b).2.2 (A.opCall i j) = m (b.opCall j)) ∧
    (∀ i' j : Nat, 1 ≤ i' → i' ≤ d1 → i' ≠ i → 1 ≤ j → j ≤ d2 →
      (A.append m i b).2.2 (A.opCall i' j) = m (A.opCall i' j)) := by
  have hA0 : A._multi_array.shape 0 = d1 := MultiArray_shape_zero _ hA
  have hA1 : A._multi_array.shape 1 = d2 := MultiArray_shape_one _ hA
  have hb0 : b._multi_array.shape 0 = d2 := MultiArray_shape_zero _ hb
  have hd1 : d1 ≤ d1 * d2 ∨ d2 = 0 := by
    rcases Nat.eq_zero_or_pos d2 with h | h
    · exact Or.inr h
    · exact Or.inl (Nat.le_mul_of_pos_right d1 h)
  have hd2 : d2 ≤ d1 * d2 := Nat.le_mul_of_pos_left d2 (by omega)
  have hilt : i < SIZE_MOD ∨ d2 = 0 := by omega
  have hidx : szSub i 1 < d1 ∨ d2 = 0 := by
    rcases hilt with h | h
    · left
      rw [szSub_one_of_pos hi1 h]
      omega
    · exact Or.inr h
  by_cases hz : d2 = 0
  · subst hz
    have hres : A.append m i b = ((A._multi_array.assignRow m (szSub i 1) b._multi_array).1,
        (A, (A._multi_array.assignRow m (szSub i 1) b._multi_array).2)) := rfl
    by_cases hc : szSub i 1 < A._multi_array.shape 0
    · have hr : A._multi_array.assignRow m (szSub i 1) b._multi_array = (.ok (), m) := by
        unfold MultiArray.assignRow
        rw [if_pos hc, hb0, hA1, if_pos rfl]
        rfl
      rw [hres, hr]
      exact ⟨rfl, rfl, hA, fun j h1 h2 => absurd h2 (by omega),
        fun i' j _ _ _ h1 h2 => absurd h2 (by omega)⟩
    · exfalso
      apply hc
      rw [hA0]
      have hlt : i < SIZE_MOD := by
        have : (1 : Nat) < SIZE_MOD := by decide
        have hupper : d1 < SIZE_MOD ∨ SIZE_MOD ≤ d1 := Nat.lt_or_ge d1 SIZE_MOD
        rcases hupper with h | h
        · omega
        · exact absurd hc (by
            intro hc'
            exact hc' (by
              rw [hA0]
              have : szSub i 1 < SIZE_MOD := Nat.mod_lt _ (by decide)
              omega))
      rw [szSub_one_of_pos hi1 hlt]
      omega
  · have hidx' : szSub i 1 < d1 := by
      rcases hidx with h | h
      · exact h
      · exact absurd h hz
    have hilt' : i < SIZE_MOD := by omega
    have hs := MultiArray_assignRow_spec A._multi_array m (szSub i 1) b._multi_array d1 d2
      hA0 hA1 hb0 hidx' hdisj
    have hsub : szSub i 1 = i - 1 := szSub_one_of_pos hi1 hilt'
    refine ⟨hs.1, rfl, hA, ?_, ?_⟩
    · intro j hj1 hj
      rw [DynArrayDim2_opCall_eq A hA hi1 hi hj1 hj hrep,
        @DynArrayDim1_opCall_eq b d2 j hj1 hj (by omega)]
      have h := hs.2.1 (j - 1) (by omega)
      unfold colMajor2
      rw [← hsub]
      exact h
    · intro i' j hi1' hi' hne hj1 hj
      rw [DynArrayDim2_opCall_eq A hA hi1' hi' hj1 hj hrep]
      apply hs.2.2
      intro k hk heq
      rw [hsub] at heq
      have hcm : colMajor2 d1 i' j = colMajor2 d1 i (k + 1) := by
        unfold colMajor2
        unfold DynArray.getData colMajor2 at heq
        simp only [Nat.add_sub_cancel]
        omega
      have := colMajor2_injective hi1' hi' hj1 hi1 hi (by omega) hcm
      exact hne this.1

/-- Witness of C30: the dynamic vector of 3 elements with its buffer at address 2000 is
appended as row 2 of the dynamic 2x3 array with its buffer at address 1000. -/
theorem dyn_append_row_witness :
    (sampleDynDim2.getDims = [2, 3] ∧ sampleDynRow3.getDims = [3]) ∧
    (sampleDynDim2.append sampleMemTen 2 sampleDynRow3).1 = .ok () ∧
    (∀ j : Nat, 1 ≤ j → j ≤ 3 →
      (sampleDynDim2.append sampleMemTen 2 sampleDynRow3).2.2 (sampleDynDim2.opCall 2 j)
        = sampleMemTen (sampleDynRow3.opCall j)) :=
  ⟨by decide,
    (dyn_append_row Int sampleMemTen sampleDynDim2 sampleDynRow3 2 3 2 (by decide) (by decide)
      (by decide) (by decide) (by decide) (by decide)).1,
    (dyn_append_row Int sampleMemTen sampleDynDim2 sampleDynRow3 2 3 2 (by decide) (by decide)
      (by decide) (by decide) (by decide) (by decide)).2.2.2.1⟩

/-! ## The shape of the static and of the reference arrays -/

/-- C31: for a static array (owned or external) and a reference array of rank 1, 2 or 3,
the array object that an operation of the interface leaves answers `getDims()`,
`getNumDims()` and `getNumElems()` as the object before the operation did: after
`assign(data)`, `assign(b)`, each `operator=` overload, `resize` and `setDims` with any
argument (also a rejected one), `append`, and for the reference arrays the throwing
`getData()`; the `operator=` from a static array with external storage is taken on the
arrays with external storage, for which alone it has an instance.  An indexed write,
`getData()` of a static array, `getData() const` and `getDataCopy` only read or write
element storage and leave the array object itself. -/
theorem shape_queries_invariant (T : Type) (m : Mem T) :
    (∀ (size : Nat) (external : Bool)
        (a : StatArrayDim1 size external) (data : Nat) (b : BaseArray) (c c' : StatArrayDim1 size true)
        (d : StatArray size false) (dims : List Nat),
        ({ toStatArray := (a.toStatArray.assignData m data).2.1 } :
            StatArrayDim1 size external).shapeOf = a.shapeOf ∧
        ({ toStatArray := (a.toStatArray.assign m b).2.1 } :
            StatArrayDim1 size external).shapeOf = a.shapeOf ∧
        (c.opAssignExt m c').2.1.shapeOf = c.shapeOf ∧
        ({ toStatArray := (a.toStatArray.opAssignOwn m d).2.1 } :
            StatArrayDim1 size external).shapeOf = a.shapeOf ∧
        ({ toStatArray := (a.toStatArray.opAssignBase m b).2.1 } :
            StatArrayDim1 size external).shapeOf = a.shapeOf ∧
        (a.resize m dims).2.1.shapeOf = a.shapeOf ∧
        ({ toStatArray := (a.toStatArray.setDims m dims).1 } :
            StatArrayDim1 size external).shapeOf = a.shapeOf) ∧
    (∀ (size1 size2 : Nat) (external : Bool)
        (a : StatArrayDim2 size1 size2 external) (data : Nat) (b : BaseArray)
        (c c' : StatArrayDim2 size1 size2 true)
        (d : StatArray (szMul size1 size2) false) (dims : List Nat)
        (i : Nat) (r : StatArrayDim1 size2 external),
        ({ toStatArray := (a.toStatArray.assignData m data).2.1 } :
            StatArrayDim2 size1 size2 external).shapeOf = a.shapeOf ∧
        ({ toStatArray := (a.toStatArray.assign m b).2.1 } :
            StatArrayDim2 size1 size2 external).shapeOf = a.shapeOf ∧
        (c.opAssignExt m c').2.1.shapeOf = c.shapeOf ∧
        ({ toStatArray := (a.toStatArray.opAssignOwn m d).2.1 } :
            StatArrayDim2 size1 size2 external).shapeOf = a.shapeOf ∧
        ({ toStatArray := (a.toStatArray.opAssignBase m b).2.1 } :
            StatArrayDim2 size1 size2 external).shapeOf = a.shapeOf ∧
        (a.resize m dims).2.1.shapeOf = a.shapeOf ∧
        ({ toStatArray := (a.toStatArray.setDims m dims).1 } :
            StatArrayDim2 size1 size2 external).shapeOf = a.shapeOf ∧
        (a.append m i r).1.shapeOf = a.shapeOf) ∧
    (∀ (size1 size2 size3 : Nat) (external : Bool)
        (a : StatArrayDim3 size1 size2 size3 external) (data : Nat) (b : BaseArray)
        (c c' : StatArrayDim3 size1 size2 size3 true)
        (d : StatArray (szMul (szMul size1 size2) size3) false) (dims : List Nat)
        (i : Nat) (r : StatArrayDim2 size2 size3 false),
        ({ toStatArray := (a.toStatArray.assignData m data).2.1 } :
            StatArrayDim3 size1 size2 size3 external).shapeOf = a.shapeOf ∧
        ({ toStatArray := (a.toStatArray.assign m b).2.1 } :
            StatArrayDim3 size1 size2 size3 external).shapeOf = a.shapeOf ∧
        (c.opAssignExt m c').2.1.shapeOf = c.shapeOf ∧
        ({ toStatArray := (a.toStatArray.opAssignOwn m d).2.1 } :
            StatArrayDim3 size1 size2 size3 external).shapeOf = a.shapeOf ∧
        ({ toStatArray := (a.toStatArray.opAssignBase m b).2.1 } :
            StatArrayDim3 size1 size2 size3 external).shapeOf = a.shapeOf ∧
        (a.resize m dims).2.1.shapeOf = a.shapeOf ∧
        ({ toStatArray := (a.toStatArray.setDims m dims).1 } :
            StatArrayDim3 size1 size2 size3 external).shapeOf = a.shapeOf ∧
        (a.append m i r).1.shapeOf = a.shapeOf) ∧
    (∀ (size : Nat) (a : RefArrayDim1 size) (data : Nat) (b : BaseArray) (dims : List Nat),
        ({ toRefArray := (a.toRefArray.assignData m data).1 } :
            RefArrayDim1 size).shapeOf = a.shapeOf ∧
        ({ toRefArray := (a.toRefArray.assign m b).2.1 } : RefArrayDim1 size).shapeOf = a.shapeOf ∧
        ({ toRefArray := (a.toRefArray.resize m dims).2.1 } :
            RefArrayDim1 size).shapeOf = a.shapeOf ∧
        ({ toRefArray := (a.toRefArray.setDims m dims).1 } :
            RefArrayDim1 size).shapeOf = a.shapeOf ∧
        ({ toRefArray := (a.toRefArray.getData m).2.1 } : RefArrayDim1 size).shapeOf = a.shapeOf) ∧
    (∀ (size1 size2 : Nat)
        (a : RefArrayDim2 size1 size2) (data : Nat) (b : BaseArray) (dims : List Nat),
        ({ toRefArray := (a.toRefArray.assignData m data).1 } :
            RefArrayDim2 size1 size2).shapeOf = a.shapeOf ∧
        ({ toRefArray := (a.toRefArray.assign m b).2.1 } :
            RefArrayDim2 size1 size2).shapeOf = a.shapeOf ∧
        ({ toRefArray := (a.toRefArray.resize m dims).2.1 } :
            RefArrayDim2 size1 size2).shapeOf = a.shapeOf ∧
        ({ toRefArray := (a.toRefArray.setDims m dims).1 } :
            RefArrayDim2 size1 size2).shapeOf = a.shapeOf ∧
        ({ toRefArray := (a.toRefArray.getData m).2.1 } :
            RefArrayDim2 size1 size2).shapeOf = a.shapeOf) ∧
    (∀ (size1 size2 size3 : Nat)
        (a : RefArrayDim3 size1 size2 size3) (data : Nat) (b : BaseArray) (dims : List Nat),
        ({ toRefArray := (a.toRefArray.assignData m data).1 } :
            RefArrayDim3 size1 size2 size3).shapeOf = a.shapeOf ∧
        ({ toRefArray := (a.toRefArray.assign m b).2.1 } :
            RefArrayDim3 size1 size2 size3).shapeOf = a.shapeOf ∧
        ({ toRefArray := (a.toRefArray.resize m dims).2.1 } :
            RefArrayDim3 size1 size2 size3).shapeOf = a.shapeOf ∧
        ({ toRefArray := (a.toRefArray.setDims m dims).1 } :
            RefArrayDim3 size1 size2 size3).shapeOf = a.shapeOf ∧
        ({ toRefArray := (a.toRefArray.getData m).2.1 } :
            RefArrayDim3 size1 size2 size3).shapeOf = a.shapeOf) := by
  refine ⟨?_, ?_, ?_, ?_, ?_, ?_⟩
  · intro size external a data b c c' d dims
    exact ⟨rfl, rfl, rfl, rfl, rfl, rfl, rfl⟩
  · intro size1 size2 external a data b c c' d dims i r
    exact ⟨rfl, rfl, rfl, rfl, rfl, rfl, rfl, rfl⟩
  · intro size1 size2 size3 external a data b c c' d dims i r
    exact ⟨rfl, rfl, rfl, rfl, rfl, rfl, rfl, rfl⟩
  · intro size a data b dims
    exact ⟨rfl, rfl, rfl, rfl, rfl⟩
  · intro size1 size2 a data b dims
    exact ⟨rfl, rfl, rfl, rfl, rfl⟩
  · intro size1 size2 size3 a data b dims
    exact ⟨rfl, rfl, rfl, rfl, rfl⟩

/-! ## Assignment between arrays of rank 2 -/

theorem StatArray_assign_frame {T : Type} {N : Nat} {external : Bool}
    (a : StatArray N external) (m : Mem T) (b : BaseArray) (hnull : a.getData ≠ NULL)
    (hN : b.getNumElems = N)
    (hdisj : ∀ k : Nat, k < N →
      b.storageAddr k < a.getData ∨ a.getData + N ≤ b.storageAddr k)
    {q : Nat} (hq : q < a.getData ∨ a.getData + N ≤ q) : (a.assign m b).2.2 q = m q := by
  unfold StatArray.assign
  by_cases hpos : N > 0
  · have hc := BaseArray_getDataCopy_spec b m a._data N (by omega) hdisj
    have hnull' : ¬ a._data = NULL := hnull
    rw [if_pos hpos, if_neg hnull', if_pos hN]
    exact hc.2.2 q hq
  · rw [if_neg hpos]

/-- After `assign(b)` on an owned static array of rank 2, the element `(i, j)` holds the
value of the element of `b` at the column-major offset `(i-1) + size1*(j-1)` of its
storage order. -/
theorem StatArrayDim2_assign_elements {T : Type} {size1 size2 : Nat}
    (a : StatArrayDim2 size1 size2 false) (m : Mem T) (b : BaseArray)
    (hnull : a.getData ≠ NULL) (hrep : size1 * size2 < SIZE_MOD)
    (hN : b.getNumElems = size1 * size2)
    (hdisj : ∀ k : Nat, k < size1 * size2 →
      b.storageAddr k < a.getData ∨ a.getData + size1 * size2 ≤ b.storageAddr k) :
    (a.toStatArray.assign m b).1 = .ok () ∧
    ∀ i j : Nat, 1 ≤ i → i ≤ size1 → 1 ≤ j → j ≤ size2 →
      (a.toStatArray.assign m b).2.2 (a.opCall i j)
        = (a.toStatArray.assign m b).2.2 (b.storageAddr (colMajor2 size1 i j)) := by
  have hS := szMul_of_lt hrep
  have hdisj' : ∀ k : Nat, k < szMul size1 size2 →
      b.storageAddr k < a.getData ∨ a.getData + szMul size1 size2 ≤ b.storageAddr k :=
    fun k hk => by
      have := hdisj k (by omega)
      omega
  have h := StatArray_assign_spec a.toStatArray m b hnull (by omega) hdisj'
  refine ⟨h.1, ?_⟩
  intro i j hi1 hi hj1 hj
  have hlt := colMajor2_lt hi1 hi hj1 hj
  have hd := hdisj _ hlt
  rw [StatArrayDim2_opCall_eq a hi1 hi hj1 hj hrep, h.2.2 _ (by omega),
    StatArray_assign_frame a.toStatArray m b hnull (by omega) hdisj' (by omega)]

/-- After `assign(b)` on a dynamic array of rank 2, the array has the shape of `b` and its
element `(i, j)` holds the value of the element of `b` at the column-major offset
`(i-1) + d1*(j-1)` of its storage order. -/
theorem DynArrayDim2_assign_elements {T : Type} [Inhabited T] (a : DynArrayDim2) (m : Mem T)
    (b : BaseArray) (fresh d1 d2 : Nat) (hd : b.getDims = [d1, d2])
    (hb : BaseArray.Reachable T b) (hrep : d1 * d2 < SIZE_MOD)
    (hN : b.getNumElems = d1 * d2)
    (hfresh : ∀ k : Nat, k < d1 * d2 →
      b.storageAddr k < fresh ∨ fresh + d1 * d2 ≤ b.storageAddr k) :
    (a.toDynArray.assign m b fresh).1 = .ok () ∧
    (a.toDynArray.assign m b fresh).2.1.getDims = [d1, d2] ∧
    ∀ i j : Nat, 1 ≤ i → i ≤ d1 → 1 ≤ j → j ≤ d2 →
      (a.toDynArray.assign m b fresh).2.2
          (({ toDynArray := (a.toDynArray.assign m b fresh).2.1 } : DynArrayDim2).opCall i j)
        = (a.toDynArray.assign m b fresh).2.2 (b.storageAddr (colMajor2 d1 i j)) := by
  have h := DynArray_assign_spec a.toDynArray m b fresh (by rw [hd]; rfl) hb (by omega)
    (fun k hk => by
      have := hfresh k (by omega)
      omega)
  have hd' : ({ toDynArray := (a.toDynArray.assign m b fresh).2.1 } : DynArrayDim2).getDims
      = [d1, d2] := h.2.1.trans hd
  refine ⟨h.1, hd', ?_⟩
  intro i j hi1 hi hj1 hj
  have hlt := colMajor2_lt hi1 hi hj1 hj
  have hf := hfresh _ hlt
  have hg : ({ toDynArray := (a.toDynArray.assign m b fresh).2.1 } : DynArrayDim2).getData
      = fresh := h.2.2.2.1
  rw [DynArrayDim2_opCall_eq _ hd' hi1 hi hj1 hj hrep, hg, h.2.2.2.2.1 _ (by omega),
    h.2.2.2.2.2 _ (by omega)]

theorem DynArrayDim2_getNumElems_eq {T : Type} [Inhabited T] (c : DynArrayDim2) {d1 d2 : Nat}
    (hd : c.getDims = [d1, d2]) (hc : DynArray.Reachable T c.toDynArray)
    (hrep : d1 * d2 < SIZE_MOD) : c.getNumElems = d1 * d2 := by
  rw [DynArray_Reachable_getNumElems hc, hd]
  simp only [List.prod_cons, List.prod_nil, Nat.mul_one]
  exact Nat.mod_eq_of_lt hrep

/-- Counterexample to C32: the owned static 2x3 array with its buffer at address 300 is
assigned the 2x3 reference array over the scalars at the addresses 100 to 105, which hold
1000 to 1050.  The call returns normally; afterwards the element (1, 2) of the
destination (address 302) holds 1020, the value of slot 2, while the element (1, 2) of the
source is the scalar of slot 1 at address 101 and holds 1010. -/
theorem assign_from_ref_dim2_permutes :
    sampleStatOwn23.getDims = (BaseArray.refDim2 2 3 sampleRefDim2).getDims ∧
    (sampleStatOwn23.toStatArray.assign sampleMemTen (BaseArray.refDim2 2 3 sampleRefDim2)).1
      = .ok () ∧
    sampleStatOwn23.opCall 1 2 = 302 ∧
    sampleRefDim2.opCall 1 2 = .ok 101 ∧
    (sampleStatOwn23.toStatArray.assign sampleMemTen
      (BaseArray.refDim2 2 3 sampleRefDim2)).2.2 302 = 1020 ∧
    (sampleStatOwn23.toStatArray.assign sampleMemTen
      (BaseArray.refDim2 2 3 sampleRefDim2)).2.2 101 = 1010 := by
  decide

/-- C32, amended: `dest.assign(b)` on a destination of rank 2 that is an initialized owned
static array or a dynamic array, from a source `b` of rank 2 and of the same shape
`(d1, d2)` whose element count is a `size_t` and whose storage lies outside the buffer of
the destination (for a dynamic destination: outside the buffer that the reshape
allocates), returns normally.  When `b` is a static or a dynamic array, the element
`dest(i, j)` then equals `b(i, j)` for every valid `(i, j)`.  When `b` is a reference
array, `dest(i, j)` equals the scalar of the slot `(i-1) + d1*(j-1)` of the address table
of `b`, the column-major position, and not in general `b(i, j)`, which is the scalar of
the slot `(i-1)*d2 + (j-1)`. -/
theorem assign_rank2_elements (T : Type) [Inhabited T] (m : Mem T) :
    (∀ (d1 d2 : Nat) (a : StatArrayDim2 d1 d2 false), a.getData ≠ NULL →
        d1 * d2 < SIZE_MOD →
      (∀ (e : Bool) (c : StatArrayDim2 d1 d2 e),
          (∀ k : Nat, k < d1 * d2 →
            c.getData + k < a.getData ∨ a.getData + d1 * d2 ≤ c.getData + k) →
          (a.toStatArray.assign m (BaseArray.statDim2 d1 d2 e c)).1 = .ok () ∧
          ∀ i j : Nat, 1 ≤ i → i ≤ d1 → 1 ≤ j → j ≤ d2 →
            (a.toStatArray.assign m (BaseArray.statDim2 d1 d2 e c)).2.2 (a.opCall i j)
              = (a.toStatArray.assign m (BaseArray.statDim2 d1 d2 e c)).2.2 (c.opCall i j)) ∧
      (∀ (c : DynArrayDim2), c.getDims = [d1, d2] → DynArray.Reachable T c.toDynArray →
          (∀ k : Nat, k < d1 * d2 →
            c.getData + k < a.getData ∨ a.getData + d1 * d2 ≤ c.getData + k) →
          (a.toStatArray.assign m (BaseArray.dynDim2 c)).1 = .ok () ∧
          ∀ i j : Nat, 1 ≤ i → i ≤ d1 → 1 ≤ j → j ≤ d2 →
            (a.toStatArray.assign m (BaseArray.dynDim2 c)).2.2 (a.opCall i j)
              = (a.toStatArray.assign m (BaseArray.dynDim2 c)).2.2 (c.opCall i j)) ∧
      (∀ (c : RefArrayDim2 d1 d2),
          (∀ k : Nat, k < d1 * d2 →
            c.getDataRefs k < a.getData ∨ a.getData + d1 * d2 ≤ c.getDataRefs k) →
          (a.toStatArray.assign m (BaseArray.refDim2 d1 d2 c)).1 = .ok () ∧
          ∀ i j : Nat, 1 ≤ i → i ≤ d1 → 1 ≤ j → j ≤ d2 →
            (a.toStatArray.assign m (BaseArray.refDim2 d1 d2 c)).2.2 (a.opCall i j)
              = (a.toStatArray.assign m (BaseArray.refDim2 d1 d2 c)).2.2
                  (c.getDataRefs (colMajor2 d1 i j)))) ∧
    (∀ (d1 d2 : Nat) (a : DynArrayDim2) (fresh : Nat), d1 * d2 < SIZE_MOD →
      (∀ (e : Bool) (c : StatArrayDim2 d1 d2 e),
          (∀ k : Nat, k < d1 * d2 →
            c.getData + k < fresh ∨ fresh + d1 * d2 ≤ c.getData + k) →
          (a.toDynArray.assign m (BaseArray.statDim2 d1 d2 e c) fresh).1 = .ok () ∧
          (a.toDynArray.assign m (BaseArray.statDim2 d1 d2 e c) fresh).2.1.getDims
            = [d1, d2] ∧
          ∀ i j : Nat, 1 ≤ i → i ≤ d1 → 1 ≤ j → j ≤ d2 →
            (a.toDynArray.assign m (BaseArray.statDim2 d1 d2 e c) fresh).2.2
                (({ toDynArray :=
                    (a.toDynArray.assign m (BaseArray.statDim2 d1 d2 e c) fresh).2.1 } :
                  DynArrayDim2).opCall i j)
              = (a.toDynArray.assign m (BaseArray.statDim2 d1 d2 e c) fresh).2.2
                  (c.opCall i j)) ∧
      (∀ (c : DynArrayDim2), c.getDims = [d1, d2] → DynArray.Reachable T c.toDynArray →
          (∀ k : Nat, k < d1 * d2 →
            c.getData + k < fresh ∨ fresh + d1 * d2 ≤ c.getData + k) →
          (a.toDynArray.assign m (BaseArray.dynDim2 c) fresh).1 = .ok () ∧
          (a.toDynArray.assign m (BaseArray.dynDim2 c) fresh).2.1.getDims = [d1, d2] ∧
          ∀ i j : Nat, 1 ≤ i → i ≤ d1 → 1 ≤ j → j ≤ d2 →
            (a.toDynArray.assign m (BaseArray.dynDim2 c) fresh).2.2
                (({ toDynArray := (a.toDynArray.assign m (BaseArray.dynDim2 c) fresh).2.1 } :
                  DynArrayDim2).opCall i j)
              = (a.toDynArray.assign m (BaseArray.dynDim2 c) fresh).2.2 (c.opCall i j)) ∧
      (∀ (c : RefArrayDim2 d1 d2),
          (∀ k : Nat, k < d1 * d2 →
            c.getDataRefs k < fresh ∨ fresh + d1 * d2 ≤ c.getDataRefs k) →
          (a.toDynArray.assign m (BaseArray.refDim2 d1 d2 c) fresh).1 = .ok () ∧
          (a.toDynArray.assign m (BaseArray.refDim2 d1 d2 c) fresh).2.1.getDims = [d1, d2] ∧
          ∀ i j : Nat, 1 ≤ i → i ≤ d1 → 1 ≤ j → j ≤ d2 →
            (a.toDynArray.assign m (BaseArray.refDim2 d1 d2 c) fresh).2.2
                (({ toDynArray :=
                    (a.toDynArray.assign m (BaseArray.refDim2 d1 d2 c) fresh).2.1 } :
                  DynArrayDim2).opCall i j)
              = (a.toDynArray.assign m (BaseArray.refDim2 d1 d2 c) fresh).2.2
                  (c.getDataRefs (colMajor2 d1 i j)))) := by
  refine ⟨?_, ?_⟩
  · intro d1 d2 a hnull hrep
    have hS := szMul_of_lt hrep
    refine ⟨?_, ?_, ?_⟩
    · intro e c hdisj
      have h := StatArrayDim2_assign_elements a m (BaseArray.statDim2 d1 d2 e c) hnull hrep
        hS hdisj
      refine ⟨h.1, fun i j hi1 hi hj1 hj => ?_⟩
      rw [StatArrayDim2_opCall_eq c hi1 hi hj1 hj hrep]
      exact h.2 i j hi1 hi hj1 hj
    · intro c hd hc hdisj
      have h := StatArrayDim2_assign_elements a m (BaseArray.dynDim2 c) hnull hrep
        (DynArrayDim2_getNumElems_eq c hd hc hrep) hdisj
      refine ⟨h.1, fun i j hi1 hi hj1 hj => ?_⟩
      rw [DynArrayDim2_opCall_eq c hd hi1 hi hj1 hj hrep]
      exact h.2 i j hi1 hi hj1 hj
    · intro c hdisj
      exact StatArrayDim2_assign_elements a m (BaseArray.refDim2 d1 d2 c) hnull hrep hS hdisj
  · intro d1 d2 a fresh hrep
    have hS := szMul_of_lt hrep
    refine ⟨?_, ?_, ?_⟩
    · intro e c hdisj
      have h := DynArrayDim2_assign_elements a m (BaseArray.statDim2 d1 d2 e c) fresh d1 d2
        rfl trivial hrep hS hdisj
      refine ⟨h.1, h.2.1, fun i j hi1 hi hj1 hj => ?_⟩
      rw [StatArrayDim2_opCall_eq c hi1 hi hj1 hj hrep]
      exact h.2.2 i j hi1 hi hj1 hj
    · intro c hd hc hdisj
      have h := DynArrayDim2_assign_elements a m (BaseArray.dynDim2 c) fresh d1 d2
        hd hc hrep (DynArrayDim2_getNumElems_eq c hd hc hrep) hdisj
      refine ⟨h.1, h.2.1, fun i j hi1 hi hj1 hj => ?_⟩
      rw [DynArrayDim2_opCall_eq c hd hi1 hi hj1 hj hrep]
      exact h.2.2 i j hi1 hi hj1 hj
    · intro c hdisj
      exact DynArrayDim2_assign_elements a m (BaseArray.refDim2 d1 d2 c) fresh d1 d2
        rfl trivial hrep hS hdisj

/-- Witness of the amended C32: the owned static 2x3 array with its buffer at address 300
is assigned the static 2x3 array over the external buffer at address 500, and the dynamic
2x3 array is assigned the same source with its new buffer at address 2000. -/
theorem assign_rank2_elements_witness :
    (sampleStatOwn23.getData ≠ NULL ∧ 2 * 3 < SIZE_MOD) ∧
    ((sampleStatOwn23.toStatArray.assign sampleMemSeq
        (BaseArray.statDim2 2 3 true sampleStatExt23)).1 = .ok () ∧
      ∀ i j : Nat, 1 ≤ i → i ≤ 2 → 1 ≤ j → j ≤ 3 →
        (sampleStatOwn23.toStatArray.assign sampleMemSeq
            (BaseArray.statDim2 2 3 true sampleStatExt23)).2.2 (sampleStatOwn23.opCall i j)
          = (sampleStatOwn23.toStatArray.assign sampleMemSeq
              (BaseArray.statDim2 2 3 true sampleStatExt23)).2.2
              (sampleStatExt23.opCall i j)) ∧
    (sampleDynDim2.toDynArray.assign sampleMemSeq
      (BaseArray.statDim2 2 3 true sampleStatExt23) 2000).1 = .ok () :=
  ⟨by decide,
    ((assign_rank2_elements Int sampleMemSeq).1 2 3 sampleStatOwn23 (by decide)
      (by decide)).1 true sampleStatExt23 (by decide),
    (((assign_rank2_elements Int sampleMemSeq).2 2 3 sampleDynDim2 2000 (by decide)).1 true
      sampleStatExt23 (by decide)).1⟩

/-! ## Appending to a static array -/

/-- The pointer-striding loop `for n times: *p = *d++; p += s` is the loop
`for t < n: p[s*t] = d[t]`, and leaves the pointers at `d + n` and `p + s*n`. -/
theorem stride_loop_eq {T : Type} (n : Nat) (m : Mem T) (d p s : Nat) :
    (List.range n).foldl
        (fun (st : Mem T × Nat × Nat) _ =>
          (Mem.write st.1 st.2.2 (st.1 st.2.1), st.2.1 + 1, st.2.2 + s))
        (m, d, p)
      = ((List.range n).foldl (fun acc t => Mem.write acc (p + s * t) (acc (d + t))) m,
          d + n, p + s * n) := by
  induction n with
  | zero => rfl
  | succ n ih =>
    rw [List.range_succ, List.foldl_append, List.foldl_append, ih]
    simp only [List.foldl_cons, List.foldl_nil]
    rw [Nat.mul_succ, Nat.add_assoc d n 1, Nat.add_assoc p (s * n) s]

/-- The nested pointer-striding loop, `k` rounds of `n` steps, is the loop
`for t < k*n: p[s*t] = d[t]`. -/
theorem stride_loop_nested_eq {T : Type} (k n : Nat) (m : Mem T) (d p s : Nat) :
    (List.range k).foldl
        (fun (st : Mem T × Nat × Nat) _ =>
          (List.range n).foldl
            (fun (st : Mem T × Nat × Nat) _ =>
              (Mem.write st.1 st.2.2 (st.1 st.2.1), st.2.1 + 1, st.2.2 + s))
            st)
        (m, d, p)
      = ((List.range (k * n)).foldl (fun acc t => Mem.write acc (p + s * t) (acc (d + t))) m,
          d + k * n, p + s * (k * n)) := by
  induction k with
  | zero =>
    rw [Nat.zero_mul]
    rfl
  | succ k ih =>
    rw [List.range_succ, List.foldl_append, ih]
    simp only [List.foldl_cons, List.foldl_nil]
    rw [stride_loop_eq, Nat.succ_mul, List.range_add, List.foldl_append, List.foldl_map]
    have hf : (fun acc t => Mem.write acc (p + s * (k * n) + s * t) (acc (d + k * n + t)))
        = (fun (acc : Mem T) t => Mem.write acc (p + s * (k * n + t)) (acc (d + (k * n + t)))) := by
      funext acc t
      rw [Nat.mul_add, Nat.add_assoc, Nat.add_assoc]
    rw [hf, Nat.mul_add, Nat.add_assoc, Nat.add_assoc]

theorem StatArrayDim2_append_eq {T : Type} {size1 size2 : Nat} {external : Bool}
    (a : StatArrayDim2 size1 size2 external) (m : Mem T) (i : Nat)
    (b : StatArrayDim1 size2 external) :
    a.append m i b = (a, (List.range size2).foldl
      (fun acc t => Mem.write acc (a.getData + i - 1 + size1 * t) (acc (b.getData + t))) m) := by
  unfold StatArrayDim2.append
  rw [stride_loop_eq]

theorem StatArrayDim3_append_eq {T : Type} {size1 size2 size3 : Nat} {external : Bool}
    (a : StatArrayDim3 size1 size2 size3 external) (m : Mem T) (i : Nat)
    (b : StatArrayDim2 size2 size3 false) :
    a.append m i b = (a, (List.range (size3 * size2)).foldl
      (fun acc t => Mem.write acc (a.getData + i - 1 + size1 * t) (acc (b.getData + t))) m) := by
  unfold StatArrayDim3.append
  rw [stride_loop_nested_eq]

/-- C33: for a static array `A` of rank 2 and shape `(size1, size2)` whose element count is
a `size_t`, a row `i` with `1 <= i <= size1` and a static vector `b` of length `size2`
whose storage lies outside the storage of `A`: after `A.append(i, b)` the element
`A(i, j)` holds the value of `b(j)` for every `j` in `1..size2`, every element `A(i', j)`
with `i' != i` holds the value it had, and the array object is as it was. -/
theorem stat_append_row (T : Type) (m : Mem T) (size1 size2 : Nat) (external : Bool)
    (A : StatArrayDim2 size1 size2 external) (b : StatArrayDim1 size2 external) (i : Nat)
    (hi1 : 1 ≤ i) (hi : i ≤ size1) (hrep : size1 * size2 < SIZE_MOD)
    (hdisj : ∀ k : Nat, k < size2 →
      b.getData + k < A.getData ∨ A.getData + size1 * size2 ≤ b.getData + k) :
    (A.append m i b).1 = A ∧
    (∀ j : Nat, 1 ≤ j → j ≤ size2 → (A.append m i b).2 (A.opCall i j) = m (b.opCall j)) ∧
    (∀ i' j : Nat, 1 ≤ i' → i' ≤ size1 → i' ≠ i → 1 ≤ j → j ≤ size2 →
      (A.append m i b).2 (A.opCall i' j) = m (A.opCall i' j)) := by
  have hd2 : size2 ≤ size1 * size2 := Nat.le_mul_of_pos_left size2 (by omega)
  have hcell : ∀ t : Nat, t < size2 →
      A.getData + i - 1 + size1 * t = A.getData + colMajor2 size1 i (t + 1) := by
    intro t _
    unfold colMajor2
    simp only [Nat.add_sub_cancel]
    omega
  have hspec := foldl_write_spec (fun t => A.getData + i - 1 + size1 * t)
    (fun t => b.getData + t) m size2
    (fun s t _ _ hst => by
      simp only [] at hst
      have h1 : size1 * s = size1 * t := by omega
      exact Nat.eq_of_mul_eq_mul_left (by omega) h1)
    (fun s t hts hs => by
      have h1 := hdisj s hs
      have h2 : colMajor2 size1 i (t + 1) < size1 * size2 :=
        colMajor2_lt hi1 hi (by omega) (by omega)
      have h3 := hcell t (by omega)
      simp only []
      omega)
  rw [StatArrayDim2_append_eq]
  refine ⟨rfl, ?_, ?_⟩
  · intro j hj1 hj
    rw [StatArrayDim2_opCall_eq A hi1 hi hj1 hj hrep,
      StatArrayDim1_opCall_eq b hj1 hj (by omega)]
    have h := hspec.1 (j - 1) (by omega)
    simp only [] at h
    rw [hcell (j - 1) (by omega), Nat.sub_add_cancel hj1] at h
    exact h
  · intro i' j hi1' hi' hne hj1 hj
    rw [StatArrayDim2_opCall_eq A hi1' hi' hj1 hj hrep]
    apply hspec.2
    intro t ht heq
    simp only [] at heq
    rw [hcell t ht] at heq
    have hcm : colMajor2 size1 i' j = colMajor2 size1 i (t + 1) := by omega
    exact hne (colMajor2_injective hi1' hi' hj1 hi1 hi (by omega) hcm).1

/-- Witness of C33: the owned static vector of 3 elements at address 400 is appended as
row 2 of the owned static 2x3 array at address 300. -/
theorem stat_append_row_witness :
    (∀ k : Nat, k < 3 →
      sampleStatRow3.getData + k < sampleStatOwn23.getData ∨
        sampleStatOwn23.getData + 2 * 3 ≤ sampleStatRow3.getData + k) ∧
    (∀ j : Nat, 1 ≤ j → j ≤ 3 →
      (sampleStatOwn23.append sampleMemTen 2 sampleStatRow3).2 (sampleStatOwn23.opCall 2 j)
        = sampleMemTen (sampleStatRow3.opCall j)) :=
  ⟨by decide,
    (stat_append_row Int sampleMemTen 2 3 false sampleStatOwn23 sampleStatRow3 2 (by decide)
      (by decide) (by decide) (by decide)).2.1⟩

/-- The nested loop `for j < n1, for k < n2: *tbl[j][k] = *src[j][k]`: when the
destinations are pairwise distinct and no source cell is a destination, destination
`(j, k)` receives the former value of source `(j, k)` and every other cell keeps its
value. -/
theorem nested_write_spec {T : Type} (tbl src : Nat → Nat → Nat) (m : Mem T) (n1 n2 : Nat)
    (hinj : ∀ j k j' k' : Nat, j < n1 → k < n2 → j' < n1 → k' < n2 →
      tbl j k = tbl j' k' → j = j' ∧ k = k')
    (hsrc : ∀ j k j' k' : Nat, j < n1 → k < n2 → j' < n1 → k' < n2 → src j k ≠ tbl j' k') :
    (∀ j k : Nat, j < n1 → k < n2 →
      ((List.range n1).foldl (fun acc j => (List.range n2).foldl
        (fun acc k => Mem.write acc (tbl j k) (acc (src j k))) acc) m) (tbl j k)
        = m (src j k)) ∧
    (∀ q : Nat, (∀ j k : Nat, j < n1 → k < n2 → q ≠ tbl j k) →
      ((List.range n1).foldl (fun acc j => (List.range n2).foldl
        (fun acc k => Mem.write acc (tbl j k) (acc (src j k))) acc) m) q = m q) := by
  induction n1 with
  | zero =>
    exact ⟨fun j k hj => absurd hj (Nat.not_lt_zero j), fun q _ => rfl⟩
  | succ n ih =>
    have ih' := ih
      (fun j k j' k' hj hk hj' hk' => hinj j k j' k' (by omega) hk (by omega) hk')
      (fun j k j' k' hj hk hj' hk' => hsrc j k j' k' (by omega) hk (by omega) hk')
    rw [List.range_succ, List.foldl_append]
    simp only [List.foldl_cons, List.foldl_nil]
    have hin := foldl_write_spec (tbl n) (src n)
      ((List.range n).foldl (fun acc j => (List.range n2).foldl
        (fun acc k => Mem.write acc (tbl j k) (acc (src j k))) acc) m) n2
      (fun s t hs ht hst => (hinj n s n t (by omega) hs (by omega) ht hst).2)
      (fun s t hts hs => hsrc n s n t (by omega) hs (by omega) (by omega))
    refine ⟨?_, ?_⟩
    · intro j k hj hk
      by_cases hjn : j = n
      · subst hjn
        rw [hin.1 k hk]
        exact ih'.2 _ (fun j' k' hj' hk' => hsrc j k j' k' (by omega) hk (by omega) hk')
      · rw [hin.2 _ (fun k' hk' heq =>
          hjn (hinj j k n k' (by omega) hk (by omega) hk' heq).1)]
        exact ih'.1 j k (by omega) hk
    · intro q hq
      rw [hin.2 q (fun k hk => hq n k (by omega) hk)]
      exact ih'.2 q (fun j k hj hk => hq j k (by omega) hk)

theorem colMajor3_injective {d1 d2 i j k i' j' k' : Nat} (hi1 : 1 ≤ i) (hi : i ≤ d1)
    (hj1 : 1 ≤ j) (hj : j ≤ d2) (hk1 : 1 ≤ k) (hi1' : 1 ≤ i') (hi' : i' ≤ d1) (hj1' : 1 ≤ j')
    (hj' : j' ≤ d2) (hk1' : 1 ≤ k')
    (h : colMajor3 d1 d2 i j k = colMajor3 d1 d2 i' j' k') : i = i' ∧ j = j' ∧ k = k' := by
  have h1 : colMajor2 d1 i (colMajor2 d2 j k + 1) = colMajor2 d1 i' (colMajor2 d2 j' k' + 1) := by
    unfold colMajor3 at h
    unfold colMajor2
    simp only [Nat.add_sub_cancel]
    exact h
  have h2 := colMajor2_injective hi1 hi (by omega) hi1' hi' (by omega) h1
  have h3 := colMajor2_injective hj1 hj hk1 hj1' hj' hk1' (by omega)
  exact ⟨h2.1, h3.1, h3.2⟩

/-- C34: for a static array `A` of rank 3 and shape `(size1, size2, size3)` whose element
count is a `size_t`, an index `i` with `1 <= i <= size1` and an owned static array `b` of
rank 2 and shape `(size2, size3)` whose storage lies outside the storage of `A`: the
pointer-striding loop of `A.append(i, b)` leaves the same memory as the naive double loop
that sets `A(i, j, k) = b(j, k)` for all `j` in `1..size2` and `k` in `1..size3`; in that
memory `A(i, j, k)` holds the value of `b(j, k)`, every element `A(i', j, k)` with
`i' != i` holds the value it had, and the array object is as it was. -/
theorem stat_append_slab_refines (T : Type) (m : Mem T) (size1 size2 size3 : Nat)
    (external : Bool) (A : StatArrayDim3 size1 size2 size3 external)
    (b : StatArrayDim2 size2 size3 false) (i : Nat) (hi1 : 1 ≤ i) (hi : i ≤ size1)
    (hrep : size1 * size2 * size3 < SIZE_MOD)
    (hdisj : ∀ t : Nat, t < size2 * size3 →
      b.getData + t < A.getData ∨ A.getData + size1 * size2 * size3 ≤ b.getData + t) :
    (A.append m i b).2 = A.appendNaive m i b ∧
    (A.append m i b).1 = A ∧
    (∀ j k : Nat, 1 ≤ j → j ≤ size2 → 1 ≤ k → k ≤ size3 →
      (A.append m i b).2 (A.opCall i j k) = m (b.opCall j k)) ∧
    (∀ i' j k : Nat, 1 ≤ i' → i' ≤ size1 → i' ≠ i → 1 ≤ j → j ≤ size2 → 1 ≤ k → k ≤ size3 →
      (A.append m i b).2 (A.opCall i' j k) = m (A.opCall i' j k)) := by
  have hrep2 : size2 * size3 < SIZE_MOD := by
    have h1 : size2 * size3 ≤ size1 * (size2 * size3) := Nat.le_mul_of_pos_left _ (by omega)
    rw [← Nat.mul_assoc] at h1
    omega
  -- the cells of the two index operators
  have hA : ∀ i' j k : Nat, 1 ≤ i' → i' ≤ size1 → j < size2 → k < size3 →
      A.opCall i' (j + 1) (k + 1) = A.getData + i' - 1 + size1 * (j + size2 * k) := by
    intro i' j k hi1' hi' hj hk
    rw [StatArrayDim3_opCall_eq A hi1' hi' (by omega) (by omega) (by omega) (by omega) hrep]
    unfold colMajor3
    simp only [Nat.add_sub_cancel]
    omega
  have hB : ∀ j k : Nat, j < size2 → k < size3 →
      b.opCall (j + 1) (k + 1) = b.getData + (j + size2 * k) := by
    intro j k hj hk
    rw [StatArrayDim2_opCall_eq b (by omega) (by omega) (by omega) (by omega) hrep2]
    unfold colMajor2
    simp only [Nat.add_sub_cancel]
  have hflat : ∀ j k : Nat, j < size2 → k < size3 → j + size2 * k < size3 * size2 := by
    intro j k hj hk
    have h : colMajor2 size2 (j + 1) (k + 1) < size2 * size3 :=
      colMajor2_lt (by omega) (by omega) (by omega) (by omega)
    unfold colMajor2 at h
    simp only [Nat.add_sub_cancel] at h
    rw [Nat.mul_comm size3 size2]
    exact h
  have hin : ∀ i' t : Nat, 1 ≤ i' → i' ≤ size1 → t < size3 * size2 →
      i' - 1 + size1 * t < size1 * size2 * size3 := by
    intro i' t hi1' hi' ht
    have h : colMajor2 size1 i' (t + 1) < size1 * (size3 * size2) :=
      colMajor2_lt hi1' hi' (by omega) (by omega)
    unfold colMajor2 at h
    simp only [Nat.add_sub_cancel] at h
    rw [Nat.mul_assoc, Nat.mul_comm size2 size3]
    exact h
  -- the loop of the source
  have hcode := foldl_write_spec (fun t => A.getData + i - 1 + size1 * t)
    (fun t => b.getData + t) m (size3 * size2)
    (fun s t _ _ hst => by
      simp only [] at hst
      have h1 : size1 * s = size1 * t := by omega
      exact Nat.eq_of_mul_eq_mul_left (by omega) h1)
    (fun s t hts hs => by
      have h1 := hdisj s (by rw [Nat.mul_comm]; exact hs)
      have h2 := hin i t hi1 hi (by omega)
      simp only []
      omega)
  -- the naive loop
  have hnaive := nested_write_spec (fun j k => A.opCall i (j + 1) (k + 1))
    (fun j k => b.opCall (j + 1) (k + 1)) m size2 size3
    (fun j k j' k' hj hk hj' hk' heq => by
      simp only [] at heq
      rw [StatArrayDim3_opCall_eq A hi1 hi (by omega) (by omega) (by omega) (by omega) hrep,
        StatArrayDim3_opCall_eq A hi1 hi (by omega) (by omega) (by omega) (by omega) hrep]
        at heq
      have h := colMajor3_injective hi1 hi (by omega) (show j + 1 ≤ size2 by omega)
        (by omega) hi1 hi (by omega) (show j' + 1 ≤ size2 by omega) (by omega)
        (show colMajor3 size1 size2 i (j + 1) (k + 1)
          = colMajor3 size1 size2 i (j' + 1) (k' + 1) by omega)
      omega)
    (fun j k j' k' hj hk hj' hk' => by
      simp only []
      rw [hA i j' k' hi1 hi hj' hk', hB j k hj hk]
      have h1 := hdisj (j + size2 * k) (by
        have := hflat j k hj hk
        rw [Nat.mul_comm size3 size2] at this
        exact this)
      have h2 := hin i (j' + size2 * k') hi1 hi (hflat j' k' hj' hk')
      omega)
  rw [StatArrayDim3_append_eq]
  refine ⟨?_, rfl, ?_, ?_⟩
  · unfold StatArrayDim3.appendNaive
    funext q
    by_cases hq : ∃ j k : Nat, j < size2 ∧ k < size3 ∧ q = A.opCall i (j + 1) (k + 1)
    · obtain ⟨j, k, hj, hk, heq⟩ := hq
      have hn := hnaive.1 j k hj hk
      simp only [] at hn
      rw [heq, hn, hB j k hj hk, hA i j k hi1 hi hj hk]
      exact hcode.1 (j + size2 * k) (hflat j k hj hk)
    · have hq' : ∀ j k : Nat, j < size2 → k < size3 → q ≠ A.opCall i (j + 1) (k + 1) :=
        fun j k hj hk heq => hq ⟨j, k, hj, hk, heq⟩
      rw [hnaive.2 q hq']
      apply hcode.2
      intro t ht heq
      have hpos : 0 < size2 := by
        rcases Nat.eq_zero_or_pos size2 with h | h
        · rw [h, Nat.mul_zero] at ht
          exact absurd ht (Nat.not_lt_zero t)
        · exact h
      have hk : t / size2 < size3 := (Nat.div_lt_iff_lt_mul hpos).2 ht
      have hj : t % size2 < size2 := Nat.mod_lt t hpos
      have ht' : t % size2 + size2 * (t / size2) = t := Nat.mod_add_div t size2
      apply hq' (t % size2) (t / size2) hj hk
      rw [hA i _ _ hi1 hi hj hk, ht']
      exact heq
  · intro j k hj1 hj hk1 hk
    have h1 := hA i (j - 1) (k - 1) hi1 hi (by omega) (by omega)
    have h2 := hB (j - 1) (k - 1) (by omega) (by omega)
    rw [Nat.sub_add_cancel hj1, Nat.sub_add_cancel hk1] at h1 h2
    rw [h1, h2]
    exact hcode.1 _ (hflat (j - 1) (k - 1) (by omega) (by omega))
  · intro i' j k hi1' hi' hne hj1 hj hk1 hk
    have h1 := hA i' (j - 1) (k - 1) hi1' hi' (by omega) (by omega)
    rw [Nat.sub_add_cancel hj1, Nat.sub_add_cancel hk1] at h1
    rw [h1]
    apply hcode.2
    intro t ht heq
    simp only [] at heq
    have hcm : colMajor2 size1 i' ((j - 1) + size2 * (k - 1) + 1) = colMajor2 size1 i (t + 1) := by
      unfold colMajor2
      simp only [Nat.add_sub_cancel]
      omega
    exact hne (colMajor2_injective hi1' hi' (by omega) hi1 hi (by omega) hcm).1

/-- Witness of C34: the owned static 3x4 array at address 600 is appended at index 2 of
the owned static 2x3x4 array at address 200. -/
theorem stat_append_slab_refines_witness :
    (∀ t : Nat, t < 3 * 4 →
      sampleStatSlab34.getData + t < sampleStatDim3.getData ∨
        sampleStatDim3.getData + 2 * 3 * 4 ≤ sampleStatSlab34.getData + t) ∧
    (sampleStatDim3.append sampleMemTen 2 sampleStatSlab34).2
      = sampleStatDim3.appendNaive sampleMemTen 2 sampleStatSlab34 :=
  ⟨by decide,
    (stat_append_slab_refines Int sampleMemTen 2 3 4 false sampleStatDim3 sampleStatSlab34 2
      (by decide) (by decide) (by decide) (by decide)).1⟩

/-! ## The bounds assertion of the reference array of rank 3 -/

/-- C35, failing input: in the 1x2x2 reference array over the scalars at the addresses 100
to 103, the valid index triple (1, 2, 2) has the slot number
`size3*((i-1) + size2*(j-1)) + (k-1) = 2*(0 + 2*1) + 1 = 5`, which is not below the element
count 4: the bounds assertion of both index operators fails. -/
theorem ref_array_dim3_assert_rejects_valid_triple :
    (1 ≤ 1 ∧ 1 ≤ 1 ∧ 1 ≤ 2 ∧ 2 ≤ 2 ∧ 1 ≤ 2 ∧ 2 ≤ 2) ∧
    sampleRefDim3c.getNumElems = 4 ∧
    2 * ((1 - 1) + 2 * (2 - 1)) + (2 - 1) = 5 ∧
    ¬ (5 < sampleRefDim3c.getNumElems) ∧
    sampleRefDim3c.opCall 1 2 2 = .error Fault.assertion ∧
    sampleRefDim3c.opCallIdx [1, 2, 2] = .error Fault.assertion := by
  decide

/-! ## Frame of an indexed write -/

/-- C36: in a static array and in a dynamic array of rank 1, 2 or 3 whose element count is
a `size_t`, for two distinct valid index tuples, a write of any value through the index
operator at the first tuple leaves the element that the index operator reads at the second
tuple as it was.  The write is a store to one cell of the element storage: the array
object, which answers `getDims()`, is not touched by it. -/
theorem indexed_write_frame (T : Type) (m : Mem T) (v : T) :
    (∀ (size : Nat) (external : Bool) (a : StatArrayDim1 size external) (i i' : Nat),
        size < SIZE_MOD → 1 ≤ i → i ≤ size → 1 ≤ i' → i' ≤ size → i ≠ i' →
        (Mem.write m (a.opCall i) v) (a.opCall i') = m (a.opCall i')) ∧
    (∀ (size1 size2 : Nat) (external : Bool) (a : StatArrayDim2 size1 size2 external)
        (i j i' j' : Nat), size1 * size2 < SIZE_MOD →
        1 ≤ i → i ≤ size1 → 1 ≤ j → j ≤ size2 → 1 ≤ i' → i' ≤ size1 → 1 ≤ j' → j' ≤ size2 →
        ¬ (i = i' ∧ j = j') →
        (Mem.write m (a.opCall i j) v) (a.opCall i' j') = m (a.opCall i' j')) ∧
    (∀ (size1 size2 size3 : Nat) (external : Bool)
        (a : StatArrayDim3 size1 size2 size3 external) (i j k i' j' k' : Nat),
        size1 * size2 * size3 < SIZE_MOD →
        1 ≤ i → i ≤ size1 → 1 ≤ j → j ≤ size2 → 1 ≤ k → k ≤ size3 →
        1 ≤ i' → i' ≤ size1 → 1 ≤ j' → j' ≤ size2 → 1 ≤ k' → k' ≤ size3 →
        ¬ (i = i' ∧ j = j' ∧ k = k') →
        (Mem.write m (a.opCall i j k) v) (a.opCall i' j' k') = m (a.opCall i' j' k')) ∧
    (∀ (a : DynArrayDim1) (d1 i i' : Nat), a.getDims = [d1] → d1 < SIZE_MOD →
        1 ≤ i → i ≤ d1 → 1 ≤ i' → i' ≤ d1 → i ≠ i' →
        (Mem.write m (a.opCall i) v) (a.opCall i') = m (a.opCall i')) ∧
    (∀ (a : DynArrayDim2) (d1 d2 i j i' j' : Nat), a.getDims = [d1, d2] →
        d1 * d2 < SIZE_MOD →
        1 ≤ i → i ≤ d1 → 1 ≤ j → j ≤ d2 → 1 ≤ i' → i' ≤ d1 → 1 ≤ j' → j' ≤ d2 →
        ¬ (i = i' ∧ j = j') →
        (Mem.write m (a.opCall i j) v) (a.opCall i' j') = m (a.opCall i' j')) ∧
    (∀ (a : DynArrayDim3) (d1 d2 d3 i j k i' j' k' : Nat), a.getDims = [d1, d2, d3] →
        d1 * d2 * d3 < SIZE_MOD →
        1 ≤ i → i ≤ d1 → 1 ≤ j → j ≤ d2 → 1 ≤ k → k ≤ d3 →
        1 ≤ i' → i' ≤ d1 → 1 ≤ j' → j' ≤ d2 → 1 ≤ k' → k' ≤ d3 →
        ¬ (i = i' ∧ j = j' ∧ k = k') →
        (Mem.write m (a.opCall i j k) v) (a.opCall i' j' k') = m (a.opCall i' j' k')) := by
  refine ⟨?_, ?_, ?_, ?_, ?_, ?_⟩
  · intro size external a i i' hrep hi1 hi hi1' hi' hne
    rw [StatArrayDim1_opCall_eq a hi1 hi hrep, StatArrayDim1_opCall_eq a hi1' hi' hrep]
    exact Mem_write_other _ _ _ (by omega)
  · intro size1 size2 external a i j i' j' hrep hi1 hi hj1 hj hi1' hi' hj1' hj' hne
    rw [StatArrayDim2_opCall_eq a hi1 hi hj1 hj hrep,
      StatArrayDim2_opCall_eq a hi1' hi' hj1' hj' hrep]
    refine Mem_write_other _ _ _ (fun h => hne ?_)
    have h' := colMajor2_injective hi1 hi hj1 hi1' hi' hj1'
      (show colMajor2 size1 i j = colMajor2 size1 i' j' by omega)
    exact h'
  · intro size1 size2 size3 external a i j k i' j' k' hrep hi1 hi hj1 hj hk1 hk hi1' hi' hj1'
      hj' hk1' hk' hne
    rw [StatArrayDim3_opCall_eq a hi1 hi hj1 hj hk1 hk hrep,
      StatArrayDim3_opCall_eq a hi1' hi' hj1' hj' hk1' hk' hrep]
    refine Mem_write_other _ _ _ (fun h => hne ?_)
    exact colMajor3_injective hi1 hi hj1 hj hk1 hi1' hi' hj1' hj' hk1'
      (show colMajor3 size1 size2 i j k = colMajor3 size1 size2 i' j' k' by omega)
  · intro a d1 i i' hd hrep hi1 hi hi1' hi' hne
    rw [DynArrayDim1_opCall_eq a hi1 hi hrep, DynArrayDim1_opCall_eq a hi1' hi' hrep]
    exact Mem_write_other _ _ _ (by omega)
  · intro a d1 d2 i j i' j' hd hrep hi1 hi hj1 hj hi1' hi' hj1' hj' hne
    rw [DynArrayDim2_opCall_eq a hd hi1 hi hj1 hj hrep,
      DynArrayDim2_opCall_eq a hd hi1' hi' hj1' hj' hrep]
    refine Mem_write_other _ _ _ (fun h => hne ?_)
    exact colMajor2_injective hi1 hi hj1 hi1' hi' hj1'
      (show colMajor2 d1 i j = colMajor2 d1 i' j' by omega)
  · intro a d1 d2 d3 i j k i' j' k' hd hrep hi1 hi hj1 hj hk1 hk hi1' hi' hj1' hj' hk1' hk'
      hne
    rw [DynArrayDim3_opCall_eq a hd hi1 hi hj1 hj hk1 hk hrep,
      DynArrayDim3_opCall_eq a hd hi1' hi' hj1' hj' hk1' hk' hrep]
    refine Mem_write_other _ _ _ (fun h => hne ?_)
    exact colMajor3_injective hi1 hi hj1 hj hk1 hi1' hi' hj1' hj' hk1'
      (show colMajor3 d1 d2 i j k = colMajor3 d1 d2 i' j' k' by omega)

/-- Witness of C36: a write at the index (1, 2) of the static 2x3 array and at the index
(1, 2, 3) of the dynamic 2x3x4 array, read at the indices (2, 1) and (2, 1, 3). -/
theorem indexed_write_frame_witness :
    (Mem.write sampleMemTen (sampleStatDim2.opCall 1 2) 7) (sampleStatDim2.opCall 2 1)
      = sampleMemTen (sampleStatDim2.opCall 2 1) ∧
    (Mem.write sampleMemTen (sampleDynDim3.opCall 1 2 3) 7) (sampleDynDim3.opCall 2 1 3)
      = sampleMemTen (sampleDynDim3.opCall 2 1 3) :=
  ⟨(indexed_write_frame Int sampleMemTen 7).2.1 2 3 true sampleStatDim2 1 2 2 1 (by decide)
      (by decide) (by decide) (by decide) (by decide) (by decide) (by decide) (by decide)
      (by decide) (by decide),
    (indexed_write_frame Int sampleMemTen 7).2.2.2.2.2 sampleDynDim3 2 3 4 1 2 3 2 1 3
      (by decide) (by decide) (by decide) (by decide) (by decide) (by decide) (by decide)
      (by decide) (by decide) (by decide) (by decide) (by decide) (by decide) (by decide)
      (by decide)⟩

/-! ## The address table of a reference array -/

theorem RefArray_step_table {T : Type} {N : Nat} (op : RefOp T) (s : RefArray N × Mem T) :
    (RefArray.step op s).2.1 = s.1 := by
  cases op with
  | store p v => rfl
  | assignData data => rfl
  | assign b =>
    show (s.1.assign s.2 b).2.1 = s.1
    rw [RefArray_assign_eq]
  | getDataConst => rfl
  | getDataCopy data n => rfl

theorem RefArray_run_table {T : Type} {N : Nat} (ops : List (RefOp T)) :
    ∀ s : RefArray N × Mem T, (RefArray.run ops s).1 = s.1 := by
  induction ops with
  | nil => intro s; rfl
  | cons op ops ih =>
    intro s
    unfold RefArray.run
    split
    · rw [ih, RefArray_step_table]
    · exact RefArray_step_table op s

/-- C37: a reference array keeps its address table under every sequence of stores through
element references (the indexed writes of every rank), `assign(data)`, `assign(b)`,
`getData() const` and `getDataCopy` calls: after the sequence, also one that a failed
assertion of `getDataCopy` ends, the array object is the one before it and
`getDataRefs()` returns the same addresses in the same order. -/
theorem ref_address_table_invariant (T : Type) (N : Nat) (ops : List (RefOp T))
    (a : RefArray N) (m : Mem T) :
    (RefArray.run ops (a, m)).1 = a ∧
    (RefArray.run ops (a, m)).1.getDataRefs = a.getDataRefs ∧
    (∀ k : Nat, (RefArray.run ops (a, m)).1.getDataRefs k = a.getDataRefs k) := by
  have h := RefArray_run_table ops (a, m)
  refine ⟨h, ?_, ?_⟩
  · rw [h]
  · intro k
    rw [h]

/-! ## Construction of a static array from a generic array -/

/-- C38: the constructor of a static array from a generic array `b` fails with a
`std::runtime_error`, whatever `b` is, when the new array has external storage, and leaves
the memory as it was.  For an owned static array of capacity `N` and a source with
`b.getNumElems() >= N` whose storage lies outside the `_array` buffer of the new object,
it returns normally, the new array has `getData()` at its own `_array` buffer, and cell
`k` of that buffer holds the value of element `k` of `b` in storage order for every
`k < N`; cells outside the buffer keep their value. -/
theorem stat_construct_from_generic (T : Type) (m : Mem T) :
    (∀ (N self : Nat) (b : BaseArray),
        StatArray.ofBase N true self m b = (.error Fault.runtime_error, m)) ∧
    (∀ (N self : Nat) (b : BaseArray), N ≤ b.getNumElems →
        (∀ k : Nat, k < N → b.storageAddr k < self ∨ self + N ≤ b.storageAddr k) →
        (StatArray.ofBase N false self m b).1 = .ok { _array := self, _data := self } ∧
        (∀ k : Nat, k < N →
          (StatArray.ofBase N false self m b).2 (self + k) = m (b.storageAddr k)) ∧
        (∀ q : Nat, q < self ∨ self + N ≤ q → (StatArray.ofBase N false self m b).2 q = m q)) := by
  refine ⟨fun N self b => rfl, ?_⟩
  intro N self b hN hdisj
  have h := BaseArray_getDataCopy_spec b m self N hN hdisj
  have h1 : (StatArray.ofBase N false self m b).1
      = (match (b.getDataCopy m self N).1 with
          | .ok _ => .ok { _array := self, _data := self }
          | .error e => .error e) := rfl
  have h2 : (StatArray.ofBase N false self m b).2 = (b.getDataCopy m self N).2 := rfl
  rw [h1, h2, h.1]
  exact ⟨rfl, h.2.1, h.2.2⟩

/-- Witness of C38: an owned static vector of capacity 3 with its buffer at address 300 is
constructed from the reference vector over the scalars at the addresses 100, 101, 102. -/
theorem stat_construct_from_generic_witness :
    3 ≤ (BaseArray.refDim1 3 sampleRefDim1).getNumElems ∧
    (StatArray.ofBase 3 false 300 sampleMemTen (BaseArray.refDim1 3 sampleRefDim1)).1
      = .ok { _array := 300, _data := 300 } ∧
    (∀ k : Nat, k < 3 →
      (StatArray.ofBase 3 false 300 sampleMemTen (BaseArray.refDim1 3 sampleRefDim1)).2
          (300 + k)
        = sampleMemTen ((BaseArray.refDim1 3 sampleRefDim1).storageAddr k)) :=
  ⟨by decide,
    ((stat_construct_from_generic Int sampleMemTen).2 3 300
      (BaseArray.refDim1 3 sampleRefDim1) (by decide) (by decide)).1,
    ((stat_construct_from_generic Int sampleMemTen).2 3 300
      (BaseArray.refDim1 3 sampleRefDim1) (by decide) (by decide)).2.1⟩

/-! ## hpgvd: the workspace protocol -/

theorem hpgvd_impl_real_invoke_ok {W R : Type} (env : SpgvdEnv W R) (itype : Int)
    (jobz : Char) (x : HpgvdArgs) (work iwork : WorkArray) (s : LapackRun W SpgvdCall)
    (h1 : iwork.size ≥ hpgvd_impl_real.min_size_iwork jobz x.size_column_ap)
    (h2 : work.size ≥ hpgvd_impl_real.min_size_work jobz x.size_column_ap)
    (h3 : x.size_column_ap ≥ 0) (h4 : x.size_minor_z = 1 ∨ x.stride_minor_z = 1)
    (h5 : jobz = 'N' ∨ jobz = 'V') :
    hpgvd_impl_real.invoke env itype jobz x work iwork s
      = (.ok (env.routine (SpgvdCall.compute itype jobz x work iwork) s.world).1,
          { world := (env.routine (SpgvdCall.compute itype jobz x work iwork) s.world).2,
            calls := s.calls ++ [SpgvdCall.compute itype jobz x work iwork] }) := by
  unfold hpgvd_impl_real.invoke
  rw [if_pos h1, if_pos h2, if_pos h3, if_pos h4, if_pos h5]
  rfl

theorem hpgvd_impl_complex_invoke_ok {W V R : Type} (env : HpgvdEnv W V R) (itype : Int)
    (jobz : Char) (x : HpgvdArgs) (work rwork iwork : WorkArray) (s : LapackRun W HpgvdCall)
    (h1 : iwork.size ≥ hpgvd_impl_complex.min_size_iwork jobz x.size_column_ap)
    (h1r : rwork.size ≥ hpgvd_impl_complex.min_size_rwork jobz x.size_column_ap)
    (h2 : work.size ≥ hpgvd_impl_complex.min_size_work jobz x.size_column_ap)
    (h3 : x.size_column_ap ≥ 0) (h4 : x.size_minor_z = 1 ∨ x.stride_minor_z = 1)
    (h5 : jobz = 'N' ∨ jobz = 'V') :
    hpgvd_impl_complex.invoke env itype jobz x work rwork iwork s
      = (.ok (env.routine (HpgvdCall.compute itype jobz x work rwork iwork) s.world).1,
          { world := (env.routine (HpgvdCall.compute itype jobz x work rwork iwork) s.world).2,
            calls := s.calls ++ [HpgvdCall.compute itype jobz x work rwork iwork] }) := by
  unfold hpgvd_impl_complex.invoke
  rw [if_pos h1, if_pos h1r, if_pos h2, if_pos h3, if_pos h4, if_pos h5]
  rfl

/-- C39: the optimal-workspace overload of `hpgvd`, for a real and for a complex value
type, with arguments that pass the assertions of the user-workspace overload (`jobz` is
`'N'` or `'V'`, `n >= 0`, `z` has a unit minor stride or minor size 1, and the sizes that
the query reports are not below the minimum sizes): it calls the LAPACK routine exactly
twice, first with the deduced `itype`, `jobz`, `n` and matrix arguments and every workspace
length `-1`, then with the same `itype`, `jobz`, `n` and matrix arguments and the freshly
allocated workspaces, whose lengths are `to_int` of the sizes that the first call stored in
the size variables (the integer size as it is), and it returns the `info` of the second
call. -/
theorem hpgvd_optimal_two_phase :
    (∀ (W R : Type) (env : SpgvdEnv W R) (itype : Int) (jobz : Char) (x : HpgvdArgs)
        (opt_size_work opt_size_iwork tmp_work tmp_iwork : Nat) (s : LapackRun W SpgvdCall),
        env.intAt (env.routine (SpgvdCall.query itype jobz x opt_size_work opt_size_iwork)
            s.world).2 opt_size_iwork
          ≥ hpgvd_impl_real.min_size_iwork jobz x.size_column_ap →
        env.to_int (env.realAt (env.routine
            (SpgvdCall.query itype jobz x opt_size_work opt_size_iwork) s.world).2
            opt_size_work)
          ≥ hpgvd_impl_real.min_size_work jobz x.size_column_ap →
        x.size_column_ap ≥ 0 → (x.size_minor_z = 1 ∨ x.stride_minor_z = 1) →
        (jobz = 'N' ∨ jobz = 'V') →
        (hpgvd_impl_real.invoke_optimal env itype jobz x opt_size_work opt_size_iwork
            tmp_work tmp_iwork s).2.calls
          = s.calls ++
            [SpgvdCall.query itype jobz x opt_size_work opt_size_iwork,
             SpgvdCall.compute itype jobz x
              { begin_value := tmp_work,
                size := env.to_int (env.realAt (env.routine
                  (SpgvdCall.query itype jobz x opt_size_work opt_size_iwork) s.world).2
                  opt_size_work) }
              { begin_value := tmp_iwork,
                size := env.intAt (env.routine
                  (SpgvdCall.query itype jobz x opt_size_work opt_size_iwork) s.world).2
                  opt_size_iwork }] ∧
        (hpgvd_impl_real.invoke_optimal env itype jobz x opt_size_work opt_size_iwork
            tmp_work tmp_iwork s).1
          = .ok (env.routine
              (SpgvdCall.compute itype jobz x
                { begin_value := tmp_work,
                  size := env.to_int (env.realAt (env.routine
                    (SpgvdCall.query itype jobz x opt_size_work opt_size_iwork) s.world).2
                    opt_size_work) }
                { begin_value := tmp_iwork,
                  size := env.intAt (env.routine
                    (SpgvdCall.query itype jobz x opt_size_work opt_size_iwork) s.world).2
                    opt_size_iwork })
              (env.routine (SpgvdCall.query itype jobz x opt_size_work opt_size_iwork)
                s.world).2).1) ∧
    (∀ (W V R : Type) (env : HpgvdEnv W V R) (itype : Int) (jobz : Char) (x : HpgvdArgs)
        (opt_size_work opt_size_rwork opt_size_iwork tmp_work tmp_rwork tmp_iwork : Nat)
        (s : LapackRun W HpgvdCall),
        env.intAt (env.routine
            (HpgvdCall.query itype jobz x opt_size_work opt_size_rwork opt_size_iwork)
            s.world).2 opt_size_iwork
          ≥ hpgvd_impl_complex.min_size_iwork jobz x.size_column_ap →
        env.to_int_real (env.realAt (env.routine
            (HpgvdCall.query itype jobz x opt_size_work opt_size_rwork opt_size_iwork)
            s.world).2 opt_size_rwork)
          ≥ hpgvd_impl_complex.min_size_rwork jobz x.size_column_ap →
        env.to_int_value (env.valueAt (env.routine
            (HpgvdCall.query itype jobz x opt_size_work opt_size_rwork opt_size_iwork)
            s.world).2 opt_size_work)
          ≥ hpgvd_impl_complex.min_size_work jobz x.size_column_ap →
        x.size_column_ap ≥ 0 → (x.size_minor_z = 1 ∨ x.stride_minor_z = 1) →
        (jobz = 'N' ∨ jobz = 'V') →
        (hpgvd_impl_complex.invoke_optimal env itype jobz x opt_size_work opt_size_rwork
            opt_size_iwork tmp_work tmp_rwork tmp_iwork s).2.calls
          = s.calls ++
            [HpgvdCall.query itype jobz x opt_size_work opt_size_rwork opt_size_iwork,
             HpgvdCall.compute itype jobz x
              { begin_value := tmp_work,
                size := env.to_int_value (env.valueAt (env.routine
                  (HpgvdCall.query itype jobz x opt_size_work opt_size_rwork opt_size_iwork)
                  s.world).2 opt_size_work) }
              { begin_value := tmp_rwork,
                size := env.to_int_real (env.realAt (env.routine
                  (HpgvdCall.query itype jobz x opt_size_work opt_size_rwork opt_size_iwork)
                  s.world).2 opt_size_rwork) }
              { begin_value := tmp_iwork,
                size := env.intAt (env.routine
                  (HpgvdCall.query itype jobz x opt_size_work opt_size_rwork opt_size_iwork)
                  s.world).2 opt_size_iwork }] ∧
        (hpgvd_impl_complex.invoke_optimal env itype jobz x opt_size_work opt_size_rwork
            opt_size_iwork tmp_work tmp_rwork tmp_iwork s).1
          = .ok (env.routine
              (HpgvdCall.compute itype jobz x
                { begin_value := tmp_work,
                  size := env.to_int_value (env.valueAt (env.routine
                    (HpgvdCall.query itype jobz x opt_size_work opt_size_rwork
                      opt_size_iwork) s.world).2 opt_size_work) }
                { begin_value := tmp_rwork,
                  size := env.to_int_real (env.realAt (env.routine
                    (HpgvdCall.query itype jobz x opt_size_work opt_size_rwork
                      opt_size_iwork) s.world).2 opt_size_rwork) }
                { begin_value := tmp_iwork,
                  size := env.intAt (env.routine
                    (HpgvdCall.query itype jobz x opt_size_work opt_size_rwork
                      opt_size_iwork) s.world).2 opt_size_iwork })
              (env.routine
                (HpgvdCall.query itype jobz x opt_size_work opt_size_rwork opt_size_iwork)
                s.world).2).1) := by
  refine ⟨?_, ?_⟩
  · intro W R env itype jobz x ow oi tw ti s h1 h2 h3 h4 h5
    have h := hpgvd_impl_real_invoke_ok env itype jobz x
      { begin_value := tw,
        size := env.to_int (env.realAt (env.routine (SpgvdCall.query itype jobz x ow oi)
          s.world).2 ow) }
      { begin_value := ti,
        size := env.intAt (env.routine (SpgvdCall.query itype jobz x ow oi) s.world).2 oi }
      (detail.hpgvd_real env (SpgvdCall.query itype jobz x ow oi) s).2 h1 h2 h3 h4 h5
    have hdef : hpgvd_impl_real.invoke_optimal env itype jobz x ow oi tw ti s
        = hpgvd_impl_real.invoke env itype jobz x
            { begin_value := tw,
              size := env.to_int (env.realAt (env.routine (SpgvdCall.query itype jobz x ow oi)
                s.world).2 ow) }
            { begin_value := ti,
              size := env.intAt (env.routine (SpgvdCall.query itype jobz x ow oi)
                s.world).2 oi }
            (detail.hpgvd_real env (SpgvdCall.query itype jobz x ow oi) s).2 := rfl
    rw [hdef, h]
    refine ⟨?_, rfl⟩
    show (s.calls ++ [SpgvdCall.query itype jobz x ow oi]) ++ [_] = _
    rw [List.append_assoc]
    rfl
  · intro W V R env itype jobz x ow orw oi tw trw ti s h1 h1r h2 h3 h4 h5
    have h := hpgvd_impl_complex_invoke_ok env itype jobz x
      { begin_value := tw,
        size := env.to_int_value (env.valueAt (env.routine
          (HpgvdCall.query itype jobz x ow orw oi) s.world).2 ow) }
      { begin_value := trw,
        size := env.to_int_real (env.realAt (env.routine
          (HpgvdCall.query itype jobz x ow orw oi) s.world).2 orw) }
      { begin_value := ti,
        size := env.intAt (env.routine (HpgvdCall.query itype jobz x ow orw oi)
          s.world).2 oi }
      (detail.hpgvd_complex env (HpgvdCall.query itype jobz x ow orw oi) s).2
      h1 h1r h2 h3 h4 h5
    have hdef : hpgvd_impl_complex.invoke_optimal env itype jobz x ow orw oi tw trw ti s
        = hpgvd_impl_complex.invoke env itype jobz x
            { begin_value := tw,
              size := env.to_int_value (env.valueAt (env.routine
                (HpgvdCall.query itype jobz x ow orw oi) s.world).2 ow) }
            { begin_value := trw,
              size := env.to_int_real (env.realAt (env.routine
                (HpgvdCall.query itype jobz x ow orw oi) s.world).2 orw) }
            { begin_value := ti,
              size := env.intAt (env.routine (HpgvdCall.query itype jobz x ow orw oi)
                s.world).2 oi }
            (detail.hpgvd_complex env (HpgvdCall.query itype jobz x ow orw oi) s).2 := rfl
    rw [hdef, h]
    refine ⟨?_, rfl⟩
    show (s.calls ++ [HpgvdCall.query itype jobz x ow orw oi]) ++ [_] = _
    rw [List.append_assoc]
    rfl

/-- Witness of C39: the stand-in routines report the sizes 56 and 28 (real) and 10, 76 and
28 (complex) for a matrix of order 5 with `jobz = 'V'`; the size variables are at the
addresses 1, 2, 3 and the allocated workspaces at the addresses 100, 200, 300. -/
theorem hpgvd_optimal_two_phase_witness :
    ((hpgvd_impl_real.invoke_optimal sampleSpgvdEnv 1 'V' sampleHpgvdArgs 1 2 100 200
        sampleSpgvdRun).2.calls
      = sampleSpgvdRun.calls ++
        [SpgvdCall.query 1 'V' sampleHpgvdArgs 1 2,
         SpgvdCall.compute 1 'V' sampleHpgvdArgs
          { begin_value := 100, size := 56 } { begin_value := 200, size := 28 }]) ∧
    ((hpgvd_impl_complex.invoke_optimal sampleHpgvdEnv 1 'V' sampleHpgvdArgs 1 2 3 100 200 300
        sampleHpgvdRun).2.calls
      = sampleHpgvdRun.calls ++
        [HpgvdCall.query 1 'V' sampleHpgvdArgs 1 2 3,
         HpgvdCall.compute 1 'V' sampleHpgvdArgs
          { begin_value := 100, size := 10 } { begin_value := 200, size := 76 }
          { begin_value := 300, size := 28 }]) :=
  ⟨(hpgvd_optimal_two_phase.1 (Mem Int) Int sampleSpgvdEnv 1 'V' sampleHpgvdArgs 1 2 100 200
      sampleSpgvdRun (by decide) (by decide) (by decide) (by decide) (by decide)).1,
    (hpgvd_optimal_two_phase.2 (Mem Int) Int Int sampleHpgvdEnv 1 'V' sampleHpgvdArgs 1 2 3 100
      200 300 sampleHpgvdRun (by decide) (by decide) (by decide) (by decide) (by decide)
      (by decide)).1⟩

/-! ## hpgvd: the minimum workspace sizes -/

theorem wrapPtrdiff_of_range {x : Int} (h0 : 0 ≤ x) (h1 : x ≤ PTRDIFF_MAX) :
    wrapPtrdiff x = x := by
  unfold wrapPtrdiff
  unfold PTRDIFF_MAX at h1
  omega

/-- Counterexample to C40: for `jobz = 'N'` and `n = 2^62`, a value of `std::ptrdiff_t`,
the real `min_size_work` returns `2*n`, which overflows and wraps to `-2^63`, below 1; for
`jobz = 'V'` and `n = 2^31`, the complex `min_size_rwork` returns `1 + 5*n + 2*n*n`, which
wraps to `-2^63 + 5*2^31 + 1`, below 1. -/
theorem hpgvd_min_size_overflows :
    hpgvd_impl_real.min_size_work 'N' 4611686018427387904 = -9223372036854775808 ∧
    ¬ (1 ≤ hpgvd_impl_real.min_size_work 'N' 4611686018427387904) ∧
    hpgvd_impl_complex.min_size_rwork 'V' 2147483648 = -9223372026117357567 ∧
    ¬ (1 ≤ hpgvd_impl_complex.min_size_rwork 'V' 2147483648) := by
  decide

/-- C40, amended: each minimum-workspace size function of `hpgvd` returns a value `>= 1`
for every `jobz` and every integer `n`, also `n <= 0`, for which the returned expression
is a value of `std::ptrdiff_t` (no signed overflow); and the minimal-workspace overload,
real and complex, allocates workspaces of exactly these sizes, so the size assertions of
the user-workspace overload hold: with `n >= 0`, a unit minor stride or minor size 1 of
`z` and `jobz` in `'N'`, `'V'`, the call reaches the LAPACK routine, once, with these
workspaces and lengths, and returns its `info`. -/
theorem hpgvd_min_sizes_positive :
    (∀ (jobz : Char) (n : Int),
        (2 ≤ n → jobz = 'N' → 2 * n ≤ PTRDIFF_MAX) →
        (2 ≤ n → jobz ≠ 'N' → 1 + 6 * n + n * n ≤ PTRDIFF_MAX) →
        1 ≤ hpgvd_impl_real.min_size_work jobz n) ∧
    (∀ (jobz : Char) (n : Int),
        (2 ≤ n → jobz ≠ 'N' → 3 + 5 * n ≤ PTRDIFF_MAX) →
        1 ≤ hpgvd_impl_real.min_size_iwork jobz n) ∧
    (∀ (jobz : Char) (n : Int),
        (2 ≤ n → jobz ≠ 'N' → 2 * n ≤ PTRDIFF_MAX) →
        1 ≤ hpgvd_impl_complex.min_size_work jobz n) ∧
    (∀ (jobz : Char) (n : Int),
        (2 ≤ n → jobz ≠ 'N' → 1 + 5 * n + 2 * n * n ≤ PTRDIFF_MAX) →
        1 ≤ hpgvd_impl_complex.min_size_rwork jobz n) ∧
    (∀ (jobz : Char) (n : Int),
        (2 ≤ n → jobz ≠ 'N' → 3 + 5 * n ≤ PTRDIFF_MAX) →
        1 ≤ hpgvd_impl_complex.min_size_iwork jobz n) ∧
    (∀ (W R : Type) (env : SpgvdEnv W R) (itype : Int) (jobz : Char) (x : HpgvdArgs)
        (tmp_work tmp_iwork : Nat) (s : LapackRun W SpgvdCall),
        x.size_column_ap ≥ 0 → (x.size_minor_z = 1 ∨ x.stride_minor_z = 1) →
        (jobz = 'N' ∨ jobz = 'V') →
        hpgvd_impl_real.invoke_minimal env itype jobz x tmp_work tmp_iwork s
          = (.ok (env.routine (SpgvdCall.compute itype jobz x
                { begin_value := tmp_work,
                  size := hpgvd_impl_real.min_size_work jobz x.size_column_ap }
                { begin_value := tmp_iwork,
                  size := hpgvd_impl_real.min_size_iwork jobz x.size_column_ap })
                s.world).1,
              { world := (env.routine (SpgvdCall.compute itype jobz x
                  { begin_value := tmp_work,
                    size := hpgvd_impl_real.min_size_work jobz x.size_column_ap }
                  { begin_value := tmp_iwork,
                    size := hpgvd_impl_real.min_size_iwork jobz x.size_column_ap })
                  s.world).2,
                calls := s.calls ++ [SpgvdCall.compute itype jobz x
                  { begin_value := tmp_work,
                    size := hpgvd_impl_real.min_size_work jobz x.size_column_ap }
                  { begin_value := tmp_iwork,
                    size := hpgvd_impl_real.min_size_iwork jobz x.size_column_ap }] })) ∧
    (∀ (W V R : Type) (env : HpgvdEnv W V R) (itype : Int) (jobz : Char) (x : HpgvdArgs)
        (tmp_work tmp_rwork tmp_iwork : Nat) (s : LapackRun W HpgvdCall),
        x.size_column_ap ≥ 0 → (x.size_minor_z = 1 ∨ x.stride_minor_z = 1) →
        (jobz = 'N' ∨ jobz = 'V') →
        hpgvd_impl_complex.invoke_minimal env itype jobz x tmp_work tmp_rwork tmp_iwork s
          = (.ok (env.routine (HpgvdCall.compute itype jobz x
                { begin_value := tmp_work,
                  size := hpgvd_impl_complex.min_size_work jobz x.size_column_ap }
                { begin_value := tmp_rwork,
                  size := hpgvd_impl_complex.min_size_rwork jobz x.size_column_ap }
                { begin_value := tmp_iwork,
                  size := hpgvd_impl_complex.min_size_iwork jobz x.size_column_ap })
                s.world).1,
              { world := (env.routine (HpgvdCall.compute itype jobz x
                  { begin_value := tmp_work,
                    size := hpgvd_impl_complex.min_size_work jobz x.size_column_ap }
                  { begin_value := tmp_rwork,
                    size := hpgvd_impl_complex.min_size_rwork jobz x.size_column_ap }
                  { begin_value := tmp_iwork,
                    size := hpgvd_impl_complex.min_size_iwork jobz x.size_column_ap })
                  s.world).2,
                calls := s.calls ++ [HpgvdCall.compute itype jobz x
                  { begin_value := tmp_work,
                    size := hpgvd_impl_complex.min_size_work jobz x.size_column_ap }
                  { begin_value := tmp_rwork,
                    size := hpgvd_impl_complex.min_size_rwork jobz x.size_column_ap }
                  { begin_value := tmp_iwork,
                    size := hpgvd_impl_complex.min_size_iwork jobz x.size_column_ap }] })) := by
  refine ⟨?_, ?_, ?_, ?_, ?_, ?_, ?_⟩
  · intro jobz n hN hV
    unfold hpgvd_impl_real.min_size_work
    by_cases h2 : n < 2
    · rw [if_pos h2]
    · rw [if_neg h2]
      by_cases hj : jobz = 'N'
      · rw [if_pos hj, wrapPtrdiff_of_range (by omega) (hN (by omega) hj)]
        omega
      · have hsq : 0 ≤ n * n := Int.mul_nonneg (by omega) (by omega)
        rw [if_neg hj, wrapPtrdiff_of_range (by omega) (hV (by omega) hj)]
        omega
  · intro jobz n hV
    unfold hpgvd_impl_real.min_size_iwork
    by_cases hc : jobz = 'N' ∨ n < 2
    · rw [if_pos hc]
    · have hj : jobz ≠ 'N' := fun h => hc (Or.inl h)
      have hn : ¬ n < 2 := fun h => hc (Or.inr h)
      rw [if_neg hc, wrapPtrdiff_of_range (by omega) (hV (by omega) hj)]
      omega
  · intro jobz n hV
    unfold hpgvd_impl_complex.min_size_work
    by_cases h2 : n < 2
    · rw [if_pos h2]
    · rw [if_neg h2]
      by_cases hj : jobz = 'N'
      · rw [if_pos hj]
        omega
      · rw [if_neg hj, wrapPtrdiff_of_range (by omega) (hV (by omega) hj)]
        omega
  · intro jobz n hV
    unfold hpgvd_impl_complex.min_size_rwork
    by_cases h2 : n < 2
    · rw [if_pos h2]
    · rw [if_neg h2]
      by_cases hj : jobz = 'N'
      · rw [if_pos hj]
        omega
      · have hsq : 0 ≤ 2 * n * n := Int.mul_nonneg (by omega) (by omega)
        rw [if_neg hj, wrapPtrdiff_of_range (by omega) (hV (by omega) hj)]
        omega
  · intro jobz n hV
    unfold hpgvd_impl_complex.min_size_iwork
    by_cases hc : jobz = 'N' ∨ n < 2
    · rw [if_pos hc]
    · have hj : jobz ≠ 'N' := fun h => hc (Or.inl h)
      have hn : ¬ n < 2 := fun h => hc (Or.inr h)
      rw [if_neg hc, wrapPtrdiff_of_range (by omega) (hV (by omega) hj)]
      omega
  · intro W R env itype jobz x tw ti s h3 h4 h5
    exact hpgvd_impl_real_invoke_ok env itype jobz x _ _ s (le_refl _) (le_refl _) h3 h4 h5
  · intro W V R env itype jobz x tw trw ti s h3 h4 h5
    exact hpgvd_impl_complex_invoke_ok env itype jobz x _ _ _ s (le_refl _) (le_refl _)
      (le_refl _) h3 h4 h5

/-- Witness of the amended C40: the five minimum sizes for `jobz = 'V'` and `n = 5`, and for `n = -3`,
and the minimal-workspace overload on the stand-in routine for a matrix of order 5. -/
theorem hpgvd_min_sizes_positive_witness :
    (1 ≤ hpgvd_impl_real.min_size_work 'V' 5 ∧ 1 ≤ hpgvd_impl_real.min_size_work 'V' (-3)) ∧
    1 ≤ hpgvd_impl_real.min_size_iwork 'V' 5 ∧
    1 ≤ hpgvd_impl_complex.min_size_work 'V' 5 ∧
    1 ≤ hpgvd_impl_complex.min_size_rwork 'V' 5 ∧
    1 ≤ hpgvd_impl_complex.min_size_iwork 'V' (-3) ∧
    (hpgvd_impl_real.invoke_minimal sampleSpgvdEnv 1 'V' sampleHpgvdArgs 100 200
      sampleSpgvdRun).1 = .ok 0 :=
  ⟨⟨hpgvd_min_sizes_positive.1 'V' 5 (by decide) (by decide),
      hpgvd_min_sizes_positive.1 'V' (-3) (by decide) (by decide)⟩,
    hpgvd_min_sizes_positive.2.1 'V' 5 (by decide),
    hpgvd_min_sizes_positive.2.2.1 'V' 5 (by decide),
    hpgvd_min_sizes_positive.2.2.2.1 'V' 5 (by decide),
    hpgvd_min_sizes_positive.2.2.2.2.1 'V' (-3) (by decide),
    congrArg Prod.fst (hpgvd_min_sizes_positive.2.2.2.2.2.1 (Mem Int) Int sampleSpgvdEnv 1 'V'
      sampleHpgvdArgs 100 200 sampleSpgvdRun (by decide) (by decide) (by decide))⟩
